import Mathlib

/-! # SoapySDR Java binding: `Device` wrapper (`java/DeviceWrapper.hpp`)

A shallow embedding of the wrapper class `SoapySDR::Java::Device` and of its
cleanup functor `DeviceDeleter`.

* The native library (`SoapySDR::Device`) is outside the wrapper.  Each member
  function of the native device that the wrapper calls is one constructor of
  `NativeCall`; a `Native W` value gives the behaviour of the library over an
  arbitrary world state `W`, so every theorem holds for every native library.
* A wrapper method is a `Prog`: a tree whose nodes are the native calls the
  method makes and the assignments it makes to the data member, in program
  order.  `Prog.run` executes it against a `Native W` and records the calls
  that were made; `Prog.member` gives the data member the run leaves in the
  object.
* `assert` is the `<cassert>` macro with `NDEBUG` not defined (the header does
  not define it): a failed assertion aborts before the next statement.
* `std::shared_ptr` is modelled by control blocks with a use count.
-/

namespace SoapySDR
namespace Java

/-! ## Values that cross the boundary -/

/-- Address of a native `SoapySDR::Device`; `0` is the null pointer. -/
abbrev Ptr := Nat

/-- A C++ `double`, carried by its bit pattern: the wrapper never computes on one. -/
structure Double where
  bits : Nat
deriving DecidableEq, Repr, Inhabited

/-- Modelled from the spec: `SoapySDR::Kwargs` is declared by the native
library, outside the sources at hand; it is the "key/value argument map", kept
here as its entries. -/
abbrev Kwargs := List (String × String)

/-- Modelled from the spec: `SoapySDR::Range` is declared by the native library,
outside the sources at hand.  The wrapper "forwards directly" and never looks
inside one, so a value is carried as uninterpreted content. -/
structure Range where
  content : List Nat
deriving DecidableEq, Repr, Inhabited

/-- Modelled from the spec: `SoapySDR::ArgInfo` is declared by the native
library, outside the sources at hand.  The wrapper "forwards directly" and never
looks inside one, so a value is carried as uninterpreted content. -/
structure ArgInfo where
  content : List Nat
deriving DecidableEq, Repr, Inhabited

/-- The type `SoapySDR::RangeList`, a `std::vector` of ranges. -/
abbrev RangeList := List Range

/-- The type `SoapySDR::ArgInfoList`, a `std::vector` of argument descriptions. -/
abbrev ArgInfoList := List ArgInfo

/-- Modelled from the spec: `UIntPtrT` and `SizeVector` are declared in
`JavaWrappers.hpp`, outside the sources at hand.  `UIntPtrT` is the
"pointer-sized integer" type, an unsigned integer of `Platform.ptrBits` bits;
`SizeVector` is the `std::vector` of them. -/
abbrev SizeVector := List Nat

/-- Modelled from the spec: `SoapySDR::Java::Direction` is declared in
`JavaWrappers.hpp`, outside the sources at hand.  It is the
"enumerated value distinguishing transmit and receive signal paths"; a value of
a C++ enumeration is carried by its underlying integer, which is what
`int(direction)` reads. -/
structure Direction where
  toInt : Int
deriving DecidableEq, Repr, Inhabited

/-- The conversion `int(direction)`. -/
def int (direction : Direction) : Int := direction.toInt

/-- What a native function may throw: the two cases the `catch` clauses of
`DeviceDeleter` tell apart. -/
inductive Exn where
  | std (what : String)
  | other
deriving DecidableEq, Repr

/-- Order in which the two operands of a binary operator are evaluated; C++
leaves it to the compiler for `+` and `==`. -/
inductive EvalOrder where
  | leftFirst
  | rightFirst
deriving DecidableEq, Repr

/-- Properties of the target platform that the header does not fix. -/
structure Platform where
  /-- width of `UIntPtrT` in bits -/
  ptrBits : Nat
  /-- width of `long` in bits -/
  longBits : Nat
  /-- operand order of `std::string + std::string` -/
  plusOrder : EvalOrder
  /-- operand order of `std::string == std::string` -/
  eqOrder : EvalOrder
deriving DecidableEq, Repr

/-! ## The native device interface -/

/-- One call of a member function of `SoapySDR::Device`, with its arguments.
Overloads of one C++ name are told apart by a suffix naming the extra
parameter. -/
inductive NativeCall where
  | getDriverKey
  | getHardwareKey
  | getHardwareInfo
  | setFrontendMapping (direction : Int) (mapping : String)
  | getFrontendMapping (direction : Int)
  | getNumChannels (direction : Int)
  | getChannelInfo (direction : Int) (channel : Nat)
  | getFullDuplex (direction : Int) (channel : Nat)
  | getStreamFormats (direction : Int) (channel : Nat)
  | getNativeStreamFormat (direction : Int) (channel : Nat) (fullScale : Double)
  | getStreamArgsInfo (direction : Int) (channel : Nat)
  | listAntennas (direction : Int) (channel : Nat)
  | setAntenna (direction : Int) (channel : Nat) (name : String)
  | getAntenna (direction : Int) (channel : Nat)
  | hasDCOffsetMode (direction : Int) (channel : Nat)
  | setDCOffsetMode (direction : Int) (channel : Nat) (automatic : Bool)
  | getDCOffsetMode (direction : Int) (channel : Nat)
  | hasDCOffset (direction : Int) (channel : Nat)
  | hasIQBalance (direction : Int) (channel : Nat)
  | hasIQBalanceMode (direction : Int) (channel : Nat)
  | setIQBalanceMode (direction : Int) (channel : Nat) (automatic : Bool)
  | getIQBalanceMode (direction : Int) (channel : Nat)
  | hasFrequencyCorrection (direction : Int) (channel : Nat)
  | setFrequencyCorrection (direction : Int) (channel : Nat) (value : Double)
  | getFrequencyCorrection (direction : Int) (channel : Nat)
  | listGains (direction : Int) (channel : Nat)
  | hasGainMode (direction : Int) (channel : Nat)
  | setGainMode (direction : Int) (channel : Nat) (automatic : Bool)
  | getGainMode (direction : Int) (channel : Nat)
  | setGain (direction : Int) (channel : Nat) (value : Double)
  | setGain_name (direction : Int) (channel : Nat) (name : String) (value : Double)
  | getGain (direction : Int) (channel : Nat)
  | getGain_name (direction : Int) (channel : Nat) (name : String)
  | getGainRange (direction : Int) (channel : Nat)
  | getGainRange_name (direction : Int) (channel : Nat) (name : String)
  | setFrequency (direction : Int) (channel : Nat) (frequency : Double) (args : Kwargs)
  | setFrequency_name (direction : Int) (channel : Nat) (name : String) (frequency : Double) (args : Kwargs)
  | getFrequency (direction : Int) (channel : Nat)
  | getFrequency_name (direction : Int) (channel : Nat) (name : String)
  | listFrequencies (direction : Int) (channel : Nat)
  | getFrequencyRange (direction : Int) (channel : Nat)
  | getFrequencyRange_name (direction : Int) (channel : Nat) (name : String)
  | getFrequencyArgsInfo (direction : Int) (channel : Nat)
  | setSampleRate (direction : Int) (channel : Nat) (rate : Double)
  | getSampleRate (direction : Int) (channel : Nat)
  | getSampleRateRange (direction : Int) (channel : Nat)
  | setBandwidth (direction : Int) (channel : Nat) (bandwidth : Double)
  | getBandwidth (direction : Int) (channel : Nat)
  | getBandwidthRange (direction : Int) (channel : Nat)
  | setMasterClockRate (rate : Double)
  | getMasterClockRate
  | getMasterClockRates
  | setReferenceClockRate (rate : Double)
  | getReferenceClockRate
  | getReferenceClockRates
  | listClockSources
  | setClockSource (source : String)
  | getClockSource
  | listTimeSources
  | setTimeSource (source : String)
  | getTimeSource
  | hasHardwareTime (what : String)
  | getHardwareTime (what : String)
  | setHardwareTime (timeNs : Int) (what : String)
  | listSensors
  | getSensorInfo (key : String)
  | readSensor (key : String)
  | listSensors_channel (direction : Int) (channel : Nat)
  | getSensorInfo_channel (direction : Int) (channel : Nat) (key : String)
  | readSensor_channel (direction : Int) (channel : Nat) (key : String)
  | listRegisterInterfaces
  | writeRegister (name : String) (addr : Nat) (value : Nat)
  | readRegister (name : String) (addr : Nat)
  | writeRegisters (name : String) (addr : Nat) (value : List Nat)
  | readRegisters (name : String) (addr : Nat) (length : Nat)
  | getSettingInfo
  | writeSetting (key : String) (value : String)
  | readSetting (key : String)
  | getSettingInfo_channel (direction : Int) (channel : Nat)
  | writeSetting_channel (direction : Int) (channel : Nat) (key : String) (value : String)
  | readSetting_channel (direction : Int) (channel : Nat) (key : String)
  | listGPIOBanks
  | writeGPIO (bank : String) (value : Nat)
  | writeGPIO_mask (bank : String) (value : Nat) (mask : Nat)
  | readGPIO (bank : String)
  | writeGPIODir (bank : String) (dir : Nat)
  | writeGPIODir_mask (bank : String) (dir : Nat) (mask : Nat)
  | readGPIODir (bank : String)
  | writeI2C (addr : Int) (data : String)
  | readI2C (addr : Int) (numBytes : Nat)
  | transactSPI (addr : Int) (data : Nat) (numBits : Nat)
  | listUARTs
  | writeUART (which : String) (data : String)
  | readUART (which : String) (timeoutUs : Int)

def NativeCall.Ret : NativeCall → Type
  | .getDriverKey => String
  | .getHardwareKey => String
  | .getHardwareInfo => Kwargs
  | .setFrontendMapping _ _ => Unit
  | .getFrontendMapping _ => String
  | .getNumChannels _ => Nat
  | .getChannelInfo _ _ => Kwargs
  | .getFullDuplex _ _ => Bool
  | .getStreamFormats _ _ => List String
  | .getNativeStreamFormat _ _ _ => String × Double
  | .getStreamArgsInfo _ _ => ArgInfoList
  | .listAntennas _ _ => List String
  | .setAntenna _ _ _ => Unit
  | .getAntenna _ _ => String
  | .hasDCOffsetMode _ _ => Bool
  | .setDCOffsetMode _ _ _ => Unit
  | .getDCOffsetMode _ _ => Bool
  | .hasDCOffset _ _ => Bool
  | .hasIQBalance _ _ => Bool
  | .hasIQBalanceMode _ _ => Bool
  | .setIQBalanceMode _ _ _ => Unit
  | .getIQBalanceMode _ _ => Bool
  | .hasFrequencyCorrection _ _ => Bool
  | .setFrequencyCorrection _ _ _ => Unit
  | .getFrequencyCorrection _ _ => Double
  | .listGains _ _ => List String
  | .hasGainMode _ _ => Bool
  | .setGainMode _ _ _ => Unit
  | .getGainMode _ _ => Bool
  | .setGain _ _ _ => Unit
  | .setGain_name _ _ _ _ => Unit
  | .getGain _ _ => Double
  | .getGain_name _ _ _ => Double
  | .getGainRange _ _ => Range
  | .getGainRange_name _ _ _ => Range
  | .setFrequency _ _ _ _ => Unit
  | .setFrequency_name _ _ _ _ _ => Unit
  | .getFrequency _ _ => Double
  | .getFrequency_name _ _ _ => Double
  | .listFrequencies _ _ => List String
  | .getFrequencyRange _ _ => RangeList
  | .getFrequencyRange_name _ _ _ => RangeList
  | .getFrequencyArgsInfo _ _ => ArgInfoList
  | .setSampleRate _ _ _ => Unit
  | .getSampleRate _ _ => Double
  | .getSampleRateRange _ _ => RangeList
  | .setBandwidth _ _ _ => Unit
  | .getBandwidth _ _ => Double
  | .getBandwidthRange _ _ => RangeList
  | .setMasterClockRate _ => Unit
  | .getMasterClockRate => Double
  | .getMasterClockRates => RangeList
  | .setReferenceClockRate _ => Unit
  | .getReferenceClockRate => Double
  | .getReferenceClockRates => RangeList
  | .listClockSources => List String
  | .setClockSource _ => Unit
  | .getClockSource => String
  | .listTimeSources => List String
  | .setTimeSource _ => Unit
  | .getTimeSource => String
  | .hasHardwareTime _ => Bool
  | .getHardwareTime _ => Int
  | .setHardwareTime _ _ => Unit
  | .listSensors => List String
  | .getSensorInfo _ => ArgInfo
  | .readSensor _ => String
  | .listSensors_channel _ _ => List String
  | .getSensorInfo_channel _ _ _ => ArgInfo
  | .readSensor_channel _ _ _ => String
  | .listRegisterInterfaces => List String
  | .writeRegister _ _ _ => Unit
  | .readRegister _ _ => Nat
  | .writeRegisters _ _ _ => Unit
  | .readRegisters _ _ _ => List Nat
  | .getSettingInfo => ArgInfoList
  | .writeSetting _ _ => Unit
  | .readSetting _ => String
  | .getSettingInfo_channel _ _ => ArgInfoList
  | .writeSetting_channel _ _ _ _ => Unit
  | .readSetting_channel _ _ _ => String
  | .listGPIOBanks => List String
  | NativeCall.writeGPIO _ _ => Unit
  | .writeGPIO_mask _ _ _ => Unit
  | NativeCall.readGPIO _ => Nat
  | .writeGPIODir _ _ => Unit
  | .writeGPIODir_mask _ _ _ => Unit
  | .readGPIODir _ => Nat
  | .writeI2C _ _ => Unit
  | .readI2C _ _ => String
  | .transactSPI _ _ _ => Nat
  | .listUARTs => List String
  | .writeUART _ _ => Unit
  | .readUART _ _ => String

/-- Behaviour of the native library over a world state `W`.  The library is
outside the sources at hand, so it is a parameter of everything below. -/
structure Native (W : Type) where
  /-- the factory `SoapySDR::Device::make(const Kwargs&)` -/
  make_kwargs : Kwargs → W → Except Exn Ptr × W
  /-- the factory `SoapySDR::Device::make(const std::string&)` -/
  make_string : String → W → Except Exn Ptr × W
  /-- the teardown `SoapySDR::Device::unmake(Device*)` -/
  unmake : Ptr → W → Except Exn Unit × W
  /-- a member function called on the device at an address -/
  exec : Ptr → (c : NativeCall) → W → Except Exn c.Ret × W

/-! ## The handle -/

/-- A `std::shared_ptr<SoapySDR::Device>`: the stored pointer and the control
block it shares ownership through. -/
structure SharedPtr where
  get : Ptr
  ctrl : Nat
deriving DecidableEq, Repr

/-- The class `SoapySDR::Java::Device`: its only data member is `_deviceSPtr`. -/
structure Device where
  _deviceSPtr : SharedPtr
deriving DecidableEq, Repr

/-! ## Programs over the native interface -/

/-- Body of a wrapper method: what it returns, which native calls it makes, and
what it assigns to the data member `_deviceSPtr` of the object it is called on.
The statements a body can be made of are a `return`, a failed `assert`, a call
of a native member function, and an assignment to `_deviceSPtr`. -/
inductive Prog (α : Type) where
  | ret (a : α)
  | assertFail
  | call (p : Ptr) (c : NativeCall) (k : c.Ret → Prog α)
  | assign (sp : SharedPtr) (k : Prog α)

/-- Sequencing of statements. -/
def Prog.bind {α β : Type} : Prog α → (α → Prog β) → Prog β
  | .ret a, f => f a
  | .assertFail, _ => .assertFail
  | .call p c k, f => .call p c (fun r => (k r).bind f)
  | .assign sp k, f => .assign sp (k.bind f)

instance : Monad Prog where
  pure := Prog.ret
  bind := Prog.bind

/-- How a call of a wrapper method ends. -/
inductive Outcome (α : Type) where
  | returned (a : α)
  | threw (e : Exn)
  | assertFailed

/-- Result of running a method body: its outcome, the world afterwards and the
native calls made, in order. -/
structure Run (W α : Type) where
  outcome : Outcome α
  world : W
  calls : List (Ptr × NativeCall)

/-- Execution of a method body against a native library.  An exception thrown
by a native call propagates out of the wrapper.  An assignment to the data
member makes no native call. -/
def Prog.run {W α : Type} (N : Native W) : Prog α → W → Run W α
  | .ret a, w => ⟨.returned a, w, []⟩
  | .assertFail, w => ⟨.assertFailed, w, []⟩
  | .call p c k, w =>
    match N.exec p c w with
    | (.ok r, w1) =>
      let rest := (k r).run N w1
      ⟨rest.outcome, rest.world, (p, c) :: rest.calls⟩
    | (.error e, w1) => ⟨.threw e, w1, [(p, c)]⟩
  | .assign _ k, w => k.run N w

/-- The data member `_deviceSPtr` of the object when the run of a method body
ends, by return, exception or failed assertion: the value last assigned during
the run, or the value at entry when the run assigned none. -/
def Prog.member {W α : Type} (N : Native W) : Prog α → W → SharedPtr → SharedPtr
  | .ret _, _, entry => entry
  | .assertFail, _, entry => entry
  | .call p c k, w, entry =>
    match N.exec p c w with
    | (.ok r, w1) => (k r).member N w1 entry
    | (.error _, _) => entry
  | .assign sp k, w, _ => k.member N w sp

/-- The statement `assert(_deviceSPtr)`: the contextual conversion of a
`shared_ptr` to `bool` is `get() != nullptr`. -/
def assert (sp : SharedPtr) : Prog Unit :=
  if sp.get ≠ 0 then .ret () else .assertFail

/-- The expression `_deviceSPtr->f(args)`: one call of a native member function
on the stored pointer. -/
def SharedPtr.arrow (sp : SharedPtr) (c : NativeCall) : Prog c.Ret :=
  .call sp.get c .ret

/-- The cast `static_cast<unsigned>(elem)` for a `UIntPtrT`; `unsigned` has 32 bits. -/
def static_cast_unsigned (elem : Nat) : Nat := elem % 2 ^ 32

/-- The cast `static_cast<UIntPtrT>(elem)` for an `unsigned`. -/
def static_cast_UIntPtrT (P : Platform) (elem : Nat) : Nat := elem % 2 ^ P.ptrBits

/-- The cast `static_cast<long>(timeoutUs)` for a `long long`: reduction modulo
`2 ^ longBits` into the signed range. -/
def static_cast_long (P : Platform) (timeoutUs : Int) : Int :=
  (timeoutUs + 2 ^ (P.longBits - 1)) % 2 ^ P.longBits - 2 ^ (P.longBits - 1)

/-- The call `std::transform(first, last, std::back_inserter(out), f)`: walks
the input front to back and appends `f x` to the output container for each
element. -/
def transform_back_inserter {α β : Type} (f : α → β) : List α → List β → List β
  | [], out => out
  | x :: rest, out => transform_back_inserter f rest (out ++ [f x])

/-! ## The wrapper methods, in source order -/

/-- GetDriverKey(), source line 64. -/
def Device.GetDriverKey (self : Device) : Prog String := do
  assert self._deviceSPtr
  self._deviceSPtr.arrow ( .getDriverKey)

/-- GetHardwareKey(), source line 71. -/
def Device.GetHardwareKey (self : Device) : Prog String := do
  assert self._deviceSPtr
  self._deviceSPtr.arrow ( .getHardwareKey)

/-- GetHardwareInfo(), source line 78. -/
def Device.GetHardwareInfo (self : Device) : Prog Kwargs := do
  assert self._deviceSPtr
  self._deviceSPtr.arrow ( .getHardwareInfo)

/-- SetFrontendMapping(direction, mapping), source line 89. -/
def Device.SetFrontendMapping (self : Device) (direction : Direction) (mapping : String) : Prog Unit := do
  assert self._deviceSPtr
  self._deviceSPtr.arrow ( .setFrontendMapping (int direction) mapping)

/-- GetFrontendMapping(direction), source line 98. -/
def Device.GetFrontendMapping (self : Device) (direction : Direction) : Prog String := do
  assert self._deviceSPtr
  self._deviceSPtr.arrow ( .getFrontendMapping (int direction))

/-- GetNumChannels(direction), source line 105. -/
def Device.GetNumChannels (self : Device) (direction : Direction) : Prog Nat := do
  assert self._deviceSPtr
  self._deviceSPtr.arrow ( .getNumChannels (int direction))

/-- GetChannelInfo(direction, channel), source line 112. -/
def Device.GetChannelInfo (self : Device) (direction : Direction) (channel : Nat) : Prog Kwargs := do
  assert self._deviceSPtr
  self._deviceSPtr.arrow ( .getChannelInfo (int direction) channel)

/-- GetFullDuplex(direction, channel), source line 121. -/
def Device.GetFullDuplex (self : Device) (direction : Direction) (channel : Nat) : Prog Bool := do
  assert self._deviceSPtr
  self._deviceSPtr.arrow ( .getFullDuplex (int direction) channel)

/-- GetStreamFormats(direction, channel), source line 134. -/
def Device.GetStreamFormats (self : Device) (direction : Direction) (channel : Nat) : Prog (List String) := do
  assert self._deviceSPtr
  self._deviceSPtr.arrow ( .getStreamFormats (int direction) channel)

/-- GetNativeStreamFormat(direction, channel, fullScaleOut), source line 143.
`fullScaleOut` is a reference the native call writes through: the method yields
the returned string together with the value left in `fullScaleOut`. -/
def Device.GetNativeStreamFormat (self : Device) (direction : Direction) (channel : Nat) (fullScaleOut : Double) : Prog (String × Double) := do
  assert self._deviceSPtr
  self._deviceSPtr.arrow ( .getNativeStreamFormat (int direction) channel fullScaleOut)

/-- GetStreamArgsInfo(direction, channel), source line 153. -/
def Device.GetStreamArgsInfo (self : Device) (direction : Direction) (channel : Nat) : Prog ArgInfoList := do
  assert self._deviceSPtr
  self._deviceSPtr.arrow ( .getStreamArgsInfo (int direction) channel)

/-- ListAntennas(direction, channel), source line 311. -/
def Device.ListAntennas (self : Device) (direction : Direction) (channel : Nat) : Prog (List String) := do
  assert self._deviceSPtr
  self._deviceSPtr.arrow ( .listAntennas (int direction) channel)

/-- SetAntenna(direction, channel, name), source line 320. -/
def Device.SetAntenna (self : Device) (direction : Direction) (channel : Nat) (name : String) : Prog Unit := do
  assert self._deviceSPtr
  self._deviceSPtr.arrow ( .setAntenna (int direction) channel name)

/-- GetAntenna(direction, channel), source line 330. -/
def Device.GetAntenna (self : Device) (direction : Direction) (channel : Nat) : Prog String := do
  assert self._deviceSPtr
  self._deviceSPtr.arrow ( .getAntenna (int direction) channel)

/-- HasDCOffsetMode(direction, channel), source line 343. -/
def Device.HasDCOffsetMode (self : Device) (direction : Direction) (channel : Nat) : Prog Bool := do
  assert self._deviceSPtr
  self._deviceSPtr.arrow ( .hasDCOffsetMode (int direction) channel)

/-- SetDCOffsetMode(direction, channel, automatic), source line 352. -/
def Device.SetDCOffsetMode (self : Device) (direction : Direction) (channel : Nat) (automatic : Bool) : Prog Unit := do
  assert self._deviceSPtr
  self._deviceSPtr.arrow ( .setDCOffsetMode (int direction) channel automatic)

/-- GetDCOffsetMode(direction, channel), source line 362. -/
def Device.GetDCOffsetMode (self : Device) (direction : Direction) (channel : Nat) : Prog Bool := do
  assert self._deviceSPtr
  self._deviceSPtr.arrow ( .getDCOffsetMode (int direction) channel)

/-- HasDCOffset(direction, channel), source line 371. -/
def Device.HasDCOffset (self : Device) (direction : Direction) (channel : Nat) : Prog Bool := do
  assert self._deviceSPtr
  self._deviceSPtr.arrow ( .hasDCOffset (int direction) channel)

/-- HasIQBalance(direction, channel), source line 401. -/
def Device.HasIQBalance (self : Device) (direction : Direction) (channel : Nat) : Prog Bool := do
  assert self._deviceSPtr
  self._deviceSPtr.arrow ( .hasIQBalance (int direction) channel)

/-- HasIQBalanceMode(direction, channel), source line 431. -/
def Device.HasIQBalanceMode (self : Device) (direction : Direction) (channel : Nat) : Prog Bool := do
  assert self._deviceSPtr
  self._deviceSPtr.arrow ( .hasIQBalanceMode (int direction) channel)

/-- SetIQBalanceMode(direction, channel, automatic), source line 440. -/
def Device.SetIQBalanceMode (self : Device) (direction : Direction) (channel : Nat) (automatic : Bool) : Prog Unit := do
  assert self._deviceSPtr
  self._deviceSPtr.arrow ( .setIQBalanceMode (int direction) channel automatic)

/-- GetIQBalanceMode(direction, channel), source line 450. -/
def Device.GetIQBalanceMode (self : Device) (direction : Direction) (channel : Nat) : Prog Bool := do
  assert self._deviceSPtr
  self._deviceSPtr.arrow ( .getIQBalanceMode (int direction) channel)

/-- HasFrequencyCorrection(direction, channel), source line 459. -/
def Device.HasFrequencyCorrection (self : Device) (direction : Direction) (channel : Nat) : Prog Bool := do
  assert self._deviceSPtr
  self._deviceSPtr.arrow ( .hasFrequencyCorrection (int direction) channel)

/-- SetFrequencyCorrection(direction, channel, value), source line 468. -/
def Device.SetFrequencyCorrection (self : Device) (direction : Direction) (channel : Nat) (value : Double) : Prog Unit := do
  assert self._deviceSPtr
  self._deviceSPtr.arrow ( .setFrequencyCorrection (int direction) channel value)

/-- GetFrequencyCorrection(direction, channel), source line 478. -/
def Device.GetFrequencyCorrection (self : Device) (direction : Direction) (channel : Nat) : Prog Double := do
  assert self._deviceSPtr
  self._deviceSPtr.arrow ( .getFrequencyCorrection (int direction) channel)

/-- ListGains(direction, channel), source line 491. -/
def Device.ListGains (self : Device) (direction : Direction) (channel : Nat) : Prog (List String) := do
  assert self._deviceSPtr
  self._deviceSPtr.arrow ( .listGains (int direction) channel)

/-- HasGainMode(direction, channel), source line 500. -/
def Device.HasGainMode (self : Device) (direction : Direction) (channel : Nat) : Prog Bool := do
  assert self._deviceSPtr
  self._deviceSPtr.arrow ( .hasGainMode (int direction) channel)

/-- SetGainMode(direction, channel, automatic), source line 509. -/
def Device.SetGainMode (self : Device) (direction : Direction) (channel : Nat) (automatic : Bool) : Prog Unit := do
  assert self._deviceSPtr
  self._deviceSPtr.arrow ( .setGainMode (int direction) channel automatic)

/-- GetGainMode(direction, channel), source line 519. -/
def Device.GetGainMode (self : Device) (direction : Direction) (channel : Nat) : Prog Bool := do
  assert self._deviceSPtr
  self._deviceSPtr.arrow ( .getGainMode (int direction) channel)

/-- SetGain(direction, channel, value), source line 528. -/
def Device.SetGain (self : Device) (direction : Direction) (channel : Nat) (value : Double) : Prog Unit := do
  assert self._deviceSPtr
  self._deviceSPtr.arrow ( .setGain (int direction) channel value)

/-- SetGain(direction, channel, name, value), source line 538. -/
def Device.SetGain_name (self : Device) (direction : Direction) (channel : Nat) (name : String) (value : Double) : Prog Unit := do
  assert self._deviceSPtr
  self._deviceSPtr.arrow ( .setGain_name (int direction) channel name value)

/-- GetGain(direction, channel), source line 549. -/
def Device.GetGain (self : Device) (direction : Direction) (channel : Nat) : Prog Double := do
  assert self._deviceSPtr
  self._deviceSPtr.arrow ( .getGain (int direction) channel)

/-- GetGain(direction, channel, name), source line 558. -/
def Device.GetGain_name (self : Device) (direction : Direction) (channel : Nat) (name : String) : Prog Double := do
  assert self._deviceSPtr
  self._deviceSPtr.arrow ( .getGain_name (int direction) channel name)

/-- GetGainRange(direction, channel), source line 568. -/
def Device.GetGainRange (self : Device) (direction : Direction) (channel : Nat) : Prog Range := do
  assert self._deviceSPtr
  self._deviceSPtr.arrow ( .getGainRange (int direction) channel)

/-- GetGainRange(direction, channel, name), source line 577. -/
def Device.GetGainRange_name (self : Device) (direction : Direction) (channel : Nat) (name : String) : Prog Range := do
  assert self._deviceSPtr
  self._deviceSPtr.arrow ( .getGainRange_name (int direction) channel name)

/-- SetFrequency(direction, channel, frequency, args), source line 591. -/
def Device.SetFrequency (self : Device) (direction : Direction) (channel : Nat) (frequency : Double) (args : Kwargs) : Prog Unit := do
  assert self._deviceSPtr
  self._deviceSPtr.arrow ( .setFrequency (int direction) channel frequency args)

/-- SetFrequency(direction, channel, name, frequency, args), source line 602. -/
def Device.SetFrequency_name (self : Device) (direction : Direction) (channel : Nat) (name : String) (frequency : Double) (args : Kwargs) : Prog Unit := do
  assert self._deviceSPtr
  self._deviceSPtr.arrow ( .setFrequency_name (int direction) channel name frequency args)

/-- GetFrequency(direction, channel), source line 614. -/
def Device.GetFrequency (self : Device) (direction : Direction) (channel : Nat) : Prog Double := do
  assert self._deviceSPtr
  self._deviceSPtr.arrow ( .getFrequency (int direction) channel)

/-- GetFrequency(direction, channel, name), source line 623. -/
def Device.GetFrequency_name (self : Device) (direction : Direction) (channel : Nat) (name : String) : Prog Double := do
  assert self._deviceSPtr
  self._deviceSPtr.arrow ( .getFrequency_name (int direction) channel name)

/-- ListFrequencies(direction, channel), source line 633. -/
def Device.ListFrequencies (self : Device) (direction : Direction) (channel : Nat) : Prog (List String) := do
  assert self._deviceSPtr
  self._deviceSPtr.arrow ( .listFrequencies (int direction) channel)

/-- GetFrequencyRange(direction, channel), source line 642. -/
def Device.GetFrequencyRange (self : Device) (direction : Direction) (channel : Nat) : Prog RangeList := do
  assert self._deviceSPtr
  self._deviceSPtr.arrow ( .getFrequencyRange (int direction) channel)

/-- GetFrequencyRange(direction, channel, name), source line 651. -/
def Device.GetFrequencyRange_name (self : Device) (direction : Direction) (channel : Nat) (name : String) : Prog RangeList := do
  assert self._deviceSPtr
  self._deviceSPtr.arrow ( .getFrequencyRange_name (int direction) channel name)

/-- GetFrequencyArgsInfo(direction, channel), source line 661. -/
def Device.GetFrequencyArgsInfo (self : Device) (direction : Direction) (channel : Nat) : Prog ArgInfoList := do
  assert self._deviceSPtr
  self._deviceSPtr.arrow ( .getFrequencyArgsInfo (int direction) channel)

/-- SetSampleRate(direction, channel, rate), source line 674. -/
def Device.SetSampleRate (self : Device) (direction : Direction) (channel : Nat) (rate : Double) : Prog Unit := do
  assert self._deviceSPtr
  self._deviceSPtr.arrow ( .setSampleRate (int direction) channel rate)

/-- GetSampleRate(direction, channel), source line 684. -/
def Device.GetSampleRate (self : Device) (direction : Direction) (channel : Nat) : Prog Double := do
  assert self._deviceSPtr
  self._deviceSPtr.arrow ( .getSampleRate (int direction) channel)

/-- GetSampleRateRange(direction, channel), source line 693. -/
def Device.GetSampleRateRange (self : Device) (direction : Direction) (channel : Nat) : Prog RangeList := do
  assert self._deviceSPtr
  self._deviceSPtr.arrow ( .getSampleRateRange (int direction) channel)

/-- SetBandwidth(direction, channel, bandwidth), source line 706. -/
def Device.SetBandwidth (self : Device) (direction : Direction) (channel : Nat) (bandwidth : Double) : Prog Unit := do
  assert self._deviceSPtr
  self._deviceSPtr.arrow ( .setBandwidth (int direction) channel bandwidth)

/-- GetBandwidth(direction, channel), source line 716. -/
def Device.GetBandwidth (self : Device) (direction : Direction) (channel : Nat) : Prog Double := do
  assert self._deviceSPtr
  self._deviceSPtr.arrow ( .getBandwidth (int direction) channel)

/-- GetBandwidthRange(direction, channel), source line 725. -/
def Device.GetBandwidthRange (self : Device) (direction : Direction) (channel : Nat) : Prog RangeList := do
  assert self._deviceSPtr
  self._deviceSPtr.arrow ( .getBandwidthRange (int direction) channel)

/-- SetMasterClockRate(rate), source line 738. -/
def Device.SetMasterClockRate (self : Device) (rate : Double) : Prog Unit := do
  assert self._deviceSPtr
  self._deviceSPtr.arrow ( .setMasterClockRate rate)

/-- GetMasterClockRate(), source line 745. -/
def Device.GetMasterClockRate (self : Device) : Prog Double := do
  assert self._deviceSPtr
  self._deviceSPtr.arrow ( .getMasterClockRate)

/-- GetMasterClockRates(), source line 752. -/
def Device.GetMasterClockRates (self : Device) : Prog RangeList := do
  assert self._deviceSPtr
  self._deviceSPtr.arrow ( .getMasterClockRates)

/-- SetReferenceClockRate(rate), source line 759. -/
def Device.SetReferenceClockRate (self : Device) (rate : Double) : Prog Unit := do
  assert self._deviceSPtr
  self._deviceSPtr.arrow ( .setReferenceClockRate rate)

/-- GetReferenceClockRate(), source line 766. -/
def Device.GetReferenceClockRate (self : Device) : Prog Double := do
  assert self._deviceSPtr
  self._deviceSPtr.arrow ( .getReferenceClockRate)

/-- GetReferenceClockRates(), source line 773. -/
def Device.GetReferenceClockRates (self : Device) : Prog RangeList := do
  assert self._deviceSPtr
  self._deviceSPtr.arrow ( .getReferenceClockRates)

/-- ListClockSources(), source line 780. -/
def Device.ListClockSources (self : Device) : Prog (List String) := do
  assert self._deviceSPtr
  self._deviceSPtr.arrow ( .listClockSources)

/-- SetClockSource(source), source line 787. -/
def Device.SetClockSource (self : Device) (source : String) : Prog Unit := do
  assert self._deviceSPtr
  self._deviceSPtr.arrow ( .setClockSource source)

/-- GetClockSource(), source line 794. -/
def Device.GetClockSource (self : Device) : Prog String := do
  assert self._deviceSPtr
  self._deviceSPtr.arrow ( .getClockSource)

/-- ListTimeSources(), source line 805. -/
def Device.ListTimeSources (self : Device) : Prog (List String) := do
  assert self._deviceSPtr
  self._deviceSPtr.arrow ( .listTimeSources)

/-- SetTimeSource(source), source line 812. -/
def Device.SetTimeSource (self : Device) (source : String) : Prog Unit := do
  assert self._deviceSPtr
  self._deviceSPtr.arrow ( .setTimeSource source)

/-- GetTimeSource(), source line 819. -/
def Device.GetTimeSource (self : Device) : Prog String := do
  assert self._deviceSPtr
  self._deviceSPtr.arrow ( .getTimeSource)

/-- HasHardwareTime(what), source line 826. -/
def Device.HasHardwareTime (self : Device) (what : String) : Prog Bool := do
  assert self._deviceSPtr
  self._deviceSPtr.arrow ( .hasHardwareTime what)

/-- GetHardwareTime(what), source line 833. -/
def Device.GetHardwareTime (self : Device) (what : String) : Prog Int := do
  assert self._deviceSPtr
  self._deviceSPtr.arrow ( .getHardwareTime what)

/-- SetHardwareTime(timeNs, what), source line 840. -/
def Device.SetHardwareTime (self : Device) (timeNs : Int) (what : String) : Prog Unit := do
  assert self._deviceSPtr
  self._deviceSPtr.arrow ( .setHardwareTime timeNs what)

/-- ListSensors(), source line 851. -/
def Device.ListSensors (self : Device) : Prog (List String) := do
  assert self._deviceSPtr
  self._deviceSPtr.arrow ( .listSensors)

/-- GetSensorInfo(key), source line 858. -/
def Device.GetSensorInfo (self : Device) (key : String) : Prog ArgInfo := do
  assert self._deviceSPtr
  self._deviceSPtr.arrow ( .getSensorInfo key)

/-- ReadSensor(key), source line 865. -/
def Device.ReadSensor (self : Device) (key : String) : Prog String := do
  assert self._deviceSPtr
  self._deviceSPtr.arrow ( .readSensor key)

/-- ListSensors(direction, channel), source line 872. -/
def Device.ListSensors_channel (self : Device) (direction : Direction) (channel : Nat) : Prog (List String) := do
  assert self._deviceSPtr
  self._deviceSPtr.arrow ( .listSensors_channel (int direction) channel)

/-- GetSensorInfo(direction, channel, key), source line 881. -/
def Device.GetSensorInfo_channel (self : Device) (direction : Direction) (channel : Nat) (key : String) : Prog ArgInfo := do
  assert self._deviceSPtr
  self._deviceSPtr.arrow ( .getSensorInfo_channel (int direction) channel key)

/-- ReadSensor(direction, channel, key), source line 891. -/
def Device.ReadSensor_channel (self : Device) (direction : Direction) (channel : Nat) (key : String) : Prog String := do
  assert self._deviceSPtr
  self._deviceSPtr.arrow ( .readSensor_channel (int direction) channel key)

/-- ListRegisterInterfaces(), source line 905. -/
def Device.ListRegisterInterfaces (self : Device) : Prog (List String) := do
  assert self._deviceSPtr
  self._deviceSPtr.arrow ( .listRegisterInterfaces)

/-- WriteRegister(name, addr, value), source line 912. -/
def Device.WriteRegister (self : Device) (name : String) (addr : Nat) (value : Nat) : Prog Unit := do
  assert self._deviceSPtr
  self._deviceSPtr.arrow ( .writeRegister name addr value)

/-- ReadRegister(name, addr), source line 922. -/
def Device.ReadRegister (self : Device) (name : String) (addr : Nat) : Prog Nat := do
  assert self._deviceSPtr
  self._deviceSPtr.arrow ( .readRegister name addr)

/-- WriteRegisters(name, addr, value), source line 936. -/
def Device.WriteRegisters (self : Device) (name : String) (addr : Nat) (value : SizeVector) : Prog Unit := do
  assert self._deviceSPtr
  let valueUnsigned : List Nat := transform_back_inserter static_cast_unsigned value []
  self._deviceSPtr.arrow ( .writeRegisters name addr valueUnsigned)

/-- ReadRegisters(name, addr, length), source line 953. -/
def Device.ReadRegisters (self : Device) (P : Platform) (name : String) (addr : Nat) (length : Nat) : Prog SizeVector := do
  assert self._deviceSPtr
  let valueUnsigned : List Nat ← self._deviceSPtr.arrow ( .readRegisters name addr length)
  let value : SizeVector := transform_back_inserter (static_cast_UIntPtrT P) valueUnsigned []
  return value

/-- GetSettingInfo(), source line 975. -/
def Device.GetSettingInfo (self : Device) : Prog ArgInfoList := do
  assert self._deviceSPtr
  self._deviceSPtr.arrow ( .getSettingInfo)

/-- WriteSetting(key, value), source line 982. -/
def Device.WriteSetting (self : Device) (key : String) (value : String) : Prog Unit := do
  assert self._deviceSPtr
  self._deviceSPtr.arrow ( .writeSetting key value)

/-- ReadSetting(key), source line 991. -/
def Device.ReadSetting (self : Device) (key : String) : Prog String := do
  assert self._deviceSPtr
  self._deviceSPtr.arrow ( .readSetting key)

/-- GetSettingInfo(direction, channel), source line 998. -/
def Device.GetSettingInfo_channel (self : Device) (direction : Direction) (channel : Nat) : Prog ArgInfoList := do
  assert self._deviceSPtr
  self._deviceSPtr.arrow ( .getSettingInfo_channel (int direction) channel)

/-- WriteSetting(direction, channel, key, value), source line 1007. -/
def Device.WriteSetting_channel (self : Device) (direction : Direction) (channel : Nat) (key : String) (value : String) : Prog Unit := do
  assert self._deviceSPtr
  self._deviceSPtr.arrow ( .writeSetting_channel (int direction) channel key value)

/-- ReadSetting(direction, channel, key), source line 1018. -/
def Device.ReadSetting_channel (self : Device) (direction : Direction) (channel : Nat) (key : String) : Prog String := do
  assert self._deviceSPtr
  self._deviceSPtr.arrow ( .readSetting_channel (int direction) channel key)

/-- ListGPIOBanks(), source line 1032. -/
def Device.ListGPIOBanks (self : Device) : Prog (List String) := do
  assert self._deviceSPtr
  self._deviceSPtr.arrow ( .listGPIOBanks)

/-- WriteGPIO(bank, value), source line 1039. -/
def Device.WriteGPIO (self : Device) (bank : String) (value : Nat) : Prog Unit := do
  assert self._deviceSPtr
  self._deviceSPtr.arrow ( NativeCall.writeGPIO bank value)

/-- WriteGPIO(bank, value, mask), source line 1048. -/
def Device.WriteGPIO_mask (self : Device) (bank : String) (value : Nat) (mask : Nat) : Prog Unit := do
  assert self._deviceSPtr
  self._deviceSPtr.arrow ( .writeGPIO_mask bank value mask)

/-- ReadGPIO(bank), source line 1058. -/
def Device.ReadGPIO (self : Device) (bank : String) : Prog Nat := do
  assert self._deviceSPtr
  self._deviceSPtr.arrow ( NativeCall.readGPIO bank)

/-- WriteGPIODir(bank, dir), source line 1065. -/
def Device.WriteGPIODir (self : Device) (bank : String) (dir : Nat) : Prog Unit := do
  assert self._deviceSPtr
  self._deviceSPtr.arrow ( .writeGPIODir bank dir)

/-- WriteGPIODir(bank, dir, mask), source line 1074. -/
def Device.WriteGPIODir_mask (self : Device) (bank : String) (dir : Nat) (mask : Nat) : Prog Unit := do
  assert self._deviceSPtr
  self._deviceSPtr.arrow ( .writeGPIODir_mask bank dir mask)

/-- ReadGPIODir(bank), source line 1084. -/
def Device.ReadGPIODir (self : Device) (bank : String) : Prog Nat := do
  assert self._deviceSPtr
  self._deviceSPtr.arrow ( .readGPIODir bank)

/-- WriteI2C(addr, data), source line 1095. -/
def Device.WriteI2C (self : Device) (addr : Int) (data : String) : Prog Unit := do
  assert self._deviceSPtr
  self._deviceSPtr.arrow ( .writeI2C addr data)

/-- ReadI2C(addr, numBytes), source line 1104. -/
def Device.ReadI2C (self : Device) (addr : Int) (numBytes : Nat) : Prog String := do
  assert self._deviceSPtr
  self._deviceSPtr.arrow ( .readI2C addr numBytes)

/-- TransactSPI(addr, data, numBits), source line 1117. -/
def Device.TransactSPI (self : Device) (addr : Int) (data : Nat) (numBits : Nat) : Prog Nat := do
  assert self._deviceSPtr
  self._deviceSPtr.arrow ( .transactSPI addr data numBits)

/-- ListUARTs(), source line 1131. -/
def Device.ListUARTs (self : Device) : Prog (List String) := do
  assert self._deviceSPtr
  self._deviceSPtr.arrow ( .listUARTs)

/-- WriteUART(which, data), source line 1138. -/
def Device.WriteUART (self : Device) (which : String) (data : String) : Prog Unit := do
  assert self._deviceSPtr
  self._deviceSPtr.arrow ( .writeUART which data)

/-- ReadUART(which, timeoutUs), source line 1147. -/
def Device.ReadUART (self : Device) (P : Platform) (which : String) (timeoutUs : Int) : Prog String := do
  assert self._deviceSPtr
  self._deviceSPtr.arrow ( .readUART which (static_cast_long P timeoutUs))

/-- Method __ToString(), source line 1160.  The two native calls are the operands of
`+`, so the compiler picks which is made first. -/
def Device.__ToString (self : Device) (P : Platform) : Prog String := do
  assert self._deviceSPtr
  match P.plusOrder with
  | .leftFirst =>
    let driverKey : String ← self._deviceSPtr.arrow ( .getDriverKey)
    let hardwareKey : String ← self._deviceSPtr.arrow ( .getHardwareKey)
    return driverKey ++ ":" ++ hardwareKey
  | .rightFirst =>
    let hardwareKey : String ← self._deviceSPtr.arrow ( .getHardwareKey)
    let driverKey : String ← self._deviceSPtr.arrow ( .getDriverKey)
    return driverKey ++ ":" ++ hardwareKey

/-- Equals(other), source line 1167.  The two `__ToString` calls are the
operands of `==`, so the compiler picks which is made first. -/
def Device.Equals (self : Device) (P : Platform) (other : Device) : Prog Bool := do
  assert self._deviceSPtr
  match P.eqOrder with
  | .leftFirst =>
    let mine ← self.__ToString P
    let theirs ← other.__ToString P
    return mine == theirs
  | .rightFirst =>
    let theirs ← other.__ToString P
    let mine ← self.__ToString P
    return mine == theirs

/-- GetPointer(), source line 1174: the address held by the handle, as an
integer. -/
def Device.GetPointer (self : Device) : Prog Nat := do
  assert self._deviceSPtr
  return self._deviceSPtr.get

/-! ## The method table -/

inductive Op where
  | GetDriverKey
  | GetHardwareKey
  | GetHardwareInfo
  | SetFrontendMapping (direction : Direction) (mapping : String)
  | GetFrontendMapping (direction : Direction)
  | GetNumChannels (direction : Direction)
  | GetChannelInfo (direction : Direction) (channel : Nat)
  | GetFullDuplex (direction : Direction) (channel : Nat)
  | GetStreamFormats (direction : Direction) (channel : Nat)
  | GetNativeStreamFormat (direction : Direction) (channel : Nat) (fullScaleOut : Double)
  | GetStreamArgsInfo (direction : Direction) (channel : Nat)
  | ListAntennas (direction : Direction) (channel : Nat)
  | SetAntenna (direction : Direction) (channel : Nat) (name : String)
  | GetAntenna (direction : Direction) (channel : Nat)
  | HasDCOffsetMode (direction : Direction) (channel : Nat)
  | SetDCOffsetMode (direction : Direction) (channel : Nat) (automatic : Bool)
  | GetDCOffsetMode (direction : Direction) (channel : Nat)
  | HasDCOffset (direction : Direction) (channel : Nat)
  | HasIQBalance (direction : Direction) (channel : Nat)
  | HasIQBalanceMode (direction : Direction) (channel : Nat)
  | SetIQBalanceMode (direction : Direction) (channel : Nat) (automatic : Bool)
  | GetIQBalanceMode (direction : Direction) (channel : Nat)
  | HasFrequencyCorrection (direction : Direction) (channel : Nat)
  | SetFrequencyCorrection (direction : Direction) (channel : Nat) (value : Double)
  | GetFrequencyCorrection (direction : Direction) (channel : Nat)
  | ListGains (direction : Direction) (channel : Nat)
  | HasGainMode (direction : Direction) (channel : Nat)
  | SetGainMode (direction : Direction) (channel : Nat) (automatic : Bool)
  | GetGainMode (direction : Direction) (channel : Nat)
  | SetGain (direction : Direction) (channel : Nat) (value : Double)
  | SetGain_name (direction : Direction) (channel : Nat) (name : String) (value : Double)
  | GetGain (direction : Direction) (channel : Nat)
  | GetGain_name (direction : Direction) (channel : Nat) (name : String)
  | GetGainRange (direction : Direction) (channel : Nat)
  | GetGainRange_name (direction : Direction) (channel : Nat) (name : String)
  | SetFrequency (direction : Direction) (channel : Nat) (frequency : Double) (args : Kwargs)
  | SetFrequency_name (direction : Direction) (channel : Nat) (name : String) (frequency : Double) (args : Kwargs)
  | GetFrequency (direction : Direction) (channel : Nat)
  | GetFrequency_name (direction : Direction) (channel : Nat) (name : String)
  | ListFrequencies (direction : Direction) (channel : Nat)
  | GetFrequencyRange (direction : Direction) (channel : Nat)
  | GetFrequencyRange_name (direction : Direction) (channel : Nat) (name : String)
  | GetFrequencyArgsInfo (direction : Direction) (channel : Nat)
  | SetSampleRate (direction : Direction) (channel : Nat) (rate : Double)
  | GetSampleRate (direction : Direction) (channel : Nat)
  | GetSampleRateRange (direction : Direction) (channel : Nat)
  | SetBandwidth (direction : Direction) (channel : Nat) (bandwidth : Double)
  | GetBandwidth (direction : Direction) (channel : Nat)
  | GetBandwidthRange (direction : Direction) (channel : Nat)
  | SetMasterClockRate (rate : Double)
  | GetMasterClockRate
  | GetMasterClockRates
  | SetReferenceClockRate (rate : Double)
  | GetReferenceClockRate
  | GetReferenceClockRates
  | ListClockSources
  | SetClockSource (source : String)
  | GetClockSource
  | ListTimeSources
  | SetTimeSource (source : String)
  | GetTimeSource
  | HasHardwareTime (what : String)
  | GetHardwareTime (what : String)
  | SetHardwareTime (timeNs : Int) (what : String)
  | ListSensors
  | GetSensorInfo (key : String)
  | ReadSensor (key : String)
  | ListSensors_channel (direction : Direction) (channel : Nat)
  | GetSensorInfo_channel (direction : Direction) (channel : Nat) (key : String)
  | ReadSensor_channel (direction : Direction) (channel : Nat) (key : String)
  | ListRegisterInterfaces
  | WriteRegister (name : String) (addr : Nat) (value : Nat)
  | ReadRegister (name : String) (addr : Nat)
  | WriteRegisters (name : String) (addr : Nat) (value : SizeVector)
  | ReadRegisters (name : String) (addr : Nat) (length : Nat)
  | GetSettingInfo
  | WriteSetting (key : String) (value : String)
  | ReadSetting (key : String)
  | GetSettingInfo_channel (direction : Direction) (channel : Nat)
  | WriteSetting_channel (direction : Direction) (channel : Nat) (key : String) (value : String)
  | ReadSetting_channel (direction : Direction) (channel : Nat) (key : String)
  | ListGPIOBanks
  | WriteGPIO (bank : String) (value : Nat)
  | WriteGPIO_mask (bank : String) (value : Nat) (mask : Nat)
  | ReadGPIO (bank : String)
  | WriteGPIODir (bank : String) (dir : Nat)
  | WriteGPIODir_mask (bank : String) (dir : Nat) (mask : Nat)
  | ReadGPIODir (bank : String)
  | WriteI2C (addr : Int) (data : String)
  | ReadI2C (addr : Int) (numBytes : Nat)
  | TransactSPI (addr : Int) (data : Nat) (numBits : Nat)
  | ListUARTs
  | WriteUART (which : String) (data : String)
  | ReadUART (which : String) (timeoutUs : Int)
  | __ToString
  | Equals (other : Device)
  | GetPointer

def Op.Ret : Op → Type
  | .GetDriverKey => String
  | .GetHardwareKey => String
  | .GetHardwareInfo => Kwargs
  | .SetFrontendMapping _ _ => Unit
  | .GetFrontendMapping _ => String
  | .GetNumChannels _ => Nat
  | .GetChannelInfo _ _ => Kwargs
  | .GetFullDuplex _ _ => Bool
  | .GetStreamFormats _ _ => List String
  | .GetNativeStreamFormat _ _ _ => String × Double
  | .GetStreamArgsInfo _ _ => ArgInfoList
  | .ListAntennas _ _ => List String
  | .SetAntenna _ _ _ => Unit
  | .GetAntenna _ _ => String
  | .HasDCOffsetMode _ _ => Bool
  | .SetDCOffsetMode _ _ _ => Unit
  | .GetDCOffsetMode _ _ => Bool
  | .HasDCOffset _ _ => Bool
  | .HasIQBalance _ _ => Bool
  | .HasIQBalanceMode _ _ => Bool
  | .SetIQBalanceMode _ _ _ => Unit
  | .GetIQBalanceMode _ _ => Bool
  | .HasFrequencyCorrection _ _ => Bool
  | .SetFrequencyCorrection _ _ _ => Unit
  | .GetFrequencyCorrection _ _ => Double
  | .ListGains _ _ => List String
  | .HasGainMode _ _ => Bool
  | .SetGainMode _ _ _ => Unit
  | .GetGainMode _ _ => Bool
  | .SetGain _ _ _ => Unit
  | .SetGain_name _ _ _ _ => Unit
  | .GetGain _ _ => Double
  | .GetGain_name _ _ _ => Double
  | .GetGainRange _ _ => Range
  | .GetGainRange_name _ _ _ => Range
  | .SetFrequency _ _ _ _ => Unit
  | .SetFrequency_name _ _ _ _ _ => Unit
  | .GetFrequency _ _ => Double
  | .GetFrequency_name _ _ _ => Double
  | .ListFrequencies _ _ => List String
  | .GetFrequencyRange _ _ => RangeList
  | .GetFrequencyRange_name _ _ _ => RangeList
  | .GetFrequencyArgsInfo _ _ => ArgInfoList
  | .SetSampleRate _ _ _ => Unit
  | .GetSampleRate _ _ => Double
  | .GetSampleRateRange _ _ => RangeList
  | .SetBandwidth _ _ _ => Unit
  | .GetBandwidth _ _ => Double
  | .GetBandwidthRange _ _ => RangeList
  | .SetMasterClockRate _ => Unit
  | .GetMasterClockRate => Double
  | .GetMasterClockRates => RangeList
  | .SetReferenceClockRate _ => Unit
  | .GetReferenceClockRate => Double
  | .GetReferenceClockRates => RangeList
  | .ListClockSources => List String
  | .SetClockSource _ => Unit
  | .GetClockSource => String
  | .ListTimeSources => List String
  | .SetTimeSource _ => Unit
  | .GetTimeSource => String
  | .HasHardwareTime _ => Bool
  | .GetHardwareTime _ => Int
  | .SetHardwareTime _ _ => Unit
  | .ListSensors => List String
  | .GetSensorInfo _ => ArgInfo
  | .ReadSensor _ => String
  | .ListSensors_channel _ _ => List String
  | .GetSensorInfo_channel _ _ _ => ArgInfo
  | .ReadSensor_channel _ _ _ => String
  | .ListRegisterInterfaces => List String
  | .WriteRegister _ _ _ => Unit
  | .ReadRegister _ _ => Nat
  | .WriteRegisters _ _ _ => Unit
  | .ReadRegisters _ _ _ => SizeVector
  | .GetSettingInfo => ArgInfoList
  | .WriteSetting _ _ => Unit
  | .ReadSetting _ => String
  | .GetSettingInfo_channel _ _ => ArgInfoList
  | .WriteSetting_channel _ _ _ _ => Unit
  | .ReadSetting_channel _ _ _ => String
  | .ListGPIOBanks => List String
  | Op.WriteGPIO _ _ => Unit
  | .WriteGPIO_mask _ _ _ => Unit
  | Op.ReadGPIO _ => Nat
  | .WriteGPIODir _ _ => Unit
  | .WriteGPIODir_mask _ _ _ => Unit
  | .ReadGPIODir _ => Nat
  | .WriteI2C _ _ => Unit
  | .ReadI2C _ _ => String
  | .TransactSPI _ _ _ => Nat
  | .ListUARTs => List String
  | .WriteUART _ _ => Unit
  | .ReadUART _ _ => String
  | .__ToString => String
  | .Equals _ => Bool
  | .GetPointer => Nat

def Device.invoke (P : Platform) (self : Device) : (op : Op) → Prog op.Ret
  | .GetDriverKey => self.GetDriverKey
  | .GetHardwareKey => self.GetHardwareKey
  | .GetHardwareInfo => self.GetHardwareInfo
  | .SetFrontendMapping direction mapping => self.SetFrontendMapping direction mapping
  | .GetFrontendMapping direction => self.GetFrontendMapping direction
  | .GetNumChannels direction => self.GetNumChannels direction
  | .GetChannelInfo direction channel => self.GetChannelInfo direction channel
  | .GetFullDuplex direction channel => self.GetFullDuplex direction channel
  | .GetStreamFormats direction channel => self.GetStreamFormats direction channel
  | .GetNativeStreamFormat direction channel fullScaleOut => self.GetNativeStreamFormat direction channel fullScaleOut
  | .GetStreamArgsInfo direction channel => self.GetStreamArgsInfo direction channel
  | .ListAntennas direction channel => self.ListAntennas direction channel
  | .SetAntenna direction channel name => self.SetAntenna direction channel name
  | .GetAntenna direction channel => self.GetAntenna direction channel
  | .HasDCOffsetMode direction channel => self.HasDCOffsetMode direction channel
  | .SetDCOffsetMode direction channel automatic => self.SetDCOffsetMode direction channel automatic
  | .GetDCOffsetMode direction channel => self.GetDCOffsetMode direction channel
  | .HasDCOffset direction channel => self.HasDCOffset direction channel
  | .HasIQBalance direction channel => self.HasIQBalance direction channel
  | .HasIQBalanceMode direction channel => self.HasIQBalanceMode direction channel
  | .SetIQBalanceMode direction channel automatic => self.SetIQBalanceMode direction channel automatic
  | .GetIQBalanceMode direction channel => self.GetIQBalanceMode direction channel
  | .HasFrequencyCorrection direction channel => self.HasFrequencyCorrection direction channel
  | .SetFrequencyCorrection direction channel value => self.SetFrequencyCorrection direction channel value
  | .GetFrequencyCorrection direction channel => self.GetFrequencyCorrection direction channel
  | .ListGains direction channel => self.ListGains direction channel
  | .HasGainMode direction channel => self.HasGainMode direction channel
  | .SetGainMode direction channel automatic => self.SetGainMode direction channel automatic
  | .GetGainMode direction channel => self.GetGainMode direction channel
  | .SetGain direction channel value => self.SetGain direction channel value
  | .SetGain_name direction channel name value => self.SetGain_name direction channel name value
  | .GetGain direction channel => self.GetGain direction channel
  | .GetGain_name direction channel name => self.GetGain_name direction channel name
  | .GetGainRange direction channel => self.GetGainRange direction channel
  | .GetGainRange_name direction channel name => self.GetGainRange_name direction channel name
  | .SetFrequency direction channel frequency args => self.SetFrequency direction channel frequency args
  | .SetFrequency_name direction channel name frequency args => self.SetFrequency_name direction channel name frequency args
  | .GetFrequency direction channel => self.GetFrequency direction channel
  | .GetFrequency_name direction channel name => self.GetFrequency_name direction channel name
  | .ListFrequencies direction channel => self.ListFrequencies direction channel
  | .GetFrequencyRange direction channel => self.GetFrequencyRange direction channel
  | .GetFrequencyRange_name direction channel name => self.GetFrequencyRange_name direction channel name
  | .GetFrequencyArgsInfo direction channel => self.GetFrequencyArgsInfo direction channel
  | .SetSampleRate direction channel rate => self.SetSampleRate direction channel rate
  | .GetSampleRate direction channel => self.GetSampleRate direction channel
  | .GetSampleRateRange direction channel => self.GetSampleRateRange direction channel
  | .SetBandwidth direction channel bandwidth => self.SetBandwidth direction channel bandwidth
  | .GetBandwidth direction channel => self.GetBandwidth direction channel
  | .GetBandwidthRange direction channel => self.GetBandwidthRange direction channel
  | .SetMasterClockRate rate => self.SetMasterClockRate rate
  | .GetMasterClockRate => self.GetMasterClockRate
  | .GetMasterClockRates => self.GetMasterClockRates
  | .SetReferenceClockRate rate => self.SetReferenceClockRate rate
  | .GetReferenceClockRate => self.GetReferenceClockRate
  | .GetReferenceClockRates => self.GetReferenceClockRates
  | .ListClockSources => self.ListClockSources
  | .SetClockSource source => self.SetClockSource source
  | .GetClockSource => self.GetClockSource
  | .ListTimeSources => self.ListTimeSources
  | .SetTimeSource source => self.SetTimeSource source
  | .GetTimeSource => self.GetTimeSource
  | .HasHardwareTime what => self.HasHardwareTime what
  | .GetHardwareTime what => self.GetHardwareTime what
  | .SetHardwareTime timeNs what => self.SetHardwareTime timeNs what
  | .ListSensors => self.ListSensors
  | .GetSensorInfo key => self.GetSensorInfo key
  | .ReadSensor key => self.ReadSensor key
  | .ListSensors_channel direction channel => self.ListSensors_channel direction channel
  | .GetSensorInfo_channel direction channel key => self.GetSensorInfo_channel direction channel key
  | .ReadSensor_channel direction channel key => self.ReadSensor_channel direction channel key
  | .ListRegisterInterfaces => self.ListRegisterInterfaces
  | .WriteRegister name addr value => self.WriteRegister name addr value
  | .ReadRegister name addr => self.ReadRegister name addr
  | .WriteRegisters name addr value => self.WriteRegisters name addr value
  | .ReadRegisters name addr length => self.ReadRegisters P name addr length
  | .GetSettingInfo => self.GetSettingInfo
  | .WriteSetting key value => self.WriteSetting key value
  | .ReadSetting key => self.ReadSetting key
  | .GetSettingInfo_channel direction channel => self.GetSettingInfo_channel direction channel
  | .WriteSetting_channel direction channel key value => self.WriteSetting_channel direction channel key value
  | .ReadSetting_channel direction channel key => self.ReadSetting_channel direction channel key
  | .ListGPIOBanks => self.ListGPIOBanks
  | Op.WriteGPIO bank value => self.WriteGPIO bank value
  | .WriteGPIO_mask bank value mask => self.WriteGPIO_mask bank value mask
  | Op.ReadGPIO bank => self.ReadGPIO bank
  | .WriteGPIODir bank dir => self.WriteGPIODir bank dir
  | .WriteGPIODir_mask bank dir mask => self.WriteGPIODir_mask bank dir mask
  | .ReadGPIODir bank => self.ReadGPIODir bank
  | .WriteI2C addr data => self.WriteI2C addr data
  | .ReadI2C addr numBytes => self.ReadI2C addr numBytes
  | .TransactSPI addr data numBits => self.TransactSPI addr data numBits
  | .ListUARTs => self.ListUARTs
  | .WriteUART which data => self.WriteUART which data
  | .ReadUART which timeoutUs => self.ReadUART P which timeoutUs
  | .__ToString => self.__ToString P
  | .Equals other => self.Equals P other
  | .GetPointer => self.GetPointer

/-! ## Cleanup and ownership -/

/-- What one call of the deleter did. -/
structure DeleterRun (W : Type) where
  /-- normal return is `.ok ()`; `.error e` when `e` escapes -/
  outcome : Except Exn Unit
  world : W
  /-- strings passed to `fputs(_, stderr)`, in order -/
  written : List String
  /-- pointers passed to `SoapySDR::Device::unmake`, in order -/
  unmakeCalls : List Ptr

/-- The call operator `DeviceDeleter::operator()(pDevice)`, source line 25: a `try` around
`unmake` with one handler for `std::exception` and one for everything else. -/
def DeviceDeleter.operator {W : Type} (N : Native W) (pDevice : Ptr) (w : W) : DeleterRun W :=
  match N.unmake pDevice w with
  | (.ok _, w1) => ⟨.ok (), w1, [], [pDevice]⟩
  | (.error (.std what), w1) => ⟨.ok (), w1, [what], [pDevice]⟩
  | (.error .other, w1) => ⟨.ok (), w1, ["Unknown error."], [pDevice]⟩

/-- Control block of a `shared_ptr` made from a pointer and a deleter: the
pointer the deleter will be given, and the number of owners. -/
structure ControlBlock where
  ptr : Ptr
  useCount : Nat
deriving DecidableEq, Repr

/-- The process, as far as handles are concerned. -/
structure Sys (W : Type) where
  world : W
  /-- the control blocks, by identity -/
  blocks : Nat → ControlBlock
  /-- number of control blocks allocated so far -/
  nextBlock : Nat
  /-- strings written to `stderr`, in order -/
  stderr : List String
  /-- the `unmake` calls so far: the control block whose deleter ran and the
  pointer it passed -/
  unmakes : List (Nat × Ptr)

/-- The initializer `std::shared_ptr<SoapySDR::Device>(p, DeviceDeleter())`: a new control
block that owns `p`, with use count 1. -/
def SharedPtr.fromPointer {W : Type} (p : Ptr) (s : Sys W) : SharedPtr × Sys W :=
  (⟨p, s.nextBlock⟩,
   { s with blocks := Function.update s.blocks s.nextBlock ⟨p, 1⟩, nextBlock := s.nextBlock + 1 })

/-- Constructor `Device(const Kwargs& kwargs)`, source line 39.  When `make` throws, the
member initializer never completes and no `shared_ptr` exists. -/
def Device.mk_kwargs {W : Type} (N : Native W) (kwargs : Kwargs) (s : Sys W) :
    Except Exn Device × Sys W :=
  match N.make_kwargs kwargs s.world with
  | (.ok p, w1) =>
    let r := SharedPtr.fromPointer p { s with world := w1 }
    (.ok ⟨r.1⟩, r.2)
  | (.error e, w1) => (.error e, { s with world := w1 })

/-- Constructor `Device(const std::string& args)`, source line 42. -/
def Device.mk_args {W : Type} (N : Native W) (args : String) (s : Sys W) :
    Except Exn Device × Sys W :=
  match N.make_string args s.world with
  | (.ok p, w1) =>
    let r := SharedPtr.fromPointer p { s with world := w1 }
    (.ok ⟨r.1⟩, r.2)
  | (.error e, w1) => (.error e, { s with world := w1 })

/-- The private `Device(SoapySDR::Device* pDevice)`, source line 1185. -/
def Device.mk_pDevice {W : Type} (pDevice : Ptr) (s : Sys W) : Except Exn Device × Sys W :=
  let r := SharedPtr.fromPointer pDevice s
  (.ok ⟨r.1⟩, r.2)

/-- The implicit copy constructor: the copy shares the control block, whose use
count goes up by one. -/
def Device.copy {W : Type} (self : Device) (s : Sys W) : Device × Sys W :=
  let b := s.blocks self._deviceSPtr.ctrl
  (self, { s with blocks := Function.update s.blocks self._deviceSPtr.ctrl
                              { b with useCount := b.useCount + 1 } })

/-- The implicit destructor: the use count goes down by one, and the owner that
brings it to zero runs the deleter on the owned pointer. -/
def Device.destroy {W : Type} (N : Native W) (self : Device) (s : Sys W) : Sys W :=
  let g := self._deviceSPtr.ctrl
  let b := s.blocks g
  let s1 := { s with blocks := Function.update s.blocks g { b with useCount := b.useCount - 1 } }
  if b.useCount = 1 then
    let d := DeviceDeleter.operator N b.ptr s1.world
    { s1 with world := d.world, stderr := s1.stderr ++ d.written,
              unmakes := s1.unmakes ++ d.unmakeCalls.map (fun p => (g, p)) }
  else s1

/-- Which constructor a handle is made with. -/
inductive Ctor where
  | kwargs (kwargs : Kwargs)
  | args (args : String)
  | pDevice (pDevice : Ptr)
deriving DecidableEq, Repr

/-- Construction of a handle by the chosen constructor. -/
def Device.construct {W : Type} (N : Native W) : Ctor → Sys W → Except Exn Device × Sys W
  | .kwargs kwargs, s => Device.mk_kwargs N kwargs s
  | .args args, s => Device.mk_args N args s
  | .pDevice pDevice, s => Device.mk_pDevice pDevice s

/-- The pointer a constructor initialises `_deviceSPtr` with: what `make`
returns, or the pointer passed in. -/
def Ctor.pointer {W : Type} (N : Native W) : Ctor → W → Option Ptr
  | .kwargs k, w => (N.make_kwargs k w).1.toOption
  | .args a, w => (N.make_string a w).1.toOption
  | .pDevice p, _ => some p

/-- A step in the life of the handles of a program. -/
inductive LifeStep where
  /-- a constructor call -/
  | construct (how : Ctor)
  /-- copy of the live handle at an index -/
  | copy (i : Nat)
  /-- destruction of the live handle at an index -/
  | release (i : Nat)
deriving DecidableEq, Repr

/-- The handles alive in a program, over the process state. -/
structure Life (W : Type) where
  sys : Sys W
  handles : List Device

/-- The start of a program: nothing allocated, nothing written. -/
def Life.init {W : Type} (w : W) : Life W :=
  ⟨⟨w, fun _ => ⟨0, 0⟩, 0, [], []⟩, []⟩

/-- One step.  A step that names no live handle does nothing. -/
def Life.step {W : Type} (N : Native W) (L : Life W) : LifeStep → Life W
  | .construct how =>
    match Device.construct N how L.sys with
    | (.ok h, s1) => ⟨s1, L.handles ++ [h]⟩
    | (.error _, s1) => ⟨s1, L.handles⟩
  | .copy i =>
    match L.handles[i]? with
    | some h => ⟨(h.copy L.sys).2, L.handles ++ [(h.copy L.sys).1]⟩
    | none => L
  | .release i =>
    match L.handles[i]? with
    | some h => ⟨h.destroy N L.sys, L.handles.eraseIdx i⟩
    | none => L

/-- A sequence of steps, from the left. -/
def Life.run {W : Type} (N : Native W) (L : Life W) (steps : List LifeStep) : Life W :=
  steps.foldl (Life.step N) L

/-- Number of live handles that share control block `g`. -/
def Life.owners {W : Type} (L : Life W) (g : Nat) : Nat :=
  L.handles.countP (fun h => h._deviceSPtr.ctrl = g)

/-- Number of `unmake` calls made by the deleter of control block `g`. -/
def Sys.unmakeCount {W : Type} (s : Sys W) (g : Nat) : Nat :=
  s.unmakes.countP (fun u => u.1 = g)

/-- Number of live handles that hold the pointer `p`. -/
def Life.holders {W : Type} (L : Life W) (p : Ptr) : Nat :=
  L.handles.countP (fun h => h._deviceSPtr.get = p)

/-- Number of `unmake` calls made on the pointer `p`. -/
def Sys.unmakesOn {W : Type} (s : Sys W) (p : Ptr) : Nat :=
  s.unmakes.countP (fun u => u.2 = p)

/-- No two constructions so far acquired the same native device: the control
blocks allocated hold pairwise different pointers. -/
def Sys.DistinctDevices {W : Type} (s : Sys W) : Prop :=
  ∀ g1 g2, g1 < s.nextBlock → g2 < s.nextBlock → (s.blocks g1).ptr = (s.blocks g2).ptr → g1 = g2

/-! ## Sequences of method calls on one handle -/

/-- How one method call ended, without its value. -/
inductive Ended where
  | returned
  | threw
  | assertFailed
deriving DecidableEq, Repr

/-- Forgets the returned value. -/
def Outcome.ended {α : Type} : Outcome α → Ended
  | .returned _ => .returned
  | .threw _ => .threw
  | .assertFailed => .assertFailed

/-- Record of one method call in a sequence: the operation, the handle before
the call, the handle after it, and how the call ended. -/
structure CallRecord where
  op : Op
  before : Device
  after : Device
  ended : Ended

/-- The handles other than `this` that a method call receives. -/
def Op.handleArgs : Op → List Device
  | .Equals other => [other]
  | _ => []

/-- The object after a method call on it: its data member is what the run of
the method body left there. -/
def Device.afterCall {W : Type} (P : Platform) (N : Native W) (self : Device) (op : Op)
    (w : W) : Device :=
  ⟨(self.invoke P op).member N w self._deviceSPtr⟩

/-- Calls the methods of a sequence on an object, one after the other, each on
the object as the call before left it.  A caller may catch an exception and go
on; a failed assertion aborts the process, so the sequence stops there. -/
def Device.runOps {W : Type} (P : Platform) (N : Native W) :
    Device → List Op → W → List CallRecord
  | _, [], _ => []
  | self, op :: ops, w =>
    let r := (self.invoke P op).run N w
    match r.outcome.ended with
    | .assertFailed => [⟨op, self, self.afterCall P N op w, .assertFailed⟩]
    | e => ⟨op, self, self.afterCall P N op w, e⟩ ::
        Device.runOps P N (self.afterCall P N op w) ops r.world

/-! ## Reference behaviour for the forwarding claims -/

/-- One native call on the device at `p`, and nothing else: the run whose
outcome is the outcome of that call. -/
def forwardOnce {W : Type} (N : Native W) (p : Ptr) (c : NativeCall) (w : W) : Run W c.Ret :=
  match N.exec p c w with
  | (.ok r, w1) => ⟨.returned r, w1, [(p, c)]⟩
  | (.error e, w1) => ⟨.threw e, w1, [(p, c)]⟩

/-! ## A small native library, for evaluating the definitions -/

/-- Results of the sample device. -/
def sampleRet : (c : NativeCall) → c.Ret
  | .getDriverKey => "rtlsdr"
  | .getHardwareKey => "R820T"
  | .getHardwareInfo => []
  | .setFrontendMapping _ _ => ()
  | .getFrontendMapping _ => ""
  | .getNumChannels _ => (2 : Nat)
  | .getChannelInfo _ _ => []
  | .getFullDuplex _ _ => false
  | .getStreamFormats _ _ => []
  | .getNativeStreamFormat _ _ _ => ("CS16", ⟨32768⟩)
  | .getStreamArgsInfo _ _ => []
  | .listAntennas _ _ => []
  | .setAntenna _ _ _ => ()
  | .getAntenna _ _ => ""
  | .hasDCOffsetMode _ _ => false
  | .setDCOffsetMode _ _ _ => ()
  | .getDCOffsetMode _ _ => false
  | .hasDCOffset _ _ => false
  | .hasIQBalance _ _ => false
  | .hasIQBalanceMode _ _ => false
  | .setIQBalanceMode _ _ _ => ()
  | .getIQBalanceMode _ _ => false
  | .hasFrequencyCorrection _ _ => false
  | .setFrequencyCorrection _ _ _ => ()
  | .getFrequencyCorrection _ _ => ⟨0⟩
  | .listGains _ _ => []
  | .hasGainMode _ _ => false
  | .setGainMode _ _ _ => ()
  | .getGainMode _ _ => false
  | .setGain _ _ _ => ()
  | .setGain_name _ _ _ _ => ()
  | .getGain _ _ => ⟨42⟩
  | .getGain_name _ _ _ => ⟨0⟩
  | .getGainRange _ _ => (default : Range)
  | .getGainRange_name _ _ _ => (default : Range)
  | .setFrequency _ _ _ _ => ()
  | .setFrequency_name _ _ _ _ _ => ()
  | .getFrequency _ _ => ⟨0⟩
  | .getFrequency_name _ _ _ => ⟨0⟩
  | .listFrequencies _ _ => []
  | .getFrequencyRange _ _ => []
  | .getFrequencyRange_name _ _ _ => []
  | .getFrequencyArgsInfo _ _ => []
  | .setSampleRate _ _ _ => ()
  | .getSampleRate _ _ => ⟨0⟩
  | .getSampleRateRange _ _ => []
  | .setBandwidth _ _ _ => ()
  | .getBandwidth _ _ => ⟨0⟩
  | .getBandwidthRange _ _ => []
  | .setMasterClockRate _ => ()
  | .getMasterClockRate => ⟨0⟩
  | .getMasterClockRates => []
  | .setReferenceClockRate _ => ()
  | .getReferenceClockRate => ⟨0⟩
  | .getReferenceClockRates => []
  | .listClockSources => []
  | .setClockSource _ => ()
  | .getClockSource => ""
  | .listTimeSources => []
  | .setTimeSource _ => ()
  | .getTimeSource => ""
  | .hasHardwareTime _ => false
  | .getHardwareTime _ => (0 : Int)
  | .setHardwareTime _ _ => ()
  | .listSensors => []
  | .getSensorInfo _ => (default : ArgInfo)
  | .readSensor _ => ""
  | .listSensors_channel _ _ => []
  | .getSensorInfo_channel _ _ _ => (default : ArgInfo)
  | .readSensor_channel _ _ _ => ""
  | .listRegisterInterfaces => []
  | .writeRegister _ _ _ => ()
  | .readRegister _ _ => (0 : Nat)
  | .writeRegisters _ _ _ => ()
  | .readRegisters _ addr length => (List.range length).map (fun i => addr + i)
  | .getSettingInfo => []
  | .writeSetting _ _ => ()
  | .readSetting _ => ""
  | .getSettingInfo_channel _ _ => []
  | .writeSetting_channel _ _ _ _ => ()
  | .readSetting_channel _ _ _ => ""
  | .listGPIOBanks => []
  | NativeCall.writeGPIO _ _ => ()
  | .writeGPIO_mask _ _ _ => ()
  | NativeCall.readGPIO _ => (0 : Nat)
  | .writeGPIODir _ _ => ()
  | .writeGPIODir_mask _ _ _ => ()
  | .readGPIODir _ => (0 : Nat)
  | .writeI2C _ _ => ()
  | .readI2C _ _ => ""
  | .transactSPI _ _ _ => (0 : Nat)
  | .listUARTs => []
  | .writeUART _ _ => ()
  | .readUART _ _ => ""

/-- A native library whose world counts the calls made into it.  Its factory
fails on an empty argument string and its teardown throws at address 13. -/
def sampleNative : Native Nat where
  make_kwargs := fun _ w => (.ok 4096, w + 1)
  make_string := fun args w => if args = "" then (.error (.std "no match"), w + 1) else (.ok 4096, w + 1)
  unmake := fun p w => if p = 13 then (.error (.std "busy"), w + 1) else (.ok (), w + 1)
  exec := fun _ c w => (.ok (sampleRet c), w + 1)

/-- A 64-bit platform that evaluates operands left to right. -/
def lp64 : Platform := ⟨64, 64, .leftFirst, .leftFirst⟩

/-- A handle on the device at address 4096. -/
def sampleDevice : Device := ⟨⟨4096, 0⟩⟩

/-- A handle whose pointer is null. -/
def nullDevice : Device := ⟨⟨0, 0⟩⟩

/-- Sequencing of two runs: the second starts in the world the first left and
only when the first returned; the calls of both are kept in order. -/
def Run.andThen {W α β : Type} (r : Run W α) (f : α → W → Run W β) : Run W β :=
  match r.outcome with
  | .returned a => ⟨(f a r.world).outcome, (f a r.world).world, r.calls ++ (f a r.world).calls⟩
  | .threw e => ⟨.threw e, r.world, r.calls⟩
  | .assertFailed => ⟨.assertFailed, r.world, r.calls⟩

/-- A method body in which no assertion can fail, whatever the native calls
return. -/
def Prog.AssertFree {α : Type} : Prog α → Prop
  | .ret _ => True
  | .assertFail => False
  | .call _ _ k => ∀ r, (k r).AssertFree
  | .assign _ k => k.AssertFree

/-- A method body that contains no assignment to `_deviceSPtr`. -/
def Prog.AssignFree {α : Type} : Prog α → Prop
  | .ret _ => True
  | .assertFail => True
  | .call _ _ k => ∀ r, (k r).AssignFree
  | .assign _ _ => False

/-- What ties the use counts, the live handles and the `unmake` calls
together. -/
structure Life.Inv {W : Type} (L : Life W) : Prop where
  /-- a live handle holds the pointer of an allocated control block -/
  handle : ∀ h ∈ L.handles,
    h._deviceSPtr.ctrl < L.sys.nextBlock ∧
    h._deviceSPtr.get = (L.sys.blocks h._deviceSPtr.ctrl).ptr
  /-- the use count is the number of live handles that share the block -/
  count : ∀ g, g < L.sys.nextBlock → (L.sys.blocks g).useCount = L.owners g
  /-- the teardown `unmake` is only called by the deleter of an allocated block, on its pointer -/
  call : ∀ u ∈ L.sys.unmakes, u.1 < L.sys.nextBlock ∧ u.2 = (L.sys.blocks u.1).ptr
  /-- once when the block has no owner left, never before -/
  once : ∀ g, g < L.sys.nextBlock → L.sys.unmakeCount g = if L.owners g = 0 then 1 else 0

/-- The `unmake` call a step makes: the release of the only owner of a control
block runs that block's deleter; no other step calls `unmake`. -/
def Life.unmakeOf {W : Type} (L : Life W) : LifeStep → List (Nat × Ptr)
  | .release i =>
    match L.handles[i]? with
    | some h =>
      if (L.sys.blocks h._deviceSPtr.ctrl).useCount = 1
        then [(h._deviceSPtr.ctrl, (L.sys.blocks h._deviceSPtr.ctrl).ptr)] else []
    | none => []
  | _ => []

/-- A native library with keys that contain the separator: the device at
address 1 has driver key "a:b" and hardware key "c", every other device has
driver key "a" and hardware key "b:c". -/
def colonNative : Native Nat where
  make_kwargs := fun _ w => (.ok 1, w + 1)
  make_string := fun _ w => (.ok 2, w + 1)
  unmake := fun _ w => (.ok (), w + 1)
  exec := fun p c w =>
    match c with
    | .getDriverKey => (.ok (if p = 1 then "a:b" else "a"), w + 1)
    | .getHardwareKey => (.ok (if p = 1 then "c" else "b:c"), w + 1)
    | c => (.ok (sampleRet c), w + 1)

/-- A handle on the device at address 1 of `colonNative`. -/
def colonDeviceA : Device := ⟨⟨1, 0⟩⟩

/-- A handle on the device at address 2 of `colonNative`. -/
def colonDeviceB : Device := ⟨⟨2, 1⟩⟩

/-- A second handle on the device at address 4096, made by a construction of
its own. -/
def sampleDeviceAgain : Device := ⟨⟨4096, 1⟩⟩

/-- Calls the methods of a sequence, each on the first handle (`true`) or on the
second (`false`), and records for every call how it ended and the native calls
it made.  As in `Device.runOps`, a failed assertion ends the sequence. -/
def runEither {W : Type} (P : Platform) (N : Native W) (a b : Device) :
    List (Bool × Op) → W → List (Ended × List (Ptr × NativeCall))
  | [], _ => []
  | (onFirst, op) :: rest, w =>
    let r := ((if onFirst then a else b).invoke P op).run N w
    match r.outcome.ended with
    | .assertFailed => [(.assertFailed, r.calls)]
    | e => (e, r.calls) :: runEither P N a b rest r.world

/-- What reaches `stderr` from one call of the deleter: `fputs` writes its
argument as it is, so the text is the strings written, one after the other. -/
def DeleterRun.text {W : Type} (d : DeleterRun W) : String :=
  String.join d.written

/-! # Theorems -/

/-! ## Running method bodies -/

theorem Prog.run_ret {W α : Type} (N : Native W) (a : α) (w : W) :
    (Prog.ret a).run N w = ⟨.returned a, w, []⟩ := rfl

theorem Prog.run_bind {W α β : Type} (N : Native W) (m : Prog α) (f : α → Prog β) (w : W) :
    (m >>= f).run N w = (m.run N w).andThen (fun a w1 => (f a).run N w1) := by
  show (m.bind f).run N w = _
  induction m generalizing w with
  | ret a => simp [Prog.bind, Prog.run, Run.andThen]
  | assertFail => simp [Prog.bind, Prog.run, Run.andThen]
  | call p c k ih =>
    simp only [Prog.bind, Prog.run]
    cases hx : N.exec p c w with
    | mk r w1 =>
      cases r with
      | error e => simp [Run.andThen]
      | ok r =>
        simp only [ih]
        cases hy : ((k r).run N w1).outcome <;> simp [Run.andThen, hy]
  | assign sp k ih =>
    simp only [Prog.bind, Prog.run]
    exact ih w

theorem run_arrow {W : Type} (N : Native W) (sp : SharedPtr) (c : NativeCall) (w : W) :
    (sp.arrow c).run N w = forwardOnce N sp.get c w := by
  simp only [SharedPtr.arrow, Prog.run, forwardOnce]

theorem run_assert_bind_null {W α : Type} (N : Native W) (sp : SharedPtr) (h : sp.get = 0)
    (f : Unit → Prog α) (w : W) : (assert sp >>= f).run N w = ⟨.assertFailed, w, []⟩ := by
  simp [assert, h, bind, Prog.bind, Prog.run]

theorem run_assert_bind {W α : Type} (N : Native W) (sp : SharedPtr) (h : sp.get ≠ 0)
    (f : Unit → Prog α) (w : W) : (assert sp >>= f).run N w = (f ()).run N w := by
  simp [assert, h, bind, Prog.bind]

theorem run_assert_arrow {W : Type} (N : Native W) (sp : SharedPtr) (h : sp.get ≠ 0)
    (c : NativeCall) (w : W) :
    (assert sp >>= fun _ => sp.arrow c).run N w = forwardOnce N sp.get c w := by
  rw [run_assert_bind N sp h, run_arrow]

theorem forwardOnce_calls {W : Type} (N : Native W) (p : Ptr) (c : NativeCall) (w : W) :
    (forwardOnce N p c w).calls = [(p, c)] := by
  unfold forwardOnce
  cases hx : N.exec p c w with
  | mk r w1 => cases r <;> rfl

theorem Prog.AssertFree.bind {α β : Type} {m : Prog α} {f : α → Prog β}
    (hm : m.AssertFree) (hf : ∀ a, (f a).AssertFree) : (m >>= f).AssertFree := by
  show (m.bind f).AssertFree
  induction m with
  | ret a => exact hf a
  | assertFail => exact hm.elim
  | call p c k ih => exact fun r => ih r (hm r)
  | assign sp k ih => exact ih hm

theorem assert_assertFree {sp : SharedPtr} (h : sp.get ≠ 0) : (assert sp).AssertFree := by
  simp [assert, h, Prog.AssertFree]

theorem arrow_assertFree (sp : SharedPtr) (c : NativeCall) : (sp.arrow c).AssertFree :=
  fun _ => trivial

theorem assert_arrow_assertFree {sp : SharedPtr} (h : sp.get ≠ 0) (c : NativeCall) :
    (assert sp >>= fun _ => sp.arrow c).AssertFree :=
  (assert_assertFree h).bind (fun _ => arrow_assertFree sp c)

theorem Prog.AssertFree.run_ended {W α : Type} (N : Native W) {m : Prog α} (hm : m.AssertFree)
    (w : W) : (m.run N w).outcome.ended ≠ .assertFailed := by
  induction m generalizing w with
  | ret a => simp [Prog.run, Outcome.ended]
  | assertFail => exact hm.elim
  | call p c k ih =>
    simp only [Prog.run]
    cases hx : N.exec p c w with
    | mk r w1 =>
      cases r with
      | error e => simp [Outcome.ended]
      | ok r => exact ih r (hm r) w1
  | assign sp k ih => exact ih hm w

theorem toString_assertFree (P : Platform) {self : Device} (h : self._deviceSPtr.get ≠ 0) :
    (self.__ToString P).AssertFree := by
  unfold Device.__ToString
  refine (assert_assertFree h).bind (fun _ => ?_)
  cases P.plusOrder <;>
    exact (arrow_assertFree _ _).bind (fun _ => (arrow_assertFree _ _).bind (fun _ => trivial))

theorem invoke_assertFree (P : Platform) {self : Device} (h : self._deviceSPtr.get ≠ 0) (op : Op)
    (hargs : ∀ o ∈ op.handleArgs, o._deviceSPtr.get ≠ 0) : (self.invoke P op).AssertFree := by
  cases op
  case Equals other =>
    have ho : other._deviceSPtr.get ≠ 0 := hargs other (by simp [Op.handleArgs])
    show (self.Equals P other).AssertFree
    unfold Device.Equals
    refine (assert_assertFree h).bind (fun _ => ?_)
    cases P.eqOrder
    · exact (toString_assertFree P h).bind
        (fun _ => (toString_assertFree P ho).bind (fun _ => trivial))
    · exact (toString_assertFree P ho).bind
        (fun _ => (toString_assertFree P h).bind (fun _ => trivial))
  case __ToString => exact toString_assertFree P h
  case GetPointer => exact (assert_assertFree h).bind (fun _ => trivial)
  case ReadRegisters name addr length =>
    exact (assert_assertFree h).bind
      (fun _ => (arrow_assertFree _ _).bind (fun _ => trivial))
  all_goals exact assert_arrow_assertFree h _

theorem construct_pointer {W : Type} (N : Native W) (how : Ctor) (s s1 : Sys W) (self : Device)
    (hmk : Device.construct N how s = (.ok self, s1)) :
    how.pointer N s.world = some self._deviceSPtr.get := by
  cases how with
  | kwargs k =>
    simp only [Device.construct, Device.mk_kwargs, Ctor.pointer] at hmk ⊢
    cases hx : N.make_kwargs k s.world with
    | mk r w1 =>
      cases r with
      | error e => simp [hx] at hmk
      | ok p =>
        simp [hx, SharedPtr.fromPointer] at hmk
        simp [Except.toOption, ← hmk.1]
  | args a =>
    simp only [Device.construct, Device.mk_args, Ctor.pointer] at hmk ⊢
    cases hx : N.make_string a s.world with
    | mk r w1 =>
      cases r with
      | error e => simp [hx] at hmk
      | ok p =>
        simp [hx, SharedPtr.fromPointer] at hmk
        simp [Except.toOption, ← hmk.1]
  | pDevice p =>
    simp [Device.construct, Device.mk_pDevice, SharedPtr.fromPointer] at hmk
    simp [Ctor.pointer, ← hmk.1]

theorem Prog.AssignFree.andThen_assignFree {α β : Type} {m : Prog α} {f : α → Prog β}
    (hm : m.AssignFree) (hf : ∀ a, (f a).AssignFree) : (m >>= f).AssignFree := by
  show (m.bind f).AssignFree
  induction m with
  | ret a => exact hf a
  | assertFail => trivial
  | call p c k ih => exact fun r => ih r (hm r)
  | assign sp k _ => exact hm.elim

theorem assert_assignFree (sp : SharedPtr) : (assert sp).AssignFree := by
  unfold assert
  split <;> trivial

theorem arrow_assignFree (sp : SharedPtr) (c : NativeCall) : (sp.arrow c).AssignFree :=
  fun _ => trivial

theorem assert_arrow_assignFree (sp : SharedPtr) (c : NativeCall) :
    (assert sp >>= fun _ => sp.arrow c).AssignFree :=
  (assert_assignFree sp).andThen_assignFree (fun _ => arrow_assignFree sp c)

theorem toString_assignFree (P : Platform) (self : Device) :
    (self.__ToString P).AssignFree := by
  unfold Device.__ToString
  refine (assert_assignFree _).andThen_assignFree (fun _ => ?_)
  cases P.plusOrder <;>
    exact (arrow_assignFree _ _).andThen_assignFree (fun _ => (arrow_assignFree _ _).andThen_assignFree (fun _ => trivial))

theorem invoke_assignFree (P : Platform) (self : Device) (op : Op) :
    (self.invoke P op).AssignFree := by
  cases op
  case Equals other =>
    show (self.Equals P other).AssignFree
    unfold Device.Equals
    refine (assert_assignFree _).andThen_assignFree (fun _ => ?_)
    cases P.eqOrder
    · exact (toString_assignFree P self).andThen_assignFree
        (fun _ => (toString_assignFree P other).andThen_assignFree (fun _ => trivial))
    · exact (toString_assignFree P other).andThen_assignFree
        (fun _ => (toString_assignFree P self).andThen_assignFree (fun _ => trivial))
  case __ToString => exact toString_assignFree P self
  case GetPointer => exact (assert_assignFree _).andThen_assignFree (fun _ => trivial)
  case ReadRegisters name addr length =>
    exact (assert_assignFree _).andThen_assignFree
      (fun _ => (arrow_assignFree _ _).andThen_assignFree (fun _ => trivial))
  all_goals exact assert_arrow_assignFree _ _

theorem Prog.AssignFree.member {W α : Type} (N : Native W) {m : Prog α} (hm : m.AssignFree)
    (w : W) (entry : SharedPtr) : m.member N w entry = entry := by
  induction m generalizing w with
  | ret a => rfl
  | assertFail => rfl
  | call p c k ih =>
    simp only [Prog.member]
    cases hx : N.exec p c w with
    | mk r w1 =>
      cases r with
      | error e => rfl
      | ok r => exact ih r (hm r) w1
  | assign sp k _ => exact hm.elim

theorem afterCall_eq {W : Type} (P : Platform) (N : Native W) (self : Device) (op : Op)
    (w : W) : self.afterCall P N op w = self := by
  unfold Device.afterCall
  rw [(invoke_assignFree P self op).member N w]

theorem runOps_handle_unchanged {W : Type} (P : Platform) (N : Native W) (self : Device)
    (ops : List Op) (w : W) :
    ∀ r ∈ self.runOps P N ops w, r.before = self ∧ r.after = self := by
  induction ops generalizing w with
  | nil => simp [Device.runOps]
  | cons op ops ih =>
    simp only [Device.runOps, afterCall_eq]
    cases he : ((self.invoke P op).run N w).outcome.ended with
    | assertFailed => simp
    | returned =>
      intro r hr
      rcases List.mem_cons.mp hr with rfl | hr
      · simp
      · exact ih _ r hr
    | threw =>
      intro r hr
      rcases List.mem_cons.mp hr with rfl | hr
      · simp
      · exact ih _ r hr

/-- C2: every instance operation, with any arguments, on a null handle fails its
assertion before anything else happens: the run ends in the failed assertion,
the world is untouched and no native call has been made. -/
theorem null_handle_asserts_before_any_call {W : Type} (P : Platform) (N : Native W)
    (self : Device) (h : self._deviceSPtr.get = 0) (op : Op) (w : W) :
    (self.invoke P op).run N w = ⟨.assertFailed, w, []⟩ := by
  cases op <;> exact run_assert_bind_null N _ h _ w

/-- Witness for C2: `SetGain` on the null handle. -/
theorem null_handle_asserts_before_any_call_witness :
    nullDevice._deviceSPtr.get = 0 ∧
    (nullDevice.invoke lp64 (.SetGain ⟨0⟩ 1 ⟨3⟩)).run sampleNative 5 = ⟨.assertFailed, 5, []⟩ :=
  ⟨rfl, null_handle_asserts_before_any_call lp64 sampleNative nullDevice rfl _ 5⟩

/-! ## Register containers (C7, C8) -/

theorem transform_back_inserter_eq {α β : Type} (f : α → β) (xs : List α) (out : List β) :
    transform_back_inserter f xs out = out ++ xs.map f := by
  induction xs generalizing out with
  | nil => simp [transform_back_inserter]
  | cons x rest ih => simp [transform_back_inserter, ih]

theorem map_mod_of_lt (n : Nat) (r : List Nat) (h : ∀ x ∈ r, x < n) :
    r.map (fun x => x % n) = r := by
  induction r with
  | nil => rfl
  | cons x rest ih =>
    have hx : x % n = x := Nat.mod_eq_of_lt (h x (by simp))
    have hr := ih (fun y hy => h y (by simp [hy]))
    simp only [List.map_cons, hx, hr]

theorem andThen_narrow {W : Type} (n : Nat) (r0 : Run W (List Nat))
    (hr : ∀ l, r0.outcome = .returned l → ∀ x ∈ l, x < n) :
    r0.andThen (fun r w1 => ⟨.returned (r.map (fun x => x % n)), w1, []⟩) = r0 := by
  obtain ⟨o, w0, cs⟩ := r0
  cases o with
  | returned l => simp [Run.andThen, map_mod_of_lt n l (hr l rfl)]
  | threw e => simp [Run.andThen]
  | assertFailed => simp [Run.andThen]

theorem forwardOnce_returned {W : Type} (N : Native W) (p : Ptr) (c : NativeCall) (w : W)
    (r : c.Ret) (h : (forwardOnce N p c w).outcome = .returned r) :
    ∃ w1, N.exec p c w = (.ok r, w1) := by
  unfold forwardOnce at h
  cases hx : N.exec p c w with
  | mk x w1 =>
    cases x with
    | error e => simp [hx] at h
    | ok y =>
      simp [hx] at h
      exact ⟨w1, by rw [h]⟩

theorem run_ReadRegisters {W : Type} (P : Platform) (N : Native W) (self : Device)
    (h : self._deviceSPtr.get ≠ 0) (name : String) (addr length : Nat) (w : W) :
    (self.ReadRegisters P name addr length).run N w =
      (forwardOnce N self._deviceSPtr.get ( NativeCall.readRegisters name addr length) w).andThen
        (fun r w1 => ⟨.returned (r.map (fun x => x % 2 ^ P.ptrBits)), w1, []⟩) := by
  unfold Device.ReadRegisters
  rw [run_assert_bind N _ h, Prog.run_bind, run_arrow]
  congr 1
  funext r w1
  show (Prog.ret _).run N w1 = _
  rw [Prog.run_ret, transform_back_inserter_eq]
  rfl

theorem run_ReadRegisters_typed {W : Type} (P : Platform) (N : Native W) (self : Device)
    (h : self._deviceSPtr.get ≠ 0) (hP : 32 ≤ P.ptrBits) (name : String) (addr length : Nat)
    (w : W)
    (hty : ∀ (r : List Nat) (w1 : W),
      N.exec self._deviceSPtr.get ( NativeCall.readRegisters name addr length) w = (.ok r, w1) →
      ∀ x ∈ r, x < 2 ^ 32) :
    (self.ReadRegisters P name addr length).run N w =
      forwardOnce N self._deviceSPtr.get ( NativeCall.readRegisters name addr length) w := by
  rw [run_ReadRegisters P N self h]
  refine andThen_narrow (2 ^ P.ptrBits) _ (fun l hl x hxm => ?_)
  obtain ⟨w1, hx⟩ := forwardOnce_returned N _ _ w l hl
  exact lt_of_lt_of_le (hty l w1 hx x hxm) (Nat.pow_le_pow_right (by decide) hP)

/-! ## Queries forward (C3) -/

/-- C3: on a non-null handle, each query runs as exactly one call of the
same-named native operation on the device the handle points to, with the
direction replaced by its integer code and every other argument unchanged and in
place; what the native operation returns (or throws) is what the query returns
(or throws), and no other native call is made.  `GetNativeStreamFormat` passes
its reference argument through.  `ReadRegisters` returns the native list of
32-bit values as a list of `UIntPtrT`, numerically the same when `UIntPtrT` has
at least 32 bits. -/
theorem queries_forward_to_native {W : Type} (N : Native W) (self : Device)
    (h : self._deviceSPtr.get ≠ 0) (w : W) :
    (∀ (direction : Direction), ( Device.GetFrontendMapping self direction).run N w =
      forwardOnce N self._deviceSPtr.get ( NativeCall.getFrontendMapping direction.toInt) w) ∧
    (∀ (direction : Direction), ( Device.GetNumChannels self direction).run N w =
      forwardOnce N self._deviceSPtr.get ( NativeCall.getNumChannels direction.toInt) w) ∧
    (∀ (direction : Direction) (channel : Nat), ( Device.GetChannelInfo self direction channel).run N w =
      forwardOnce N self._deviceSPtr.get ( NativeCall.getChannelInfo direction.toInt channel) w) ∧
    (∀ (direction : Direction) (channel : Nat), ( Device.GetFullDuplex self direction channel).run N w =
      forwardOnce N self._deviceSPtr.get ( NativeCall.getFullDuplex direction.toInt channel) w) ∧
    (∀ (direction : Direction) (channel : Nat), ( Device.GetStreamFormats self direction channel).run N w =
      forwardOnce N self._deviceSPtr.get ( NativeCall.getStreamFormats direction.toInt channel) w) ∧
    (∀ (direction : Direction) (channel : Nat) (fullScaleOut : Double), ( Device.GetNativeStreamFormat self direction channel fullScaleOut).run N w =
      forwardOnce N self._deviceSPtr.get ( NativeCall.getNativeStreamFormat direction.toInt channel fullScaleOut) w) ∧
    (∀ (direction : Direction) (channel : Nat), ( Device.GetStreamArgsInfo self direction channel).run N w =
      forwardOnce N self._deviceSPtr.get ( NativeCall.getStreamArgsInfo direction.toInt channel) w) ∧
    (∀ (direction : Direction) (channel : Nat), ( Device.ListAntennas self direction channel).run N w =
      forwardOnce N self._deviceSPtr.get ( NativeCall.listAntennas direction.toInt channel) w) ∧
    (∀ (direction : Direction) (channel : Nat), ( Device.GetAntenna self direction channel).run N w =
      forwardOnce N self._deviceSPtr.get ( NativeCall.getAntenna direction.toInt channel) w) ∧
    (∀ (direction : Direction) (channel : Nat), ( Device.HasDCOffsetMode self direction channel).run N w =
      forwardOnce N self._deviceSPtr.get ( NativeCall.hasDCOffsetMode direction.toInt channel) w) ∧
    (∀ (direction : Direction) (channel : Nat), ( Device.GetDCOffsetMode self direction channel).run N w =
      forwardOnce N self._deviceSPtr.get ( NativeCall.getDCOffsetMode direction.toInt channel) w) ∧
    (∀ (direction : Direction) (channel : Nat), ( Device.HasDCOffset self direction channel).run N w =
      forwardOnce N self._deviceSPtr.get ( NativeCall.hasDCOffset direction.toInt channel) w) ∧
    (∀ (direction : Direction) (channel : Nat), ( Device.HasIQBalance self direction channel).run N w =
      forwardOnce N self._deviceSPtr.get ( NativeCall.hasIQBalance direction.toInt channel) w) ∧
    (∀ (direction : Direction) (channel : Nat), ( Device.HasIQBalanceMode self direction channel).run N w =
      forwardOnce N self._deviceSPtr.get ( NativeCall.hasIQBalanceMode direction.toInt channel) w) ∧
    (∀ (direction : Direction) (channel : Nat), ( Device.GetIQBalanceMode self direction channel).run N w =
      forwardOnce N self._deviceSPtr.get ( NativeCall.getIQBalanceMode direction.toInt channel) w) ∧
    (∀ (direction : Direction) (channel : Nat), ( Device.HasFrequencyCorrection self direction channel).run N w =
      forwardOnce N self._deviceSPtr.get ( NativeCall.hasFrequencyCorrection direction.toInt channel) w) ∧
    (∀ (direction : Direction) (channel : Nat), ( Device.GetFrequencyCorrection self direction channel).run N w =
      forwardOnce N self._deviceSPtr.get ( NativeCall.getFrequencyCorrection direction.toInt channel) w) ∧
    (∀ (direction : Direction) (channel : Nat), ( Device.ListGains self direction channel).run N w =
      forwardOnce N self._deviceSPtr.get ( NativeCall.listGains direction.toInt channel) w) ∧
    (∀ (direction : Direction) (channel : Nat), ( Device.HasGainMode self direction channel).run N w =
      forwardOnce N self._deviceSPtr.get ( NativeCall.hasGainMode direction.toInt channel) w) ∧
    (∀ (direction : Direction) (channel : Nat), ( Device.GetGainMode self direction channel).run N w =
      forwardOnce N self._deviceSPtr.get ( NativeCall.getGainMode direction.toInt channel) w) ∧
    (∀ (direction : Direction) (channel : Nat), ( Device.GetGain self direction channel).run N w =
      forwardOnce N self._deviceSPtr.get ( NativeCall.getGain direction.toInt channel) w) ∧
    (∀ (direction : Direction) (channel : Nat) (name : String), ( Device.GetGain_name self direction channel name).run N w =
      forwardOnce N self._deviceSPtr.get ( NativeCall.getGain_name direction.toInt channel name) w) ∧
    (∀ (direction : Direction) (channel : Nat), ( Device.GetGainRange self direction channel).run N w =
      forwardOnce N self._deviceSPtr.get ( NativeCall.getGainRange direction.toInt channel) w) ∧
    (∀ (direction : Direction) (channel : Nat) (name : String), ( Device.GetGainRange_name self direction channel name).run N w =
      forwardOnce N self._deviceSPtr.get ( NativeCall.getGainRange_name direction.toInt channel name) w) ∧
    (∀ (direction : Direction) (channel : Nat), ( Device.GetFrequency self direction channel).run N w =
      forwardOnce N self._deviceSPtr.get ( NativeCall.getFrequency direction.toInt channel) w) ∧
    (∀ (direction : Direction) (channel : Nat) (name : String), ( Device.GetFrequency_name self direction channel name).run N w =
      forwardOnce N self._deviceSPtr.get ( NativeCall.getFrequency_name direction.toInt channel name) w) ∧
    (∀ (direction : Direction) (channel : Nat), ( Device.ListFrequencies self direction channel).run N w =
      forwardOnce N self._deviceSPtr.get ( NativeCall.listFrequencies direction.toInt channel) w) ∧
    (∀ (direction : Direction) (channel : Nat), ( Device.GetFrequencyRange self direction channel).run N w =
      forwardOnce N self._deviceSPtr.get ( NativeCall.getFrequencyRange direction.toInt channel) w) ∧
    (∀ (direction : Direction) (channel : Nat) (name : String), ( Device.GetFrequencyRange_name self direction channel name).run N w =
      forwardOnce N self._deviceSPtr.get ( NativeCall.getFrequencyRange_name direction.toInt channel name) w) ∧
    (∀ (direction : Direction) (channel : Nat), ( Device.GetFrequencyArgsInfo self direction channel).run N w =
      forwardOnce N self._deviceSPtr.get ( NativeCall.getFrequencyArgsInfo direction.toInt channel) w) ∧
    (∀ (direction : Direction) (channel : Nat), ( Device.GetSampleRate self direction channel).run N w =
      forwardOnce N self._deviceSPtr.get ( NativeCall.getSampleRate direction.toInt channel) w) ∧
    (∀ (direction : Direction) (channel : Nat), ( Device.GetSampleRateRange self direction channel).run N w =
      forwardOnce N self._deviceSPtr.get ( NativeCall.getSampleRateRange direction.toInt channel) w) ∧
    (∀ (direction : Direction) (channel : Nat), ( Device.GetBandwidth self direction channel).run N w =
      forwardOnce N self._deviceSPtr.get ( NativeCall.getBandwidth direction.toInt channel) w) ∧
    (∀ (direction : Direction) (channel : Nat), ( Device.GetBandwidthRange self direction channel).run N w =
      forwardOnce N self._deviceSPtr.get ( NativeCall.getBandwidthRange direction.toInt channel) w) ∧
    (( Device.GetMasterClockRate self).run N w =
      forwardOnce N self._deviceSPtr.get ( NativeCall.getMasterClockRate) w) ∧
    (( Device.GetMasterClockRates self).run N w =
      forwardOnce N self._deviceSPtr.get ( NativeCall.getMasterClockRates) w) ∧
    (( Device.GetReferenceClockRate self).run N w =
      forwardOnce N self._deviceSPtr.get ( NativeCall.getReferenceClockRate) w) ∧
    (( Device.GetReferenceClockRates self).run N w =
      forwardOnce N self._deviceSPtr.get ( NativeCall.getReferenceClockRates) w) ∧
    (( Device.ListClockSources self).run N w =
      forwardOnce N self._deviceSPtr.get ( NativeCall.listClockSources) w) ∧
    (( Device.GetClockSource self).run N w =
      forwardOnce N self._deviceSPtr.get ( NativeCall.getClockSource) w) ∧
    (( Device.ListTimeSources self).run N w =
      forwardOnce N self._deviceSPtr.get ( NativeCall.listTimeSources) w) ∧
    (( Device.GetTimeSource self).run N w =
      forwardOnce N self._deviceSPtr.get ( NativeCall.getTimeSource) w) ∧
    (∀ (what : String), ( Device.HasHardwareTime self what).run N w =
      forwardOnce N self._deviceSPtr.get ( NativeCall.hasHardwareTime what) w) ∧
    (∀ (what : String), ( Device.GetHardwareTime self what).run N w =
      forwardOnce N self._deviceSPtr.get ( NativeCall.getHardwareTime what) w) ∧
    (( Device.ListSensors self).run N w =
      forwardOnce N self._deviceSPtr.get ( NativeCall.listSensors) w) ∧
    (∀ (key : String), ( Device.GetSensorInfo self key).run N w =
      forwardOnce N self._deviceSPtr.get ( NativeCall.getSensorInfo key) w) ∧
    (∀ (key : String), ( Device.ReadSensor self key).run N w =
      forwardOnce N self._deviceSPtr.get ( NativeCall.readSensor key) w) ∧
    (∀ (direction : Direction) (channel : Nat), ( Device.ListSensors_channel self direction channel).run N w =
      forwardOnce N self._deviceSPtr.get ( NativeCall.listSensors_channel direction.toInt channel) w) ∧
    (∀ (direction : Direction) (channel : Nat) (key : String), ( Device.GetSensorInfo_channel self direction channel key).run N w =
      forwardOnce N self._deviceSPtr.get ( NativeCall.getSensorInfo_channel direction.toInt channel key) w) ∧
    (∀ (direction : Direction) (channel : Nat) (key : String), ( Device.ReadSensor_channel self direction channel key).run N w =
      forwardOnce N self._deviceSPtr.get ( NativeCall.readSensor_channel direction.toInt channel key) w) ∧
    (( Device.ListRegisterInterfaces self).run N w =
      forwardOnce N self._deviceSPtr.get ( NativeCall.listRegisterInterfaces) w) ∧
    (∀ (name : String) (addr : Nat), ( Device.ReadRegister self name addr).run N w =
      forwardOnce N self._deviceSPtr.get ( NativeCall.readRegister name addr) w) ∧
    (( Device.GetSettingInfo self).run N w =
      forwardOnce N self._deviceSPtr.get ( NativeCall.getSettingInfo) w) ∧
    (∀ (key : String), ( Device.ReadSetting self key).run N w =
      forwardOnce N self._deviceSPtr.get ( NativeCall.readSetting key) w) ∧
    (∀ (direction : Direction) (channel : Nat), ( Device.GetSettingInfo_channel self direction channel).run N w =
      forwardOnce N self._deviceSPtr.get ( NativeCall.getSettingInfo_channel direction.toInt channel) w) ∧
    (∀ (direction : Direction) (channel : Nat) (key : String), ( Device.ReadSetting_channel self direction channel key).run N w =
      forwardOnce N self._deviceSPtr.get ( NativeCall.readSetting_channel direction.toInt channel key) w) ∧
    (( Device.ListGPIOBanks self).run N w =
      forwardOnce N self._deviceSPtr.get ( NativeCall.listGPIOBanks) w) ∧
    (∀ (bank : String), ( Device.ReadGPIO self bank).run N w =
      forwardOnce N self._deviceSPtr.get ( NativeCall.readGPIO bank) w) ∧
    (∀ (bank : String), ( Device.ReadGPIODir self bank).run N w =
      forwardOnce N self._deviceSPtr.get ( NativeCall.readGPIODir bank) w) ∧
    (∀ (addr : Int) (numBytes : Nat), ( Device.ReadI2C self addr numBytes).run N w =
      forwardOnce N self._deviceSPtr.get ( NativeCall.readI2C addr numBytes) w) ∧
    (∀ (addr : Int) (data : Nat) (numBits : Nat), ( Device.TransactSPI self addr data numBits).run N w =
      forwardOnce N self._deviceSPtr.get ( NativeCall.transactSPI addr data numBits) w) ∧
    (( Device.ListUARTs self).run N w =
      forwardOnce N self._deviceSPtr.get ( NativeCall.listUARTs) w) ∧
    (( Device.GetDriverKey self).run N w =
      forwardOnce N self._deviceSPtr.get ( NativeCall.getDriverKey) w) ∧
    (( Device.GetHardwareKey self).run N w =
      forwardOnce N self._deviceSPtr.get ( NativeCall.getHardwareKey) w) ∧
    (( Device.GetHardwareInfo self).run N w =
      forwardOnce N self._deviceSPtr.get ( NativeCall.getHardwareInfo) w) ∧
    (∀ (P : Platform) (name : String) (addr : Nat) (length : Nat), 32 ≤ P.ptrBits →
      (∀ (r : List Nat) (w1 : W),
        N.exec self._deviceSPtr.get ( NativeCall.readRegisters name addr length) w = (.ok r, w1) →
        ∀ x ∈ r, x < 2 ^ 32) →
      ( Device.ReadRegisters self P name addr length).run N w =
      forwardOnce N self._deviceSPtr.get ( NativeCall.readRegisters name addr length) w) := by
  refine ⟨?_, ?_, ?_, ?_, ?_, ?_, ?_, ?_, ?_, ?_, ?_, ?_, ?_, ?_, ?_, ?_, ?_, ?_, ?_, ?_, ?_, ?_, ?_, ?_, ?_, ?_, ?_, ?_, ?_, ?_, ?_, ?_, ?_, ?_, ?_, ?_, ?_, ?_, ?_, ?_, ?_, ?_, ?_, ?_, ?_, ?_, ?_, ?_, ?_, ?_, ?_, ?_, ?_, ?_, ?_, ?_, ?_, ?_, ?_, ?_, ?_, ?_, ?_, ?_, ?_,
    fun P name addr length hP hty => run_ReadRegisters_typed P N self h hP name addr length w hty⟩
  all_goals (intros; exact run_assert_arrow N _ h _ w)

/-- Witness for C3: `GetFrontendMapping` and `GetGain` on the sample device. -/
theorem queries_forward_to_native_witness :
    sampleDevice._deviceSPtr.get ≠ 0 ∧
    (sampleDevice.GetFrontendMapping ⟨1⟩).run sampleNative 5
      = ⟨.returned "", 6, [(4096, .getFrontendMapping 1)]⟩ :=
  ⟨by decide, ((queries_forward_to_native sampleNative sampleDevice (by decide) 5).1 ⟨1⟩).trans rfl⟩

/-! ## Mutators forward (C4) -/

/-- C4: on a non-null handle, each mutating operation runs as exactly one call
of the same-named native operation with the same argument values in the same
positions (direction as its integer code); an overload with an element name or
a mask calls the native overload with that name or mask, and makes no call of
the overload without it. -/
theorem mutators_forward_to_native {W : Type} (N : Native W) (self : Device)
    (h : self._deviceSPtr.get ≠ 0) (w : W) :
    (∀ (direction : Direction) (mapping : String), ( Device.SetFrontendMapping self direction mapping).run N w =
      forwardOnce N self._deviceSPtr.get ( NativeCall.setFrontendMapping direction.toInt mapping) w) ∧
    (∀ (direction : Direction) (channel : Nat) (name : String), ( Device.SetAntenna self direction channel name).run N w =
      forwardOnce N self._deviceSPtr.get ( NativeCall.setAntenna direction.toInt channel name) w) ∧
    (∀ (direction : Direction) (channel : Nat) (automatic : Bool), ( Device.SetDCOffsetMode self direction channel automatic).run N w =
      forwardOnce N self._deviceSPtr.get ( NativeCall.setDCOffsetMode direction.toInt channel automatic) w) ∧
    (∀ (direction : Direction) (channel : Nat) (automatic : Bool), ( Device.SetIQBalanceMode self direction channel automatic).run N w =
      forwardOnce N self._deviceSPtr.get ( NativeCall.setIQBalanceMode direction.toInt channel automatic) w) ∧
    (∀ (direction : Direction) (channel : Nat) (value : Double), ( Device.SetFrequencyCorrection self direction channel value).run N w =
      forwardOnce N self._deviceSPtr.get ( NativeCall.setFrequencyCorrection direction.toInt channel value) w) ∧
    (∀ (direction : Direction) (channel : Nat) (automatic : Bool), ( Device.SetGainMode self direction channel automatic).run N w =
      forwardOnce N self._deviceSPtr.get ( NativeCall.setGainMode direction.toInt channel automatic) w) ∧
    (∀ (direction : Direction) (channel : Nat) (value : Double), ( Device.SetGain self direction channel value).run N w =
      forwardOnce N self._deviceSPtr.get ( NativeCall.setGain direction.toInt channel value) w) ∧
    (∀ (direction : Direction) (channel : Nat) (name : String) (value : Double), ( Device.SetGain_name self direction channel name value).run N w =
      forwardOnce N self._deviceSPtr.get ( NativeCall.setGain_name direction.toInt channel name value) w) ∧
    (∀ (direction : Direction) (channel : Nat) (frequency : Double) (args : Kwargs), ( Device.SetFrequency self direction channel frequency args).run N w =
      forwardOnce N self._deviceSPtr.get ( NativeCall.setFrequency direction.toInt channel frequency args) w) ∧
    (∀ (direction : Direction) (channel : Nat) (name : String) (frequency : Double) (args : Kwargs), ( Device.SetFrequency_name self direction channel name frequency args).run N w =
      forwardOnce N self._deviceSPtr.get ( NativeCall.setFrequency_name direction.toInt channel name frequency args) w) ∧
    (∀ (direction : Direction) (channel : Nat) (rate : Double), ( Device.SetSampleRate self direction channel rate).run N w =
      forwardOnce N self._deviceSPtr.get ( NativeCall.setSampleRate direction.toInt channel rate) w) ∧
    (∀ (direction : Direction) (channel : Nat) (bandwidth : Double), ( Device.SetBandwidth self direction channel bandwidth).run N w =
      forwardOnce N self._deviceSPtr.get ( NativeCall.setBandwidth direction.toInt channel bandwidth) w) ∧
    (∀ (rate : Double), ( Device.SetMasterClockRate self rate).run N w =
      forwardOnce N self._deviceSPtr.get ( NativeCall.setMasterClockRate rate) w) ∧
    (∀ (rate : Double), ( Device.SetReferenceClockRate self rate).run N w =
      forwardOnce N self._deviceSPtr.get ( NativeCall.setReferenceClockRate rate) w) ∧
    (∀ (source : String), ( Device.SetClockSource self source).run N w =
      forwardOnce N self._deviceSPtr.get ( NativeCall.setClockSource source) w) ∧
    (∀ (source : String), ( Device.SetTimeSource self source).run N w =
      forwardOnce N self._deviceSPtr.get ( NativeCall.setTimeSource source) w) ∧
    (∀ (timeNs : Int) (what : String), ( Device.SetHardwareTime self timeNs what).run N w =
      forwardOnce N self._deviceSPtr.get ( NativeCall.setHardwareTime timeNs what) w) ∧
    (∀ (name : String) (addr : Nat) (value : Nat), ( Device.WriteRegister self name addr value).run N w =
      forwardOnce N self._deviceSPtr.get ( NativeCall.writeRegister name addr value) w) ∧
    (∀ (key : String) (value : String), ( Device.WriteSetting self key value).run N w =
      forwardOnce N self._deviceSPtr.get ( NativeCall.writeSetting key value) w) ∧
    (∀ (direction : Direction) (channel : Nat) (key : String) (value : String), ( Device.WriteSetting_channel self direction channel key value).run N w =
      forwardOnce N self._deviceSPtr.get ( NativeCall.writeSetting_channel direction.toInt channel key value) w) ∧
    (∀ (bank : String) (value : Nat), ( Device.WriteGPIO self bank value).run N w =
      forwardOnce N self._deviceSPtr.get ( NativeCall.writeGPIO bank value) w) ∧
    (∀ (bank : String) (value : Nat) (mask : Nat), ( Device.WriteGPIO_mask self bank value mask).run N w =
      forwardOnce N self._deviceSPtr.get ( NativeCall.writeGPIO_mask bank value mask) w) ∧
    (∀ (bank : String) (dir : Nat), ( Device.WriteGPIODir self bank dir).run N w =
      forwardOnce N self._deviceSPtr.get ( NativeCall.writeGPIODir bank dir) w) ∧
    (∀ (bank : String) (dir : Nat) (mask : Nat), ( Device.WriteGPIODir_mask self bank dir mask).run N w =
      forwardOnce N self._deviceSPtr.get ( NativeCall.writeGPIODir_mask bank dir mask) w) ∧
    (∀ (addr : Int) (data : String), ( Device.WriteI2C self addr data).run N w =
      forwardOnce N self._deviceSPtr.get ( NativeCall.writeI2C addr data) w) ∧
    (∀ (which : String) (data : String), ( Device.WriteUART self which data).run N w =
      forwardOnce N self._deviceSPtr.get ( NativeCall.writeUART which data) w) ∧
    (∀ (direction : Direction) (channel : Nat) (name : String) (value : Double)
        (p : Ptr) (d : Int) (c : Nat) (v : Double),
      (p, NativeCall.setGain d c v) ∉
        (( Device.SetGain_name self direction channel name value).run N w).calls) ∧
    (∀ (direction : Direction) (channel : Nat) (name : String) (frequency : Double)
        (args : Kwargs) (p : Ptr) (d : Int) (c : Nat) (f : Double) (a : Kwargs),
      (p, NativeCall.setFrequency d c f a) ∉
        (( Device.SetFrequency_name self direction channel name frequency args).run N w).calls) ∧
    (∀ (bank : String) (value : Nat) (mask : Nat) (p : Ptr) (b : String) (v : Nat),
      (p, NativeCall.writeGPIO b v) ∉
        (( Device.WriteGPIO_mask self bank value mask).run N w).calls) ∧
    (∀ (bank : String) (dir : Nat) (mask : Nat) (p : Ptr) (b : String) (v : Nat),
      (p, NativeCall.writeGPIODir b v) ∉
        (( Device.WriteGPIODir_mask self bank dir mask).run N w).calls) := by
  have only : ∀ (c : NativeCall) (q : Ptr × NativeCall),
      q ∈ ((assert self._deviceSPtr >>= fun _ => self._deviceSPtr.arrow c).run N w).calls →
      q = (self._deviceSPtr.get, c) := by
    intro c q hq
    rw [run_assert_arrow N _ h, forwardOnce_calls] at hq
    exact List.mem_singleton.mp hq
  refine ⟨?_, ?_, ?_, ?_, ?_, ?_, ?_, ?_, ?_, ?_, ?_, ?_, ?_, ?_, ?_, ?_, ?_, ?_, ?_, ?_, ?_, ?_, ?_, ?_, ?_, ?_,
    fun _ _ _ _ _ _ _ _ hq => NativeCall.noConfusion (Prod.mk.inj (only _ _ hq)).2,
    fun _ _ _ _ _ _ _ _ _ _ hq => NativeCall.noConfusion (Prod.mk.inj (only _ _ hq)).2,
    fun _ _ _ _ _ _ hq => NativeCall.noConfusion (Prod.mk.inj (only _ _ hq)).2,
    fun _ _ _ _ _ _ hq => NativeCall.noConfusion (Prod.mk.inj (only _ _ hq)).2⟩
  all_goals (intros; exact run_assert_arrow N _ h _ w)

/-- Witness for C4: `SetGain` with an element name on the sample device calls
the native overload that takes the name. -/
theorem mutators_forward_to_native_witness :
    sampleDevice._deviceSPtr.get ≠ 0 ∧
    (sampleDevice.SetGain_name ⟨1⟩ 0 "LNA" ⟨7⟩).run sampleNative 5
      = ⟨.returned (), 6, [(4096, .setGain_name 1 0 "LNA" ⟨7⟩)]⟩ :=
  ⟨by decide,
   ((mutators_forward_to_native sampleNative sampleDevice (by decide) 5).2.2.2.2.2.2.2.1
      ⟨1⟩ 0 "LNA" ⟨7⟩).trans rfl⟩


/-! ## Ownership (C5, C6) -/

theorem deleter_unmakeCalls {W : Type} (N : Native W) (pDevice : Ptr) (w : W) :
    (DeviceDeleter.operator N pDevice w).unmakeCalls = [pDevice] := by
  unfold DeviceDeleter.operator
  cases hx : N.unmake pDevice w with
  | mk r w1 =>
    cases r with
    | ok u => rfl
    | error e => cases e <;> rfl

theorem countP_eraseIdx_of_getElem? {α : Type} (p : α → Bool) (l : List α) (i : Nat) (a : α)
    (h : l[i]? = some a) :
    (l.eraseIdx i).countP p + (if p a then 1 else 0) = l.countP p := by
  induction l generalizing i with
  | nil => simp at h
  | cons x xs ih =>
    cases i with
    | zero =>
      simp at h
      subst h
      simp [List.countP_cons]
    | succ j =>
      simp at h
      have := ih j h
      simp only [List.eraseIdx_cons_succ, List.countP_cons]
      omega

theorem Life.owners_append {W : Type} (L : Life W) (s : Sys W) (h : Device) (g : Nat) :
    (Life.mk s (L.handles ++ [h])).owners g
      = L.owners g + (if h._deviceSPtr.ctrl = g then 1 else 0) := by
  simp [Life.owners, List.countP_append, List.countP_cons]

theorem Life.owners_pos_of_mem {W : Type} (L : Life W) (h : Device) (hm : h ∈ L.handles) :
    0 < L.owners h._deviceSPtr.ctrl := by
  unfold Life.owners
  exact List.countP_pos_iff.mpr ⟨h, hm, by simp⟩

theorem Life.owners_zero_of_fresh {W : Type} (L : Life W) (hI : L.Inv) (g : Nat)
    (hg : L.sys.nextBlock ≤ g) : L.owners g = 0 := by
  unfold Life.owners
  rw [List.countP_eq_zero]
  intro h hm
  have := (hI.handle h hm).1
  simp
  omega

theorem Life.unmakeCount_zero_of_fresh {W : Type} (L : Life W) (hI : L.Inv) (g : Nat)
    (hg : L.sys.nextBlock ≤ g) : L.sys.unmakeCount g = 0 := by
  unfold Sys.unmakeCount
  rw [List.countP_eq_zero]
  intro u hm
  have := (hI.call u hm).1
  simp
  omega

theorem Life.inv_init {W : Type} (w : W) : (Life.init w).Inv := by
  constructor <;> simp [Life.init]

theorem Life.inv_fromPointer {W : Type} (L : Life W) (hI : L.Inv) (w1 : W) (p : Ptr) :
    (Life.mk (SharedPtr.fromPointer p { L.sys with world := w1 }).2
       (L.handles ++ [⟨(SharedPtr.fromPointer p { L.sys with world := w1 }).1⟩])).Inv := by
  have hfresh := L.owners_zero_of_fresh hI L.sys.nextBlock (le_refl _)
  have hufresh := L.unmakeCount_zero_of_fresh hI L.sys.nextBlock (le_refl _)
  constructor
  · intro h hm
    simp only [SharedPtr.fromPointer, List.mem_append, List.mem_singleton] at hm ⊢
    rcases hm with hm | rfl
    · have := hI.handle h hm
      have hne : h._deviceSPtr.ctrl ≠ L.sys.nextBlock := by omega
      simp [Function.update_noteq hne, this.2]
      omega
    · simp
  · intro g hg
    rw [Life.owners_append]
    simp only [SharedPtr.fromPointer] at hg ⊢
    by_cases hgn : g = L.sys.nextBlock
    · subst hgn
      simp [hfresh]
    · have hlt : g < L.sys.nextBlock := by omega
      have hne : ¬ L.sys.nextBlock = g := fun h => hgn h.symm
      simp [Function.update_noteq hgn, hI.count g hlt, hne]
  · intro u hm
    simp only [SharedPtr.fromPointer] at hm ⊢
    have := hI.call u hm
    have hne : u.1 ≠ L.sys.nextBlock := by omega
    simp [Function.update_noteq hne, this.2]
    omega
  · intro g hg
    rw [Life.owners_append]
    simp only [SharedPtr.fromPointer] at hg ⊢
    by_cases hgn : g = L.sys.nextBlock
    · subst hgn
      have : (Sys.unmakeCount
          { world := w1, blocks := Function.update L.sys.blocks L.sys.nextBlock ⟨p, 1⟩,
            nextBlock := L.sys.nextBlock + 1, stderr := L.sys.stderr,
            unmakes := L.sys.unmakes } L.sys.nextBlock) = L.sys.unmakeCount L.sys.nextBlock := rfl
      rw [this, hufresh]
      simp
    · have hlt : g < L.sys.nextBlock := by omega
      have hne : ¬ L.sys.nextBlock = g := fun h => hgn h.symm
      have := hI.once g hlt
      simp only [hne, if_false, Nat.add_zero]
      exact this

theorem Life.inv_world {W : Type} (L : Life W) (hI : L.Inv) (w1 : W) :
    (Life.mk { L.sys with world := w1 } L.handles).Inv :=
  ⟨hI.handle, hI.count, hI.call, hI.once⟩

theorem Life.inv_construct {W : Type} (N : Native W) (L : Life W) (hI : L.Inv) (how : Ctor) :
    (L.step N (.construct how)).Inv := by
  cases how with
  | kwargs k =>
    simp only [Life.step, Device.construct, Device.mk_kwargs]
    cases hx : N.make_kwargs k L.sys.world with
    | mk r w1 =>
      cases r with
      | error e => exact L.inv_world hI w1
      | ok p => exact L.inv_fromPointer hI w1 p
  | args a =>
    simp only [Life.step, Device.construct, Device.mk_args]
    cases hx : N.make_string a L.sys.world with
    | mk r w1 =>
      cases r with
      | error e => exact L.inv_world hI w1
      | ok p => exact L.inv_fromPointer hI w1 p
  | pDevice p =>
    simp only [Life.step, Device.construct, Device.mk_pDevice]
    exact L.inv_fromPointer hI L.sys.world p

theorem Life.step_copy_none {W : Type} (N : Native W) (L : Life W) (i : Nat)
    (hh : L.handles[i]? = none) : L.step N (.copy i) = L := by
  simp [Life.step, hh]

theorem Life.step_copy_some {W : Type} (N : Native W) (L : Life W) (i : Nat) (h : Device)
    (hh : L.handles[i]? = some h) :
    L.step N (.copy i) = ⟨(h.copy L.sys).2, L.handles ++ [(h.copy L.sys).1]⟩ := by
  simp [Life.step, hh]

theorem Life.step_release_none {W : Type} (N : Native W) (L : Life W) (i : Nat)
    (hh : L.handles[i]? = none) : L.step N (.release i) = L := by
  simp [Life.step, hh]

theorem Life.step_release_some {W : Type} (N : Native W) (L : Life W) (i : Nat) (h : Device)
    (hh : L.handles[i]? = some h) :
    L.step N (.release i) = ⟨h.destroy N L.sys, L.handles.eraseIdx i⟩ := by
  simp [Life.step, hh]

theorem Life.inv_copy {W : Type} (N : Native W) (L : Life W) (hI : L.Inv) (i : Nat) :
    (L.step N (.copy i)).Inv := by
  cases hh : L.handles[i]? with
  | none => rw [Life.step_copy_none N L i hh]; exact hI
  | some h =>
    rw [Life.step_copy_some N L i h hh]
    have hm : h ∈ L.handles := List.getElem?_mem hh
    have hh1 := hI.handle h hm
    have hpos := L.owners_pos_of_mem h hm
    simp only [Device.copy]
    constructor
    · intro x hx
      simp only [List.mem_append, List.mem_singleton] at hx
      have hx' : x ∈ L.handles := by
        rcases hx with hx | rfl
        · exact hx
        · exact hm
      have := hI.handle x hx'
      refine ⟨this.1, ?_⟩
      show x._deviceSPtr.get = (Function.update L.sys.blocks h._deviceSPtr.ctrl _ _).ptr
      by_cases he : x._deviceSPtr.ctrl = h._deviceSPtr.ctrl
      · rw [he, Function.update_same]
        rw [he] at this
        exact this.2
      · rw [Function.update_noteq he]
        exact this.2
    · intro g hg
      rw [Life.owners_append]
      show (Function.update L.sys.blocks h._deviceSPtr.ctrl _ g).useCount = _
      by_cases he : g = h._deviceSPtr.ctrl
      · subst he
        rw [Function.update_same]
        simp [hI.count _ hh1.1]
      · rw [Function.update_noteq he]
        have hne : ¬ h._deviceSPtr.ctrl = g := fun h => he h.symm
        simp [hI.count g hg, hne]
    · intro u hu
      have := hI.call u hu
      refine ⟨this.1, ?_⟩
      show u.2 = (Function.update L.sys.blocks h._deviceSPtr.ctrl _ u.1).ptr
      by_cases he : u.1 = h._deviceSPtr.ctrl
      · rw [he, Function.update_same]
        rw [he] at this
        exact this.2
      · rw [Function.update_noteq he]
        exact this.2
    · intro g hg
      rw [Life.owners_append]
      have := hI.once g hg
      show L.sys.unmakeCount g = _
      by_cases he : h._deviceSPtr.ctrl = g
      · subst he
        have hne : L.owners h._deviceSPtr.ctrl ≠ 0 := by omega
        rw [this]
        simp [hne]
      · simp only [he, if_false, Nat.add_zero]
        exact this

theorem Life.owners_eraseIdx {W : Type} (L : Life W) (s : Sys W) (i : Nat) (h : Device)
    (hh : L.handles[i]? = some h) (g : Nat) :
    (Life.mk s (L.handles.eraseIdx i)).owners g + (if h._deviceSPtr.ctrl = g then 1 else 0)
      = L.owners g := by
  have := countP_eraseIdx_of_getElem? (fun x => decide (x._deviceSPtr.ctrl = g)) L.handles i h hh
  simpa [Life.owners] using this

theorem Life.inv_release {W : Type} (N : Native W) (L : Life W) (hI : L.Inv) (i : Nat) :
    (L.step N (.release i)).Inv := by
  cases hh : L.handles[i]? with
  | none => rw [Life.step_release_none N L i hh]; exact hI
  | some h =>
    rw [Life.step_release_some N L i h hh]
    have hm : h ∈ L.handles := List.getElem?_mem hh
    have hh1 := hI.handle h hm
    have hpos := L.owners_pos_of_mem h hm
    have hcnt := hI.count _ hh1.1
    have hown := fun s g => L.owners_eraseIdx s i h hh g
    have hblocks : (h.destroy N L.sys).blocks = Function.update L.sys.blocks h._deviceSPtr.ctrl
        { L.sys.blocks h._deviceSPtr.ctrl with
          useCount := (L.sys.blocks h._deviceSPtr.ctrl).useCount - 1 } := by
      simp only [Device.destroy]
      split <;> rfl
    have hnext : (h.destroy N L.sys).nextBlock = L.sys.nextBlock := by
      simp only [Device.destroy]
      split <;> rfl
    have hunm : (h.destroy N L.sys).unmakes = L.sys.unmakes ++
        (if (L.sys.blocks h._deviceSPtr.ctrl).useCount = 1
          then [(h._deviceSPtr.ctrl, (L.sys.blocks h._deviceSPtr.ctrl).ptr)] else []) := by
      simp only [Device.destroy]
      split
      · simp [deleter_unmakeCalls]
      · simp
    have hptr : ∀ g, ((h.destroy N L.sys).blocks g).ptr = (L.sys.blocks g).ptr := by
      intro g
      rw [hblocks]
      by_cases he : g = h._deviceSPtr.ctrl
      · subst he
        rw [Function.update_same]
      · rw [Function.update_noteq he]
    constructor
    · intro x hx
      have hx' : x ∈ L.handles := List.mem_of_mem_eraseIdx hx
      have := hI.handle x hx'
      show _ < (h.destroy N L.sys).nextBlock ∧ _ = ((h.destroy N L.sys).blocks _).ptr
      rw [hnext, hptr]
      exact this
    · intro g hg
      show ((h.destroy N L.sys).blocks g).useCount = _
      have hg' : g < L.sys.nextBlock := by
        have : g < (h.destroy N L.sys).nextBlock := hg
        rwa [hnext] at this
      have ho := hown (h.destroy N L.sys) g
      rw [hblocks]
      by_cases he : g = h._deviceSPtr.ctrl
      · subst he
        rw [Function.update_same]
        simp only [if_true] at ho
        show (L.sys.blocks h._deviceSPtr.ctrl).useCount - 1 = _
        omega
      · rw [Function.update_noteq he]
        have hne : ¬ h._deviceSPtr.ctrl = g := fun h => he h.symm
        simp only [hne, if_false, Nat.add_zero] at ho
        rw [hI.count g hg', ← ho]
    · intro u hu
      show u.1 < (h.destroy N L.sys).nextBlock ∧ u.2 = ((h.destroy N L.sys).blocks u.1).ptr
      rw [hnext, hptr]
      have hu' : u ∈ (h.destroy N L.sys).unmakes := hu
      rw [hunm, List.mem_append] at hu'
      rcases hu' with hu' | hu'
      · exact hI.call u hu'
      · split at hu'
        · simp only [List.mem_singleton] at hu'
          subst hu'
          exact ⟨hh1.1, rfl⟩
        · simp at hu'
    · intro g hg
      have hg' : g < L.sys.nextBlock := by
        have : g < (h.destroy N L.sys).nextBlock := hg
        rwa [hnext] at this
      have ho := hown (h.destroy N L.sys) g
      have honce := hI.once g hg'
      show (h.destroy N L.sys).unmakeCount g = _
      have hcount : (h.destroy N L.sys).unmakeCount g = L.sys.unmakeCount g +
          (if (L.sys.blocks h._deviceSPtr.ctrl).useCount = 1 ∧ h._deviceSPtr.ctrl = g
            then 1 else 0) := by
        unfold Sys.unmakeCount
        rw [hunm, List.countP_append]
        congr 1
        by_cases h1 : (L.sys.blocks h._deviceSPtr.ctrl).useCount = 1
        · by_cases h2 : h._deviceSPtr.ctrl = g
          · rw [if_pos h1, if_pos ⟨h1, h2⟩]
            simp [h2]
          · rw [if_pos h1, if_neg (fun hc => h2 hc.2)]
            simp [h2]
        · rw [if_neg h1, if_neg (fun hc => h1 hc.1)]
          simp
      rw [hcount, honce]
      by_cases he : h._deviceSPtr.ctrl = g
      · subst he
        simp only [if_true, and_true] at ho ⊢
        have hne : L.owners h._deviceSPtr.ctrl ≠ 0 := by omega
        simp only [hne, if_false, Nat.zero_add]
        by_cases h1 : (L.sys.blocks h._deviceSPtr.ctrl).useCount = 1
        · have : (Life.mk (h.destroy N L.sys) (L.handles.eraseIdx i)).owners
              h._deviceSPtr.ctrl = 0 := by omega
          simp [h1, this]
        · have : (Life.mk (h.destroy N L.sys) (L.handles.eraseIdx i)).owners
              h._deviceSPtr.ctrl ≠ 0 := by omega
          simp [h1, this]
      · simp only [he, if_false, Nat.add_zero, and_false] at ho ⊢
        rw [ho]

theorem Life.inv_step {W : Type} (N : Native W) (L : Life W) (hI : L.Inv) (st : LifeStep) :
    (L.step N st).Inv := by
  cases st with
  | construct how => exact L.inv_construct N hI how
  | copy i => exact L.inv_copy N hI i
  | release i => exact L.inv_release N hI i

theorem Life.inv_run {W : Type} (N : Native W) (L : Life W) (hI : L.Inv)
    (steps : List LifeStep) : (L.run N steps).Inv := by
  induction steps generalizing L with
  | nil => exact hI
  | cons st rest ih => exact ih (L.step N st) (L.inv_step N hI st)

theorem destroy_unmakes {W : Type} (N : Native W) (h : Device) (s : Sys W) :
    (h.destroy N s).unmakes = s.unmakes ++
      (if (s.blocks h._deviceSPtr.ctrl).useCount = 1
        then [(h._deviceSPtr.ctrl, (s.blocks h._deviceSPtr.ctrl).ptr)] else []) := by
  simp only [Device.destroy]
  split
  · simp [deleter_unmakeCalls]
  · simp

theorem destroy_ptr {W : Type} (N : Native W) (h : Device) (s : Sys W) (g : Nat) :
    ((h.destroy N s).blocks g).ptr = (s.blocks g).ptr := by
  have hblocks : (h.destroy N s).blocks = Function.update s.blocks h._deviceSPtr.ctrl
      { s.blocks h._deviceSPtr.ctrl with
        useCount := (s.blocks h._deviceSPtr.ctrl).useCount - 1 } := by
    simp only [Device.destroy]
    split <;> rfl
  rw [hblocks]
  by_cases he : g = h._deviceSPtr.ctrl
  · subst he
    rw [Function.update_same]
  · rw [Function.update_noteq he]

theorem construct_frame {W : Type} (N : Native W) (how : Ctor) (s : Sys W) :
    (Device.construct N how s).2.unmakes = s.unmakes ∧
    ∀ g, g < s.nextBlock → (Device.construct N how s).2.blocks g = s.blocks g := by
  have key : ∀ (p : Ptr) (w1 : W),
      (SharedPtr.fromPointer p { s with world := w1 }).2.unmakes = s.unmakes ∧
      ∀ g, g < s.nextBlock →
        (SharedPtr.fromPointer p { s with world := w1 }).2.blocks g = s.blocks g := by
    intro p w1
    refine ⟨rfl, fun g hg => ?_⟩
    simp only [SharedPtr.fromPointer]
    exact Function.update_noteq (by omega) _ _
  cases how with
  | kwargs k =>
    simp only [Device.construct, Device.mk_kwargs]
    cases hx : N.make_kwargs k s.world with
    | mk r w1 =>
      cases r with
      | error e => exact ⟨rfl, fun _ _ => rfl⟩
      | ok p => exact key p w1
  | args a =>
    simp only [Device.construct, Device.mk_args]
    cases hx : N.make_string a s.world with
    | mk r w1 =>
      cases r with
      | error e => exact ⟨rfl, fun _ _ => rfl⟩
      | ok p => exact key p w1
  | pDevice p =>
    simp only [Device.construct, Device.mk_pDevice]
    exact key p s.world

theorem construct_allocates {W : Type} (N : Native W) (how : Ctor) (s s1 : Sys W) (h : Device)
    (hmk : Device.construct N how s = (.ok h, s1)) :
    h._deviceSPtr.ctrl = s.nextBlock ∧ s1.nextBlock = s.nextBlock + 1 ∧
    s1.blocks s.nextBlock = ⟨h._deviceSPtr.get, 1⟩ := by
  have key : ∀ (p : Ptr) (w1 : W),
      ((.ok ⟨(SharedPtr.fromPointer p { s with world := w1 }).1⟩,
        (SharedPtr.fromPointer p { s with world := w1 }).2) : Except Exn Device × Sys W)
        = (.ok h, s1) →
      h._deviceSPtr.ctrl = s.nextBlock ∧ s1.nextBlock = s.nextBlock + 1 ∧
      s1.blocks s.nextBlock = ⟨h._deviceSPtr.get, 1⟩ := by
    intro p w1 he
    have h1 := Except.ok.inj (congrArg Prod.fst he)
    have h2 := congrArg Prod.snd he
    simp only at h1 h2
    subst h1
    subst h2
    simp [SharedPtr.fromPointer]
  cases how with
  | kwargs k =>
    simp only [Device.construct, Device.mk_kwargs] at hmk
    cases hx : N.make_kwargs k s.world with
    | mk r w1 =>
      cases r with
      | error e => simp [hx] at hmk
      | ok p =>
        rw [hx] at hmk
        exact key p w1 hmk
  | args a =>
    simp only [Device.construct, Device.mk_args] at hmk
    cases hx : N.make_string a s.world with
    | mk r w1 =>
      cases r with
      | error e => simp [hx] at hmk
      | ok p =>
        rw [hx] at hmk
        exact key p w1 hmk
  | pDevice p =>
    simp only [Device.construct, Device.mk_pDevice] at hmk
    exact key p s.world hmk

theorem Life.step_frame {W : Type} (N : Native W) (L : Life W) (st : LifeStep) :
    (∀ g, g < L.sys.nextBlock → ((L.step N st).sys.blocks g).ptr = (L.sys.blocks g).ptr) ∧
    (L.step N st).sys.unmakes = L.sys.unmakes ++ L.unmakeOf st := by
  cases st with
  | construct how =>
    have hf := construct_frame N how L.sys
    simp only [Life.step]
    cases hx : Device.construct N how L.sys with
    | mk r s1 =>
      rw [hx] at hf
      cases r with
      | error e => exact ⟨fun g hg => by rw [show _ = s1.blocks g from rfl, hf.2 g hg],
          by simpa [Life.unmakeOf] using hf.1⟩
      | ok h => exact ⟨fun g hg => by rw [show _ = s1.blocks g from rfl, hf.2 g hg],
          by simpa [Life.unmakeOf] using hf.1⟩
  | copy i =>
    cases hh : L.handles[i]? with
    | none => rw [Life.step_copy_none N L i hh]; simp [Life.unmakeOf]
    | some h =>
      rw [Life.step_copy_some N L i h hh]
      refine ⟨fun g _ => ?_, by simp [Device.copy, Life.unmakeOf]⟩
      show (Function.update L.sys.blocks h._deviceSPtr.ctrl _ g).ptr = _
      by_cases he : g = h._deviceSPtr.ctrl
      · subst he
        rw [Function.update_same]
      · rw [Function.update_noteq he]
  | release i =>
    cases hh : L.handles[i]? with
    | none => rw [Life.step_release_none N L i hh]; simp [Life.unmakeOf, hh]
    | some h =>
      rw [Life.step_release_some N L i h hh]
      refine ⟨fun g _ => destroy_ptr N h L.sys g, ?_⟩
      simp only [Life.unmakeOf, hh]
      exact destroy_unmakes N h L.sys

theorem deleter_world {W : Type} (N : Native W) (pDevice : Ptr) (w : W) :
    (DeviceDeleter.operator N pDevice w).world = (N.unmake pDevice w).2 := by
  unfold DeviceDeleter.operator
  cases hx : N.unmake pDevice w with
  | mk r w1 =>
    cases r with
    | ok u => rfl
    | error e => cases e <;> rfl

theorem destroy_world {W : Type} (N : Native W) (h : Device) (s : Sys W) :
    (h.destroy N s).world =
      if (s.blocks h._deviceSPtr.ctrl).useCount = 1
        then (N.unmake (s.blocks h._deviceSPtr.ctrl).ptr s.world).2 else s.world := by
  simp only [Device.destroy]
  split
  · exact deleter_world N _ _
  · rfl

theorem destroy_stderr {W : Type} (N : Native W) (h : Device) (s : Sys W) :
    (h.destroy N s).stderr = s.stderr ++
      (if (s.blocks h._deviceSPtr.ctrl).useCount = 1
        then (DeviceDeleter.operator N (s.blocks h._deviceSPtr.ctrl).ptr s.world).written
        else []) := by
  simp only [Device.destroy]
  split
  · rfl
  · simp

theorem construct_world {W : Type} (N : Native W) (how : Ctor) (s : Sys W) :
    (Device.construct N how s).2.world =
      match how with
      | .kwargs k => (N.make_kwargs k s.world).2
      | .args a => (N.make_string a s.world).2
      | .pDevice _ => s.world := by
  cases how with
  | kwargs k =>
    simp only [Device.construct, Device.mk_kwargs]
    cases hx : N.make_kwargs k s.world with
    | mk r w1 => cases r <;> rfl
  | args a =>
    simp only [Device.construct, Device.mk_args]
    cases hx : N.make_string a s.world with
    | mk r w1 => cases r <;> rfl
  | pDevice q => rfl

theorem Life.step_construct_world {W : Type} (N : Native W) (L : Life W) (how : Ctor) :
    (L.step N (.construct how)).sys.world = (Device.construct N how L.sys).2.world := by
  simp only [Life.step]
  cases hx : Device.construct N how L.sys with
  | mk r s1 => cases r <;> rfl

theorem Life.step_counts {W : Type} (N : Native W) (c : W → Ptr → Nat)
    (hu : ∀ p w q, c (N.unmake p w).2 q = c w q + if q = p then 1 else 0)
    (hk : ∀ a w, c (N.make_kwargs a w).2 = c w)
    (hs : ∀ a w, c (N.make_string a w).2 = c w)
    (L : Life W) (st : LifeStep) (q : Ptr) :
    c (L.step N st).sys.world q + L.sys.unmakesOn q
      = c L.sys.world q + (L.step N st).sys.unmakesOn q := by
  have hunm := (L.step_frame N st).2
  have hcount : (L.step N st).sys.unmakesOn q
      = L.sys.unmakesOn q + (L.unmakeOf st).countP (fun u => u.2 = q) := by
    unfold Sys.unmakesOn
    rw [hunm, List.countP_append]
  rw [hcount]
  cases st with
  | construct how =>
    rw [Life.step_construct_world, construct_world]
    cases how with
    | kwargs k => simp [Life.unmakeOf, hk]
    | args a => simp [Life.unmakeOf, hs]
    | pDevice p => simp [Life.unmakeOf]
  | copy i =>
    cases hh : L.handles[i]? with
    | none => rw [Life.step_copy_none N L i hh]; simp [Life.unmakeOf]
    | some h => rw [Life.step_copy_some N L i h hh]; simp [Life.unmakeOf, Device.copy]
  | release i =>
    cases hh : L.handles[i]? with
    | none => rw [Life.step_release_none N L i hh]; simp [Life.unmakeOf, hh]
    | some h =>
      rw [Life.step_release_some N L i h hh]
      simp only [Life.unmakeOf, hh]
      show c (h.destroy N L.sys).world q + _ = _
      rw [destroy_world]
      by_cases h1 : (L.sys.blocks h._deviceSPtr.ctrl).useCount = 1
      · rw [if_pos h1, if_pos h1, hu]
        by_cases hq : q = (L.sys.blocks h._deviceSPtr.ctrl).ptr
        · subst hq
          simp
          omega
        · have hq2 : ¬ (L.sys.blocks h._deviceSPtr.ctrl).ptr = q := fun e => hq e.symm
          simp [hq, hq2]
      · rw [if_neg h1, if_neg h1]
        simp

theorem Life.run_counts {W : Type} (N : Native W) (c : W → Ptr → Nat)
    (hu : ∀ p w q, c (N.unmake p w).2 q = c w q + if q = p then 1 else 0)
    (hk : ∀ a w, c (N.make_kwargs a w).2 = c w)
    (hs : ∀ a w, c (N.make_string a w).2 = c w)
    (L : Life W) (steps : List LifeStep) (q : Ptr) :
    c (L.run N steps).sys.world q + L.sys.unmakesOn q
      = c L.sys.world q + (L.run N steps).sys.unmakesOn q := by
  induction steps generalizing L with
  | nil => rfl
  | cons st rest ih =>
    have h1 := Life.step_counts N c hu hk hs L st q
    have h2 := ih (L.step N st)
    show c ((L.step N st).run N rest).sys.world q + _ = _ + ((L.step N st).run N rest).sys.unmakesOn q
    omega

theorem Life.Inv.by_pointer {W : Type} {L : Life W} (hI : L.Inv) (hd : L.sys.DistinctDevices)
    (g : Nat) (hg : g < L.sys.nextBlock) :
    L.holders (L.sys.blocks g).ptr = L.owners g ∧
    L.sys.unmakesOn (L.sys.blocks g).ptr = L.sys.unmakeCount g := by
  constructor
  · unfold Life.holders Life.owners
    apply List.countP_congr
    intro h hm
    have hh := hI.handle h hm
    simp only [decide_eq_true_eq]
    constructor
    · intro he
      exact hd _ _ hh.1 hg (by rw [← hh.2, he])
    · intro he
      rw [hh.2, he]
  · unfold Sys.unmakesOn Sys.unmakeCount
    apply List.countP_congr
    intro u hm
    have hu := hI.call u hm
    simp only [decide_eq_true_eq]
    constructor
    · intro he
      exact hd _ _ hu.1 hg (by rw [← hu.2, he])
    · intro he
      rw [hu.2, he]

/-- C5: for every native library, pointer and world, the deleter returns
normally and has called `unmake` exactly once, on the pointer it was given,
whether `unmake` returns, throws a standard exception or throws anything else:
nothing the teardown throws escapes. -/
theorem deleter_swallows_every_error {W : Type} (N : Native W) (pDevice : Ptr) (w : W) :
    (DeviceDeleter.operator N pDevice w).outcome = .ok () ∧
    (DeviceDeleter.operator N pDevice w).unmakeCalls = [pDevice] ∧
    (DeviceDeleter.operator N pDevice w).world = (N.unmake pDevice w).2 := by
  have ho : (DeviceDeleter.operator N pDevice w).outcome = .ok () := by
    unfold DeviceDeleter.operator
    cases hx : N.unmake pDevice w with
    | mk r w1 =>
      cases r with
      | ok u => rfl
      | error e => cases e <;> rfl
  refine ⟨ho, deleter_unmakeCalls N pDevice w, ?_⟩
  unfold DeviceDeleter.operator
  cases hx : N.unmake pDevice w with
  | mk r w1 =>
    cases r with
    | ok u => rfl
    | error e => cases e <;> rfl

/-- C6, as stated, fails: one native device can be acquired by two
constructions.  On the sample library, whose factory returns the device at
address 4096 to every call, two handles are constructed and the first is
released: `unmake` is called on device 4096 while the second handle, which
refers to device 4096, is still alive; after the second release `unmake` has
been called on that device twice. -/
theorem unmake_while_same_device_still_held :
    ((Life.init 0).run sampleNative
        [.construct (.args "driver=x"), .construct (.args "driver=x"),
         .release 0]).handles = [sampleDeviceAgain] ∧
    sampleDeviceAgain._deviceSPtr.get = 4096 ∧
    ((Life.init 0).run sampleNative
        [.construct (.args "driver=x"), .construct (.args "driver=x"),
         .release 0]).sys.unmakes = [(0, 4096)] ∧
    ((Life.init 0).run sampleNative
        [.construct (.args "driver=x"), .construct (.args "driver=x"),
         .release 0]).sys.unmakesOn 4096 = 1 ∧
    ((Life.init 0).run sampleNative
        [.construct (.args "driver=x"), .construct (.args "driver=x"),
         .release 0]).holders 4096 = 1 ∧
    ((Life.init 0).run sampleNative
        [.construct (.args "driver=x"), .construct (.args "driver=x"),
         .release 0, .release 0]).handles = [] ∧
    ((Life.init 0).run sampleNative
        [.construct (.args "driver=x"), .construct (.args "driver=x"),
         .release 0, .release 0]).sys.unmakesOn 4096 = 2 := by
  refine ⟨rfl, rfl, rfl, rfl, rfl, rfl, rfl⟩

/-- C6, amended: what is torn down exactly once is a construction.  A
construction acquires one pointer, returned by one `make` call or adopted from
one raw pointer, and one control block for it; the handles that share it are
the constructed handle and its copies.  After every sequence of construct, copy
and release steps, for every construction `g`: the use count is the number of
live handles that share it; `unmake` has been called by its deleter exactly
once if no handle that shares it is alive and not at all while one is; every
`unmake` call is made on the pointer its construction acquired; and in any
further step the number of `unmake` calls for `g` goes up, by one, exactly when
the step releases the only live handle that shares `g`.  That release runs the
native teardown on the pointer of the released handle, the world it leaves is
the world of the process afterwards, and what the deleter wrote is appended to
`stderr`; a release that leaves an owner, and a copy, leave the world and
`stderr` as they were.  However the teardown calls received by the native
library are counted, the count for a pointer has grown by the number of
`unmake` calls recorded for it.  A successful construction allocates one new
control block, with use count one, for the pointer it acquired.  When no two
constructions acquired the same native device, the same holds counted by
device: `unmake` has been called on the device's pointer once if no live handle
holds that pointer, and not at all while one does. -/
theorem unmake_exactly_once_at_last_release {W : Type} (N : Native W) (w : W)
    (steps : List LifeStep) (g : Nat) :
    (g < ((Life.init w).run N steps).sys.nextBlock →
      (((Life.init w).run N steps).sys.blocks g).useCount
        = ((Life.init w).run N steps).owners g ∧
      ((Life.init w).run N steps).sys.unmakeCount g
        = if ((Life.init w).run N steps).owners g = 0 then 1 else 0) ∧
    (∀ h ∈ ((Life.init w).run N steps).handles,
      h._deviceSPtr.ctrl < ((Life.init w).run N steps).sys.nextBlock ∧
      h._deviceSPtr.get = (((Life.init w).run N steps).sys.blocks h._deviceSPtr.ctrl).ptr) ∧
    (∀ u ∈ ((Life.init w).run N steps).sys.unmakes,
      u.1 < ((Life.init w).run N steps).sys.nextBlock ∧
      u.2 = (((Life.init w).run N steps).sys.blocks u.1).ptr) ∧
    (∀ st : LifeStep, g < ((Life.init w).run N steps).sys.nextBlock →
      ((((Life.init w).run N steps).step N st).sys.blocks g).ptr
        = (((Life.init w).run N steps).sys.blocks g).ptr ∧
      ((((Life.init w).run N steps).step N st).sys.unmakeCount g
          = ((Life.init w).run N steps).sys.unmakeCount g ∨
        (((Life.init w).run N steps).step N st).sys.unmakeCount g
          = ((Life.init w).run N steps).sys.unmakeCount g + 1) ∧
      ((((Life.init w).run N steps).step N st).sys.unmakeCount g
          = ((Life.init w).run N steps).sys.unmakeCount g + 1 ↔
        ∃ i h, st = .release i ∧ ((Life.init w).run N steps).handles[i]? = some h ∧
          h._deviceSPtr.ctrl = g ∧ ((Life.init w).run N steps).owners g = 1)) ∧
    (∀ (how : Ctor) (h : Device) (s1 : Sys W),
      Device.construct N how ((Life.init w).run N steps).sys = (.ok h, s1) →
      h._deviceSPtr.ctrl = ((Life.init w).run N steps).sys.nextBlock ∧
      s1.nextBlock = ((Life.init w).run N steps).sys.nextBlock + 1 ∧
      s1.blocks h._deviceSPtr.ctrl = ⟨h._deviceSPtr.get, 1⟩ ∧
      how.pointer N ((Life.init w).run N steps).sys.world = some h._deviceSPtr.get ∧
      s1.unmakes = ((Life.init w).run N steps).sys.unmakes) ∧
    (((Life.init w).run N steps).sys.DistinctDevices →
      g < ((Life.init w).run N steps).sys.nextBlock →
      ((Life.init w).run N steps).holders (((Life.init w).run N steps).sys.blocks g).ptr
        = ((Life.init w).run N steps).owners g ∧
      ((Life.init w).run N steps).sys.unmakesOn (((Life.init w).run N steps).sys.blocks g).ptr
        = if ((Life.init w).run N steps).holders
              (((Life.init w).run N steps).sys.blocks g).ptr = 0 then 1 else 0) ∧
    (∀ (i : Nat) (h : Device), ((Life.init w).run N steps).handles[i]? = some h →
      (((Life.init w).run N steps).owners h._deviceSPtr.ctrl = 1 →
        (((Life.init w).run N steps).step N (.release i)).sys.world
          = (N.unmake h._deviceSPtr.get ((Life.init w).run N steps).sys.world).2 ∧
        (((Life.init w).run N steps).step N (.release i)).sys.stderr
          = ((Life.init w).run N steps).sys.stderr ++
            (DeviceDeleter.operator N h._deviceSPtr.get
              ((Life.init w).run N steps).sys.world).written) ∧
      (((Life.init w).run N steps).owners h._deviceSPtr.ctrl ≠ 1 →
        (((Life.init w).run N steps).step N (.release i)).sys.world
          = ((Life.init w).run N steps).sys.world ∧
        (((Life.init w).run N steps).step N (.release i)).sys.stderr
          = ((Life.init w).run N steps).sys.stderr) ∧
      (((Life.init w).run N steps).step N (.copy i)).sys.world
        = ((Life.init w).run N steps).sys.world ∧
      (((Life.init w).run N steps).step N (.copy i)).sys.stderr
        = ((Life.init w).run N steps).sys.stderr) ∧
    (∀ (c : W → Ptr → Nat),
      (∀ p w1 q, c (N.unmake p w1).2 q = c w1 q + if q = p then 1 else 0) →
      (∀ a w1, c (N.make_kwargs a w1).2 = c w1) →
      (∀ a w1, c (N.make_string a w1).2 = c w1) →
      ∀ q : Ptr, c ((Life.init w).run N steps).sys.world q
        = c w q + ((Life.init w).run N steps).sys.unmakesOn q) := by
  have hcounts : ∀ (c : W → Ptr → Nat),
      (∀ p w1 q, c (N.unmake p w1).2 q = c w1 q + if q = p then 1 else 0) →
      (∀ a w1, c (N.make_kwargs a w1).2 = c w1) →
      (∀ a w1, c (N.make_string a w1).2 = c w1) →
      ∀ q : Ptr, c ((Life.init w).run N steps).sys.world q
        = c w q + ((Life.init w).run N steps).sys.unmakesOn q := by
    intro c hu hk hs q
    have := Life.run_counts N c hu hk hs (Life.init w) steps q
    have h0 : (Life.init w).sys.unmakesOn q = 0 := rfl
    have h1 : (Life.init w).sys.world = w := rfl
    rw [h0, h1] at this
    omega
  refine ⟨?_, ?_, ?_, ?_, ?_, ?_, ?_, hcounts⟩
  all_goals clear hcounts
  all_goals have hI := (Life.init w).inv_run N (Life.inv_init w) steps
  all_goals generalize (Life.init w).run N steps = L at hI ⊢
  · exact fun hg => ⟨hI.count g hg, hI.once g hg⟩
  · exact hI.handle
  · exact hI.call
  rotate_left 3
  · intro i h hh
    have hm : h ∈ L.handles := List.getElem?_mem hh
    have hh1 := hI.handle h hm
    have hcnt := hI.count _ hh1.1
    rw [Life.step_release_some N L i h hh, Life.step_copy_some N L i h hh]
    refine ⟨fun hone => ?_, fun hne => ?_, rfl, rfl⟩
    · have h1 : (L.sys.blocks h._deviceSPtr.ctrl).useCount = 1 := by omega
      refine ⟨?_, ?_⟩
      · show (h.destroy N L.sys).world = _
        rw [destroy_world, if_pos h1, hh1.2]
      · show (h.destroy N L.sys).stderr = _
        rw [destroy_stderr, if_pos h1, hh1.2]
    · have h1 : ¬ (L.sys.blocks h._deviceSPtr.ctrl).useCount = 1 := by omega
      refine ⟨?_, ?_⟩
      · show (h.destroy N L.sys).world = _
        rw [destroy_world, if_neg h1]
      · show (h.destroy N L.sys).stderr = _
        rw [destroy_stderr, if_neg h1]
        simp
  rotate_left 2
  · intro hd hg
    obtain ⟨h1, h2⟩ := hI.by_pointer hd g hg
    exact ⟨h1, by rw [h2, h1]; exact hI.once g hg⟩
  · intro st hg
    obtain ⟨hptr, hunm⟩ := L.step_frame N st
    refine ⟨hptr g hg, ?_, ?_⟩
    · unfold Sys.unmakeCount
      rw [hunm, List.countP_append]
      cases st with
      | construct how => simp [Life.unmakeOf]
      | copy i => simp [Life.unmakeOf]
      | release i =>
        cases hh : L.handles[i]? with
        | none => simp [Life.unmakeOf, hh]
        | some h =>
          simp only [Life.unmakeOf, hh]
          by_cases h1 : (L.sys.blocks h._deviceSPtr.ctrl).useCount = 1
          · rw [if_pos h1]
            by_cases he : h._deviceSPtr.ctrl = g
            · right; simp [he]
            · left; simp [he]
          · rw [if_neg h1]
            simp
    · unfold Sys.unmakeCount
      rw [hunm, List.countP_append]
      cases st with
      | construct how => simp [Life.unmakeOf]
      | copy i => simp [Life.unmakeOf]
      | release i =>
        cases hh : L.handles[i]? with
        | none => simp [Life.unmakeOf, hh]
        | some h =>
          have hm : h ∈ L.handles := List.getElem?_mem hh
          have hcnt := hI.count _ (hI.handle h hm).1
          simp only [Life.unmakeOf, hh]
          constructor
          · intro hc
            refine ⟨i, h, rfl, hh, ?_⟩
            by_cases h1 : (L.sys.blocks h._deviceSPtr.ctrl).useCount = 1
            · by_cases he : h._deviceSPtr.ctrl = g
              · subst he
                exact ⟨rfl, by omega⟩
              · rw [if_pos h1] at hc
                simp [he] at hc
            · rw [if_neg h1] at hc
              simp at hc
          · rintro ⟨j, h', hst, hh', he, hone⟩
            have hj : i = j := by injection hst
            subst hj
            have hh'' : h = h' := Option.some.inj (hh.symm.trans hh')
            subst hh''
            subst he
            have h1 : (L.sys.blocks h._deviceSPtr.ctrl).useCount = 1 := by omega
            rw [if_pos h1]
            simp
  · intro how h s1 hmk
    obtain ⟨h1, h2, h3⟩ := construct_allocates N how L.sys s1 h hmk
    have hf := construct_frame N how L.sys
    rw [hmk] at hf
    exact ⟨h1, h2, by rw [h1]; exact h3, construct_pointer N how L.sys s1 h hmk, hf.1⟩

/-- Witness for C6 amended: a handle is made, copied, and both handles are released;
`unmake` is called once, on the pointer `make` returned, by the second
release. -/
theorem unmake_exactly_once_at_last_release_witness :
    ((Life.init 0).run sampleNative
        [.construct (.args "driver=x"), .copy 0, .release 0]).sys.unmakes = [] ∧
    ((Life.init 0).run sampleNative
        [.construct (.args "driver=x"), .copy 0, .release 0, .release 0]).sys.unmakes
      = [(0, 4096)] ∧
    ((Life.init 0).run sampleNative
        [.construct (.args "driver=x"), .copy 0, .release 0, .release 0]).sys.unmakeCount 0
      = if ((Life.init 0).run sampleNative
        [.construct (.args "driver=x"), .copy 0, .release 0, .release 0]).owners 0 = 0
        then 1 else 0 :=
  ⟨rfl, rfl,
   ((unmake_exactly_once_at_last_release sampleNative 0
      [.construct (.args "driver=x"), .copy 0, .release 0, .release 0] 0).1 (by decide)).2⟩

/-! ## Register containers, the claims (C7, C8) -/

/-- C7: on a non-null handle, `WriteRegisters(name, addr, value)` runs as exactly
one native `writeRegisters` call with the same name and address and the list
whose element at each index is the element of `value` there modulo `2 ^ 32`:
the list has the length of `value`, an element below `2 ^ 32` arrives
unchanged, and an empty `value` gives the empty list. -/
theorem WriteRegisters_narrows_elementwise {W : Type} (N : Native W) (self : Device)
    (h : self._deviceSPtr.get ≠ 0) (name : String) (addr : Nat) (value : SizeVector) (w : W) :
    (self.WriteRegisters name addr value).run N w =
      forwardOnce N self._deviceSPtr.get
        (.writeRegisters name addr (value.map (fun v => v % 2 ^ 32))) w ∧
    (value.map (fun v => v % 2 ^ 32)).length = value.length ∧
    (∀ (i : Nat) (hi : i < value.length),
      (value.map (fun v => v % 2 ^ 32))[i]? = some (value[i] % 2 ^ 32)) ∧
    (∀ (i : Nat) (hi : i < value.length), value[i] < 2 ^ 32 →
      (value.map (fun v => v % 2 ^ 32))[i]? = some value[i]) ∧
    (value = [] → value.map (fun v => v % 2 ^ 32) = []) := by
  refine ⟨?_, by simp, ?_, ?_, ?_⟩
  · unfold Device.WriteRegisters
    rw [run_assert_bind N _ h]
    show (self._deviceSPtr.arrow _).run N w = _
    rw [run_arrow, transform_back_inserter_eq]
    rfl
  · intro i hi
    simp [List.getElem?_map, List.getElem?_eq_getElem hi]
  · intro i hi hlt
    simpa [List.getElem?_map, List.getElem?_eq_getElem hi] using hlt
  · intro hv
    simp [hv]

/-- Witness for C7: three values, one of them above `2 ^ 32`. -/
theorem WriteRegisters_narrows_elementwise_witness :
    sampleDevice._deviceSPtr.get ≠ 0 ∧
    (sampleDevice.WriteRegisters "rf" 16 [1, 4294967296 + 5, 4294967295]).run sampleNative 0
      = ⟨.returned (), 1, [(4096, .writeRegisters "rf" 16 [1, 5, 4294967295])]⟩ :=
  ⟨by decide,
   (WriteRegisters_narrows_elementwise sampleNative sampleDevice (by decide) "rf" 16
      [1, 4294967296 + 5, 4294967295] 0).1.trans rfl⟩

/-- C8: on a non-null handle, where `UIntPtrT` has at least 32 bits and the
native list holds 32-bit unsigned values, `ReadRegisters(name, addr, length)`
runs as exactly one native `readRegisters` call with the same name, address and
length, and what it returns is the native list itself, element for element in
the same order; every returned element is below `2 ^ 32`. -/
theorem ReadRegisters_widens_without_loss {W : Type} (P : Platform) (N : Native W)
    (self : Device) (h : self._deviceSPtr.get ≠ 0) (hP : 32 ≤ P.ptrBits)
    (name : String) (addr length : Nat) (w : W)
    (hty : ∀ (r : List Nat) (w1 : W),
      N.exec self._deviceSPtr.get ( NativeCall.readRegisters name addr length) w = (.ok r, w1) →
      ∀ x ∈ r, x < 2 ^ 32) :
    (self.ReadRegisters P name addr length).run N w =
      forwardOnce N self._deviceSPtr.get ( NativeCall.readRegisters name addr length) w ∧
    ∀ value : SizeVector,
      ((self.ReadRegisters P name addr length).run N w).outcome = .returned value →
      (∃ w1, N.exec self._deviceSPtr.get ( NativeCall.readRegisters name addr length) w
          = (.ok value, w1)) ∧
      ∀ x ∈ value, x < 2 ^ 32 := by
  have hrun := run_ReadRegisters_typed P N self h hP name addr length w hty
  refine ⟨hrun, fun value hv => ?_⟩
  rw [hrun] at hv
  obtain ⟨w1, hx⟩ := forwardOnce_returned N _ _ w value hv
  exact ⟨⟨w1, hx⟩, hty value w1 hx⟩

/-- Witness for C8: three registers read from address 7 of the sample device on
a 64-bit platform. -/
theorem ReadRegisters_widens_without_loss_witness :
    sampleDevice._deviceSPtr.get ≠ 0 ∧ 32 ≤ lp64.ptrBits ∧
    (sampleDevice.ReadRegisters lp64 "rf" 7 3).run sampleNative 0
      = ⟨.returned [7, 8, 9], 1, [(4096, .readRegisters "rf" 7 3)]⟩ :=
  ⟨by decide, by decide,
   (ReadRegisters_widens_without_loss lp64 sampleNative sampleDevice (by decide) (by decide)
      "rf" 7 3 0
      (by
        intro r w1 hx x hxm
        have hr : r = [7, 8, 9] := by
          have h1 := congrArg Prod.fst hx
          simp only [sampleNative] at h1
          exact (Except.ok.inj h1).symm
        subst hr
        simp at hxm
        rcases hxm with rfl | rfl | rfl <;> decide)).1.trans rfl⟩

/-! ## `__ToString` and `Equals` (C9, C10) -/

theorem Run.andThen_outcome_returned {W α β : Type} (r : Run W α) (f : α → W → Run W β)
    (a : α)
    (h : r.outcome = .returned a) : (r.andThen f).outcome = (f a r.world).outcome := by
  simp [Run.andThen, h]

theorem forwardOnce_of_ok {W : Type} (N : Native W) (p : Ptr) (c : NativeCall) (w : W)
    (r : c.Ret) (h : (N.exec p c w).1 = .ok r) :
    forwardOnce N p c w = ⟨.returned r, (N.exec p c w).2, [(p, c)]⟩ := by
  unfold forwardOnce
  cases hx : N.exec p c w with
  | mk x w1 =>
    rw [hx] at h
    simp only at h
    subst h
    rfl

theorem run_toString_leftFirst {W : Type} (P : Platform) (N : Native W) (self : Device)
    (h : self._deviceSPtr.get ≠ 0) (w : W) (hP : P.plusOrder = .leftFirst) :
    (self.__ToString P).run N w =
      (forwardOnce N self._deviceSPtr.get .getDriverKey w).andThen (fun (dk : String) w1 =>
        (forwardOnce N self._deviceSPtr.get .getHardwareKey w1).andThen (fun (hk : String) w2 =>
          ⟨.returned (dk ++ ":" ++ hk), w2, []⟩)) := by
  unfold Device.__ToString
  rw [run_assert_bind N _ h, hP]
  simp only [Prog.run_bind, run_arrow]
  rfl

theorem run_toString_rightFirst {W : Type} (P : Platform) (N : Native W) (self : Device)
    (h : self._deviceSPtr.get ≠ 0) (w : W) (hP : P.plusOrder = .rightFirst) :
    (self.__ToString P).run N w =
      (forwardOnce N self._deviceSPtr.get .getHardwareKey w).andThen (fun (hk : String) w1 =>
        (forwardOnce N self._deviceSPtr.get .getDriverKey w1).andThen (fun (dk : String) w2 =>
          ⟨.returned (dk ++ ":" ++ hk), w2, []⟩)) := by
  unfold Device.__ToString
  rw [run_assert_bind N _ h, hP]
  simp only [Prog.run_bind, run_arrow]
  rfl

theorem toString_outcome_of_stable {W : Type} (P : Platform) (N : Native W) (self : Device)
    (h : self._deviceSPtr.get ≠ 0) (dk hk : String)
    (hd : ∀ w, (N.exec self._deviceSPtr.get .getDriverKey w).1 = .ok dk)
    (hh : ∀ w, (N.exec self._deviceSPtr.get .getHardwareKey w).1 = .ok hk) (w : W) :
    ((self.__ToString P).run N w).outcome = .returned (dk ++ ":" ++ hk) := by
  cases hP : P.plusOrder with
  | leftFirst =>
    rw [run_toString_leftFirst P N self h w hP, forwardOnce_of_ok N _ _ w dk (hd w)]
    rw [Run.andThen_outcome_returned _ _ dk rfl, forwardOnce_of_ok N _ _ _ hk (hh _)]
    rw [Run.andThen_outcome_returned _ _ hk rfl]
  | rightFirst =>
    rw [run_toString_rightFirst P N self h w hP, forwardOnce_of_ok N _ _ w hk (hh w)]
    rw [Run.andThen_outcome_returned _ _ hk rfl, forwardOnce_of_ok N _ _ _ dk (hd _)]
    rw [Run.andThen_outcome_returned _ _ dk rfl]

theorem run_Equals_leftFirst {W : Type} (P : Platform) (N : Native W) (self other : Device)
    (h : self._deviceSPtr.get ≠ 0) (w : W) (hP : P.eqOrder = .leftFirst) :
    (self.Equals P other).run N w =
      ((self.__ToString P).run N w).andThen (fun mine w1 =>
        ((other.__ToString P).run N w1).andThen (fun theirs w2 =>
          ⟨.returned (mine == theirs), w2, []⟩)) := by
  unfold Device.Equals
  rw [run_assert_bind N _ h, hP]
  simp only [Prog.run_bind]
  rfl

theorem run_Equals_rightFirst {W : Type} (P : Platform) (N : Native W) (self other : Device)
    (h : self._deviceSPtr.get ≠ 0) (w : W) (hP : P.eqOrder = .rightFirst) :
    (self.Equals P other).run N w =
      ((other.__ToString P).run N w).andThen (fun theirs w1 =>
        ((self.__ToString P).run N w1).andThen (fun mine w2 =>
          ⟨.returned (mine == theirs), w2, []⟩)) := by
  unfold Device.Equals
  rw [run_assert_bind N _ h, hP]
  simp only [Prog.run_bind]
  rfl

theorem Equals_outcome_of_stable {W : Type} (P : Platform) (N : Native W)
    (dk hk : Ptr → String)
    (hd : ∀ p w, (N.exec p .getDriverKey w).1 = .ok (dk p))
    (hh : ∀ p w, (N.exec p .getHardwareKey w).1 = .ok (hk p))
    (a b : Device) (ha : a._deviceSPtr.get ≠ 0) (hb : b._deviceSPtr.get ≠ 0) (w : W) :
    ((a.Equals P b).run N w).outcome =
      .returned ((dk a._deviceSPtr.get ++ ":" ++ hk a._deviceSPtr.get) ==
                 (dk b._deviceSPtr.get ++ ":" ++ hk b._deviceSPtr.get)) := by
  have hsa := fun w => toString_outcome_of_stable P N a ha _ _ (hd _) (hh _) w
  have hsb := fun w => toString_outcome_of_stable P N b hb _ _ (hd _) (hh _) w
  cases hP : P.eqOrder with
  | leftFirst =>
    rw [run_Equals_leftFirst P N a b ha w hP]
    rw [Run.andThen_outcome_returned _ _ _ (hsa w), Run.andThen_outcome_returned _ _ _ (hsb _)]
  | rightFirst =>
    rw [run_Equals_rightFirst P N a b ha w hP]
    rw [Run.andThen_outcome_returned _ _ _ (hsb w), Run.andThen_outcome_returned _ _ _ (hsa _)]

/-- C9: on a non-null handle `__ToString` makes the two native calls
`getDriverKey` and `getHardwareKey`, in the order the compiler evaluates the
operands of `+`, and returns the driver key, then the one character `:`, then
the hardware key, with nothing else; in particular, for a device whose two keys
are `dk` and `hk` whenever asked, it returns `dk ++ ":" ++ hk`. -/
theorem toString_is_driverKey_colon_hardwareKey {W : Type} (P : Platform) (N : Native W)
    (self : Device) (h : self._deviceSPtr.get ≠ 0) (w : W) :
    (P.plusOrder = .leftFirst →
      (self.__ToString P).run N w =
        (forwardOnce N self._deviceSPtr.get .getDriverKey w).andThen (fun (dk : String) w1 =>
          (forwardOnce N self._deviceSPtr.get .getHardwareKey w1).andThen
            (fun (hk : String) w2 => ⟨.returned (dk ++ ":" ++ hk), w2, []⟩))) ∧
    (P.plusOrder = .rightFirst →
      (self.__ToString P).run N w =
        (forwardOnce N self._deviceSPtr.get .getHardwareKey w).andThen (fun (hk : String) w1 =>
          (forwardOnce N self._deviceSPtr.get .getDriverKey w1).andThen
            (fun (dk : String) w2 => ⟨.returned (dk ++ ":" ++ hk), w2, []⟩))) ∧
    (∀ dk hk : String,
      (∀ w1, (N.exec self._deviceSPtr.get .getDriverKey w1).1 = .ok dk) →
      (∀ w1, (N.exec self._deviceSPtr.get .getHardwareKey w1).1 = .ok hk) →
      ((self.__ToString P).run N w).outcome = .returned (dk ++ ":" ++ hk)) :=
  ⟨run_toString_leftFirst P N self h w, run_toString_rightFirst P N self h w,
   fun dk hk hd hh => toString_outcome_of_stable P N self h dk hk hd hh w⟩

/-- Witness for C9: the sample device, whose keys are "rtlsdr" and "R820T". -/
theorem toString_is_driverKey_colon_hardwareKey_witness :
    sampleDevice._deviceSPtr.get ≠ 0 ∧
    (sampleDevice.__ToString lp64).run sampleNative 0
      = ⟨.returned "rtlsdr:R820T", 2, [(4096, .getDriverKey), (4096, .getHardwareKey)]⟩ :=
  ⟨by decide,
   ((toString_is_driverKey_colon_hardwareKey lp64 sampleNative sampleDevice (by decide) 0).1
      rfl).trans rfl⟩

/-- C10: on a non-null handle `Equals(other)` evaluates `__ToString` of both
handles, in the order the compiler evaluates the operands of `==`, and returns
whether the two strings are the same.  Over a native library in which the
driver key and the hardware key of each device do not change between calls,
`a.Equals(b)` on non-null handles returns true exactly when `a.__ToString()`
and `b.__ToString()` return the same string, whenever these are called, and
`Equals` is reflexive, symmetric and transitive. -/
theorem Equals_is_equality_of_toString {W : Type} (P : Platform) (N : Native W) :
    (∀ (a b : Device) (w : W), a._deviceSPtr.get ≠ 0 → P.eqOrder = .leftFirst →
      (a.Equals P b).run N w =
        ((a.__ToString P).run N w).andThen (fun mine w1 =>
          ((b.__ToString P).run N w1).andThen (fun theirs w2 =>
            ⟨.returned (mine == theirs), w2, []⟩))) ∧
    (∀ (a b : Device) (w : W), a._deviceSPtr.get ≠ 0 → P.eqOrder = .rightFirst →
      (a.Equals P b).run N w =
        ((b.__ToString P).run N w).andThen (fun theirs w1 =>
          ((a.__ToString P).run N w1).andThen (fun mine w2 =>
            ⟨.returned (mine == theirs), w2, []⟩))) ∧
    (∀ dk hk : Ptr → String,
      (∀ p w, (N.exec p .getDriverKey w).1 = .ok (dk p)) →
      (∀ p w, (N.exec p .getHardwareKey w).1 = .ok (hk p)) →
      (∀ (a b : Device) (w wa wb : W), a._deviceSPtr.get ≠ 0 → b._deviceSPtr.get ≠ 0 →
        (((a.Equals P b).run N w).outcome = .returned true ↔
          ((a.__ToString P).run N wa).outcome = ((b.__ToString P).run N wb).outcome) ∧
        (((a.Equals P b).run N w).outcome = .returned false ↔
          ((a.__ToString P).run N wa).outcome ≠ ((b.__ToString P).run N wb).outcome)) ∧
      (∀ (a : Device) (w : W), a._deviceSPtr.get ≠ 0 →
        ((a.Equals P a).run N w).outcome = .returned true) ∧
      (∀ (a b : Device) (w w1 : W), a._deviceSPtr.get ≠ 0 → b._deviceSPtr.get ≠ 0 →
        ((a.Equals P b).run N w).outcome = .returned true →
        ((b.Equals P a).run N w1).outcome = .returned true) ∧
      (∀ (a b c : Device) (w w1 w2 : W), a._deviceSPtr.get ≠ 0 → b._deviceSPtr.get ≠ 0 →
        c._deviceSPtr.get ≠ 0 →
        ((a.Equals P b).run N w).outcome = .returned true →
        ((b.Equals P c).run N w1).outcome = .returned true →
        ((a.Equals P c).run N w2).outcome = .returned true)) := by
  refine ⟨fun a b w ha hP => run_Equals_leftFirst P N a b ha w hP,
    fun a b w ha hP => run_Equals_rightFirst P N a b ha w hP, ?_⟩
  intro dk hk hd hh
  have hE := Equals_outcome_of_stable P N dk hk hd hh
  have hS := fun (a : Device) (ha : a._deviceSPtr.get ≠ 0) (w : W) =>
    toString_outcome_of_stable P N a ha _ _ (hd _) (hh _) w
  refine ⟨?_, ?_, ?_, ?_⟩
  · intro a b w wa wb ha hb
    rw [hE a b ha hb w, hS a ha wa, hS b hb wb]
    constructor
    · constructor
      · intro heq
        have h1 := Outcome.returned.inj heq
        rw [beq_iff_eq.mp h1]
      · intro heq
        have h1 := Outcome.returned.inj heq
        rw [beq_iff_eq.mpr h1]
    · constructor
      · intro heq hne
        have h1 := Outcome.returned.inj heq
        have h2 := Outcome.returned.inj hne
        rw [beq_iff_eq.mpr h2] at h1
        exact Bool.noConfusion h1
      · intro hne
        congr 1
        cases hb' : (dk a._deviceSPtr.get ++ ":" ++ hk a._deviceSPtr.get ==
                     dk b._deviceSPtr.get ++ ":" ++ hk b._deviceSPtr.get) with
        | false => rfl
        | true => exact absurd (by rw [beq_iff_eq.mp hb']) hne
  · intro a w ha
    rw [hE a a ha ha w]
    simp
  · intro a b w w1 ha hb hab
    rw [hE a b ha hb w] at hab
    rw [hE b a hb ha w1]
    have h1 := beq_iff_eq.mp (Outcome.returned.inj hab)
    rw [h1]
    simp
  · intro a b c w w1 w2 ha hb hc hab hbc
    rw [hE a b ha hb w] at hab
    rw [hE b c hb hc w1] at hbc
    rw [hE a c ha hc w2]
    have h1 := beq_iff_eq.mp (Outcome.returned.inj hab)
    have h2 := beq_iff_eq.mp (Outcome.returned.inj hbc)
    rw [h1, h2]
    simp

/-- Witness for C10: the sample library, whose keys never change; a handle
equals itself. -/
theorem Equals_is_equality_of_toString_witness :
    sampleDevice._deviceSPtr.get ≠ 0 ∧
    ((sampleDevice.Equals lp64 sampleDevice).run sampleNative 0).outcome = .returned true :=
  ⟨by decide,
   ((Equals_is_equality_of_toString lp64 sampleNative).2.2 (fun _ => "rtlsdr") (fun _ => "R820T")
      (fun _ _ => rfl) (fun _ _ => rfl)).2.1 sampleDevice 0 (by decide)⟩

/-! ## `Equals` and the two keys (C11, C12) -/

theorem append_sep_inj {α : Type} (x : α) (l1 l2 r1 r2 : List α) (h1 : x ∉ l1) (h2 : x ∉ l2)
    (h : l1 ++ x :: r1 = l2 ++ x :: r2) : l1 = l2 ∧ r1 = r2 := by
  induction l1 generalizing l2 with
  | nil =>
    cases l2 with
    | nil => exact ⟨rfl, by simpa using h⟩
    | cons z l2 =>
      simp only [List.nil_append, List.cons_append, List.cons.injEq] at h
      exact absurd h.1 (fun e => h2 (by simp [e]))
  | cons y l1 ih =>
    cases l2 with
    | nil =>
      simp only [List.nil_append, List.cons_append, List.cons.injEq] at h
      exact absurd h.1 (fun e => h1 (by simp [e]))
    | cons z l2 =>
      simp only [List.cons_append, List.cons.injEq] at h
      have := ih l2 (fun hm => h1 (List.mem_cons_of_mem _ hm))
        (fun hm => h2 (List.mem_cons_of_mem _ hm)) h.2
      exact ⟨by rw [h.1, this.1], this.2⟩

theorem join_colon_inj (d1 h1 d2 h2 : String) (n1 : ':' ∉ d1.data) (n2 : ':' ∉ d2.data) :
    d1 ++ ":" ++ h1 = d2 ++ ":" ++ h2 ↔ d1 = d2 ∧ h1 = h2 := by
  constructor
  · intro h
    have hd : d1.data ++ ':' :: h1.data = d2.data ++ ':' :: h2.data := by
      have := congrArg String.data h
      simpa [String.data_append] using this
    obtain ⟨a, b⟩ := append_sep_inj ':' _ _ _ _ n1 n2 hd
    exact ⟨String.ext a, String.ext b⟩
  · rintro ⟨rfl, rfl⟩
    rfl

/-- C11: over a native library in which the keys of each device do not change
between calls, for non-null handles `a` and `b` whose driver keys both contain
no `:` character, `a.Equals(b)` returns true if and only if the driver keys of
`a` and `b` are equal and the hardware keys of `a` and `b` are equal, and
returns false otherwise. -/
theorem Equals_iff_both_keys_equal {W : Type} (P : Platform) (N : Native W)
    (dk hk : Ptr → String)
    (hd : ∀ p w, (N.exec p .getDriverKey w).1 = .ok (dk p))
    (hh : ∀ p w, (N.exec p .getHardwareKey w).1 = .ok (hk p))
    (a b : Device) (ha : a._deviceSPtr.get ≠ 0) (hb : b._deviceSPtr.get ≠ 0)
    (na : ':' ∉ (dk a._deviceSPtr.get).data) (nb : ':' ∉ (dk b._deviceSPtr.get).data)
    (w : W) :
    (((a.Equals P b).run N w).outcome = .returned true ↔
      dk a._deviceSPtr.get = dk b._deviceSPtr.get ∧
      hk a._deviceSPtr.get = hk b._deviceSPtr.get) ∧
    (((a.Equals P b).run N w).outcome = .returned false ↔
      ¬ (dk a._deviceSPtr.get = dk b._deviceSPtr.get ∧
         hk a._deviceSPtr.get = hk b._deviceSPtr.get)) := by
  rw [Equals_outcome_of_stable P N dk hk hd hh a b ha hb w]
  have hj := join_colon_inj (dk a._deviceSPtr.get) (hk a._deviceSPtr.get)
    (dk b._deviceSPtr.get) (hk b._deviceSPtr.get) na nb
  constructor
  · constructor
    · intro h
      exact hj.mp (beq_iff_eq.mp (Outcome.returned.inj h))
    · intro h
      rw [beq_iff_eq.mpr (hj.mpr h)]
  · constructor
    · intro h hk2
      have h1 := Outcome.returned.inj h
      rw [beq_iff_eq.mpr (hj.mpr hk2)] at h1
      exact Bool.noConfusion h1
    · intro h
      congr 1
      cases hb2 : (dk a._deviceSPtr.get ++ ":" ++ hk a._deviceSPtr.get ==
                   dk b._deviceSPtr.get ++ ":" ++ hk b._deviceSPtr.get) with
      | false => rfl
      | true => exact absurd (hj.mp (beq_iff_eq.mp hb2)) h

/-- Witness for C11: two handles on the sample device, whose driver key
"rtlsdr" has no `:`. -/
theorem Equals_iff_both_keys_equal_witness :
    sampleDevice._deviceSPtr.get ≠ 0 ∧ ':' ∉ ("rtlsdr" : String).data ∧
    (((sampleDevice.Equals lp64 sampleDeviceAgain).run sampleNative 0).outcome = .returned true ↔
      ("rtlsdr" : String) = "rtlsdr" ∧ ("R820T" : String) = "R820T") :=
  ⟨by decide, by decide,
   (Equals_iff_both_keys_equal lp64 sampleNative (fun _ => "rtlsdr") (fun _ => "R820T")
      (fun _ _ => rfl) (fun _ _ => rfl) sampleDevice sampleDeviceAgain (by decide) (by decide)
      (by decide) (by decide) 0).1⟩

/-- C12: `Equals` does not identify the pair of keys.  On the library
`colonNative` the handle `colonDeviceA` has driver key "a:b" and hardware key
"c", the handle `colonDeviceB` has driver key "a" and hardware key "b:c", the
two driver keys differ, the two hardware keys differ, and `Equals` between them
returns true, on every platform and in every world. -/
theorem Equals_true_on_different_key_pairs :
    colonDeviceA._deviceSPtr.get ≠ 0 ∧ colonDeviceB._deviceSPtr.get ≠ 0 ∧
    (∀ w, (colonDeviceA.GetDriverKey.run colonNative w).outcome = .returned "a:b") ∧
    (∀ w, (colonDeviceA.GetHardwareKey.run colonNative w).outcome = .returned "c") ∧
    (∀ w, (colonDeviceB.GetDriverKey.run colonNative w).outcome = .returned "a") ∧
    (∀ w, (colonDeviceB.GetHardwareKey.run colonNative w).outcome = .returned "b:c") ∧
    ("a:b" : String) ≠ "a" ∧ ("c" : String) ≠ "b:c" ∧
    (∀ (P : Platform) (w : Nat),
      ((colonDeviceA.Equals P colonDeviceB).run colonNative w).outcome = .returned true) ∧
    (∀ (P : Platform) (w : Nat),
      ((colonDeviceB.Equals P colonDeviceA).run colonNative w).outcome = .returned true) := by
  have hE := fun (P : Platform) =>
    Equals_outcome_of_stable P colonNative
      (fun p => if p = 1 then "a:b" else "a") (fun p => if p = 1 then "c" else "b:c")
      (fun _ _ => rfl) (fun _ _ => rfl)
  refine ⟨by decide, by decide, fun _ => rfl, fun _ => rfl, fun _ => rfl, fun _ => rfl,
    by decide, by decide, fun P w => ?_, fun P w => ?_⟩
  · rw [hE P colonDeviceA colonDeviceB (by decide) (by decide) w]
    rfl
  · rw [hE P colonDeviceB colonDeviceA (by decide) (by decide) w]
    rfl

/-! ## Failed construction (C13) -/

/-- C13: when the native factory raises an error for an argument map or an
argument string, the constructor raises that same error; nothing but the world
the factory left has changed: no control block has been allocated, so no
deleter exists that could call `unmake`, no `unmake` call has been made,
nothing has been written, and the handles alive are the ones alive before. -/
theorem failed_construction_leaves_nothing {W : Type} (N : Native W) (L : Life W) :
    (∀ (kwargs : Kwargs) (e : Exn) (w1 : W),
      N.make_kwargs kwargs L.sys.world = (.error e, w1) →
      Device.mk_kwargs N kwargs L.sys = (.error e, { L.sys with world := w1 }) ∧
      L.step N (.construct (.kwargs kwargs)) = ⟨{ L.sys with world := w1 }, L.handles⟩) ∧
    (∀ (args : String) (e : Exn) (w1 : W),
      N.make_string args L.sys.world = (.error e, w1) →
      Device.mk_args N args L.sys = (.error e, { L.sys with world := w1 }) ∧
      L.step N (.construct (.args args)) = ⟨{ L.sys with world := w1 }, L.handles⟩) ∧
    (∀ (how : Ctor) (e : Exn) (s1 : Sys W),
      Device.construct N how L.sys = (.error e, s1) →
      s1.unmakes = L.sys.unmakes ∧ s1.nextBlock = L.sys.nextBlock ∧
      s1.blocks = L.sys.blocks ∧ s1.stderr = L.sys.stderr ∧
      (L.step N (.construct how)).handles = L.handles ∧
      (L.step N (.construct how)).sys.unmakes = L.sys.unmakes) := by
  refine ⟨?_, ?_, ?_⟩
  · intro kwargs e w1 hx
    simp [Life.step, Device.construct, Device.mk_kwargs, hx]
  · intro args e w1 hx
    simp [Life.step, Device.construct, Device.mk_args, hx]
  · intro how e s1 hx
    have hstep : L.step N (.construct how) = ⟨s1, L.handles⟩ := by
      simp [Life.step, hx]
    rw [hstep]
    cases how with
    | kwargs k =>
      simp only [Device.construct, Device.mk_kwargs] at hx
      cases hm : N.make_kwargs k L.sys.world with
      | mk r w1 =>
        cases r with
        | error e1 =>
          rw [hm] at hx
          have h2 := congrArg Prod.snd hx
          simp only at h2
          subst h2
          exact ⟨rfl, rfl, rfl, rfl, rfl, rfl⟩
        | ok q =>
          rw [hm] at hx
          exact absurd (congrArg Prod.fst hx) (by simp)
    | args a =>
      simp only [Device.construct, Device.mk_args] at hx
      cases hm : N.make_string a L.sys.world with
      | mk r w1 =>
        cases r with
        | error e1 =>
          rw [hm] at hx
          have h2 := congrArg Prod.snd hx
          simp only at h2
          subst h2
          exact ⟨rfl, rfl, rfl, rfl, rfl, rfl⟩
        | ok q =>
          rw [hm] at hx
          exact absurd (congrArg Prod.fst hx) (by simp)
    | pDevice q =>
      simp only [Device.construct, Device.mk_pDevice] at hx
      exact absurd (congrArg Prod.fst hx) (by simp)

/-- Witness for C13: the factory of the sample library fails on the empty
argument string. -/
theorem failed_construction_leaves_nothing_witness :
    sampleNative.make_string "" (Life.init 0).sys.world = (.error (.std "no match"), 1) ∧
    (Device.mk_args sampleNative "" (Life.init 0).sys).1 = .error (.std "no match") ∧
    ((Life.init 0).step sampleNative (.construct (.args ""))).handles = [] ∧
    ((Life.init 0).step sampleNative (.construct (.args ""))).sys.unmakes = [] :=
  ⟨rfl,
   congrArg Prod.fst
     (((failed_construction_leaves_nothing sampleNative (Life.init 0)).2.1 "" (.std "no match") 1
        rfl).1),
   congrArg Life.handles
     (((failed_construction_leaves_nothing sampleNative (Life.init 0)).2.1 "" (.std "no match") 1
        rfl).2),
   rfl⟩

/-! ## Register conversions round-trip (C14) -/

theorem run_WriteRegisters {W : Type} (N : Native W) (self : Device)
    (h : self._deviceSPtr.get ≠ 0) (name : String) (addr : Nat) (value : SizeVector) (w : W) :
    (self.WriteRegisters name addr value).run N w =
      forwardOnce N self._deviceSPtr.get
        (.writeRegisters name addr (value.map (fun v => v % 2 ^ 32))) w := by
  unfold Device.WriteRegisters
  rw [run_assert_bind N _ h]
  show (self._deviceSPtr.arrow _).run N w = _
  rw [run_arrow, transform_back_inserter_eq]
  rfl

theorem widen_then_narrow (P : Platform) (hP : 32 ≤ P.ptrBits) (r : List Nat)
    (hr : ∀ x ∈ r, x < 2 ^ 32) :
    transform_back_inserter (static_cast_UIntPtrT P) r [] = r ∧
    transform_back_inserter static_cast_unsigned
      (transform_back_inserter (static_cast_UIntPtrT P) r []) [] = r := by
  have hlt : ∀ x ∈ r, x < 2 ^ P.ptrBits := fun x hx =>
    lt_of_lt_of_le (hr x hx) (Nat.pow_le_pow_right (by decide) hP)
  have h1 : transform_back_inserter (static_cast_UIntPtrT P) r [] = r := by
    rw [transform_back_inserter_eq]
    exact map_mod_of_lt _ r hlt
  refine ⟨h1, ?_⟩
  rw [h1, transform_back_inserter_eq]
  exact map_mod_of_lt _ r hr

/-- C14: where `UIntPtrT` has at least 32 bits, for every list `r` of 32-bit
unsigned values the widening conversion of `ReadRegisters` followed by the
narrowing conversion of `WriteRegisters` gives back `r`; and when the native
`readRegisters` returns such a list `r`, `ReadRegisters` on a non-null handle
returns a list that, passed as it is to `WriteRegisters`, reaches the native
`writeRegisters` as `r`. -/
theorem register_conversions_round_trip (P : Platform) (hP : 32 ≤ P.ptrBits) :
    (∀ r : List Nat, (∀ x ∈ r, x < 2 ^ 32) →
      transform_back_inserter static_cast_unsigned
        (transform_back_inserter (static_cast_UIntPtrT P) r []) [] = r) ∧
    (∀ (W : Type) (N : Native W) (self : Device), self._deviceSPtr.get ≠ 0 →
      ∀ (name : String) (addr length : Nat) (w w1 : W) (r : List Nat),
      N.exec self._deviceSPtr.get ( NativeCall.readRegisters name addr length) w = (.ok r, w1) →
      (∀ x ∈ r, x < 2 ^ 32) →
      ∃ value : SizeVector,
        ((self.ReadRegisters P name addr length).run N w).outcome = .returned value ∧
        ∀ (name2 : String) (addr2 : Nat) (w2 : W),
          (self.WriteRegisters name2 addr2 value).run N w2 =
            forwardOnce N self._deviceSPtr.get
              ( NativeCall.writeRegisters name2 addr2 r) w2) := by
  refine ⟨fun r hr => (widen_then_narrow P hP r hr).2, ?_⟩
  intro W N self h name addr length w w1 r hx hr
  have hlt : ∀ x ∈ r, x < 2 ^ P.ptrBits := fun x hxm =>
    lt_of_lt_of_le (hr x hxm) (Nat.pow_le_pow_right (by decide) hP)
  refine ⟨r, ?_, ?_⟩
  · rw [run_ReadRegisters P N self h]
    have hf := forwardOnce_of_ok N self._deviceSPtr.get
      ( NativeCall.readRegisters name addr length) w r (by rw [hx])
    rw [hf, Run.andThen_outcome_returned _ _ r rfl]
    show Outcome.returned (r.map (fun x => x % 2 ^ P.ptrBits)) = _
    rw [map_mod_of_lt _ r hlt]
  · intro name2 addr2 w2
    rw [run_WriteRegisters N self h, map_mod_of_lt _ r hr]

/-- Witness for C14: three registers of the sample device are read on a 64-bit
platform and written back. -/
theorem register_conversions_round_trip_witness :
    32 ≤ lp64.ptrBits ∧
    transform_back_inserter static_cast_unsigned
      (transform_back_inserter (static_cast_UIntPtrT lp64) [7, 8, 4294967295] []) []
      = [7, 8, 4294967295] :=
  ⟨by decide,
   (register_conversions_round_trip lp64 (by decide)).1 [7, 8, 4294967295] (by decide)⟩

/-! ## The handle is not re-targeted (C15) -/

theorem run_GetPointer {W : Type} (N : Native W) (self : Device)
    (h : self._deviceSPtr.get ≠ 0) (w : W) :
    self.GetPointer.run N w = ⟨.returned self._deviceSPtr.get, w, []⟩ := by
  unfold Device.GetPointer
  rw [run_assert_bind N _ h]
  rfl

/-- C15: on a non-null handle `GetPointer` makes no native call and returns the
address the handle holds, which is not zero.  For every wrapper operation with
any arguments, the data member that the run of the method body leaves in the
object is the one it found, so the handle refers to the same native device
after the operation as before; in every sequence of operations the handle after
each operation is the handle before it, and `GetPointer` returns that same
non-zero value before and after every operation.  Two non-null handles return the same
`GetPointer` value exactly when they hold the same native device address; live
copies that share a control block do so, and where each native device was
acquired by one construction only, handles with the same `GetPointer` value
share a control block. -/
theorem GetPointer_is_stable {W : Type} (P : Platform) (N : Native W) (self : Device)
    (h : self._deviceSPtr.get ≠ 0) :
    (∀ w : W, self.GetPointer.run N w = ⟨.returned self._deviceSPtr.get, w, []⟩) ∧
    (∀ (op : Op) (w w1 : W),
      (self.invoke P op).member N w self._deviceSPtr = self._deviceSPtr ∧
      self.afterCall P N op w = self ∧
      ((self.afterCall P N op w).GetPointer.run N w1).outcome
        = (self.GetPointer.run N w1).outcome) ∧
    (∀ (ops : List Op) (w : W), ∀ r ∈ self.runOps P N ops w,
      r.after = r.before ∧
      ∃ v : Nat, v ≠ 0 ∧
        (∀ w1 : W, (r.before.GetPointer.run N w1).outcome = .returned v) ∧
        (∀ w2 : W, (r.after.GetPointer.run N w2).outcome = .returned v)) ∧
    (∀ (other : Device), other._deviceSPtr.get ≠ 0 → ∀ w1 w2 : W,
      ((self.GetPointer.run N w1).outcome = (other.GetPointer.run N w2).outcome ↔
        self._deviceSPtr.get = other._deviceSPtr.get)) ∧
    (∀ (w0 : W) (steps : List LifeStep),
      ∀ a ∈ ((Life.init w0).run N steps).handles,
      ∀ b ∈ ((Life.init w0).run N steps).handles,
      (a._deviceSPtr.ctrl = b._deviceSPtr.ctrl → a._deviceSPtr.get = b._deviceSPtr.get) ∧
      (((Life.init w0).run N steps).sys.DistinctDevices →
        a._deviceSPtr.get = b._deviceSPtr.get → a._deviceSPtr.ctrl = b._deviceSPtr.ctrl)) := by
  refine ⟨fun w => run_GetPointer N self h w, ?_, ?_, ?_, ?_⟩
  · intro op w w1
    exact ⟨(invoke_assignFree P self op).member N w _, afterCall_eq P N self op w,
      by rw [afterCall_eq P N self op w]⟩
  · intro ops w r hr
    obtain ⟨h1, h2⟩ := runOps_handle_unchanged P N self ops w r hr
    refine ⟨by rw [h1, h2], self._deviceSPtr.get, h, fun w1 => ?_, fun w2 => ?_⟩
    · rw [h1, run_GetPointer N self h w1]
    · rw [h2, run_GetPointer N self h w2]
  · intro other ho w1 w2
    rw [run_GetPointer N self h w1, run_GetPointer N other ho w2]
    constructor
    · intro he
      exact Outcome.returned.inj he
    · intro he
      show Outcome.returned _ = Outcome.returned _
      rw [he]
  · intro w0 steps a ha b hb
    have hI := (Life.init w0).inv_run N (Life.inv_init w0) steps
    have ia := hI.handle a ha
    have ib := hI.handle b hb
    refine ⟨fun hc => by rw [ia.2, ib.2, hc], fun hd he => ?_⟩
    exact hd _ _ ia.1 ib.1 (by rw [← ia.2, ← ib.2, he])

/-- Witness for C15: the sample device, alone and in a sequence of `SetGain`
and `Equals`. -/
theorem GetPointer_is_stable_witness :
    sampleDevice._deviceSPtr.get ≠ 0 ∧
    sampleDevice.GetPointer.run sampleNative 3 = ⟨.returned 4096, 3, []⟩ ∧
    ∀ r ∈ sampleDevice.runOps lp64 sampleNative [.SetGain ⟨0⟩ 0 ⟨9⟩, .Equals sampleDevice] 0,
      r.after = r.before ∧
      ∃ v : Nat, v ≠ 0 ∧
        (∀ w1 : Nat, (r.before.GetPointer.run sampleNative w1).outcome = .returned v) ∧
        (∀ w2 : Nat, (r.after.GetPointer.run sampleNative w2).outcome = .returned v) :=
  ⟨by decide, (GetPointer_is_stable lp64 sampleNative sampleDevice (by decide)).1 3,
   (GetPointer_is_stable lp64 sampleNative sampleDevice (by decide)).2.2.1
     [.SetGain ⟨0⟩ 0 ⟨9⟩, .Equals sampleDevice] 0⟩

/-! ## The handle carries no state of its own (C16) -/

theorem invoke_eq_of_same_pointer (P : Platform) (a b : Device)
    (h : a._deviceSPtr.get = b._deviceSPtr.get) (op : Op) : a.invoke P op = b.invoke P op := by
  obtain ⟨⟨pa, ca⟩⟩ := a
  obtain ⟨⟨pb, cb⟩⟩ := b
  have hp : pa = pb := h
  subst hp
  cases op <;> rfl

theorem runEither_eq_first {W : Type} (P : Platform) (N : Native W) (a b : Device)
    (h : a._deviceSPtr.get = b._deviceSPtr.get) (calls : List (Bool × Op)) (w : W) :
    runEither P N a b calls w = runEither P N a a calls w := by
  induction calls generalizing w with
  | nil => rfl
  | cons c rest ih =>
    obtain ⟨onFirst, op⟩ := c
    have hinv : (if onFirst then a else b).invoke P op = (if onFirst then a else a).invoke P op := by
      cases onFirst
      · exact (invoke_eq_of_same_pointer P a b h op).symm
      · rfl
    simp only [runEither, hinv, ih]

/-- C16: for two non-null handles that refer to the same native device, every
wrapper operation with the same arguments is the same method body on either
handle, so in every world (whatever wrapper calls came before) it makes the
same native calls, leaves the same world and ends with the same result, with no
assertion failing on either handle; and a sequence of operations spread over
the two handles in any way runs as the same sequence made on the first handle
alone. -/
theorem same_device_same_behaviour {W : Type} (P : Platform) (N : Native W) (a b : Device)
    (ha : a._deviceSPtr.get ≠ 0) (hb : b._deviceSPtr.get ≠ 0)
    (hab : a._deviceSPtr.get = b._deviceSPtr.get) :
    (∀ op : Op, a.invoke P op = b.invoke P op) ∧
    (∀ (op : Op) (w : W), (a.invoke P op).run N w = (b.invoke P op).run N w) ∧
    (∀ (calls : List (Bool × Op)) (w : W),
      runEither P N a b calls w = runEither P N a a calls w) ∧
    (∀ (op : Op) (w : W), (∀ o ∈ op.handleArgs, o._deviceSPtr.get ≠ 0) →
      ((a.invoke P op).run N w).outcome.ended ≠ .assertFailed ∧
      ((b.invoke P op).run N w).outcome.ended ≠ .assertFailed) := by
  refine ⟨invoke_eq_of_same_pointer P a b hab, fun op w => ?_,
    runEither_eq_first P N a b hab, fun op w hargs => ⟨?_, ?_⟩⟩
  · rw [invoke_eq_of_same_pointer P a b hab op]
  · exact (invoke_assertFree P ha op hargs).run_ended N w
  · exact (invoke_assertFree P hb op hargs).run_ended N w

/-- Witness for C16: two handles on the device at address 4096 that do not
share a control block; `GetGain` runs the same on both. -/
theorem same_device_same_behaviour_witness :
    sampleDevice._deviceSPtr.get ≠ 0 ∧ sampleDeviceAgain._deviceSPtr.get ≠ 0 ∧
    sampleDevice._deviceSPtr.get = sampleDeviceAgain._deviceSPtr.get ∧
    (sampleDevice.invoke lp64 (.GetGain ⟨1⟩ 0)).run sampleNative 5
      = (sampleDeviceAgain.invoke lp64 (.GetGain ⟨1⟩ 0)).run sampleNative 5 :=
  ⟨by decide, by decide, rfl,
   (same_device_same_behaviour lp64 sampleNative sampleDevice sampleDeviceAgain (by decide)
      (by decide) rfl).2.1 (.GetGain ⟨1⟩ 0) 5⟩

/-! ## What the deleter writes (C17) -/

theorem join_singleton (m : String) : String.join [m] = m := by
  simp [String.join]

/-- C17: when the native teardown throws a standard exception with message `m`
the deleter writes `m` to `stderr`, in one `fputs` call, and the text that
reaches `stderr` is exactly `m`; when the teardown throws anything else it
writes exactly "Unknown error."; when the teardown returns normally it writes
nothing.  In every case it writes at most once, and `fputs` adds nothing to
what it is given. -/
theorem deleter_reports_what_it_swallows {W : Type} (N : Native W) (pDevice : Ptr) (w : W) :
    (∀ (m : String) (w1 : W), N.unmake pDevice w = (.error (.std m), w1) →
      (DeviceDeleter.operator N pDevice w).written = [m] ∧
      (DeviceDeleter.operator N pDevice w).text = m) ∧
    (∀ w1 : W, N.unmake pDevice w = (.error .other, w1) →
      (DeviceDeleter.operator N pDevice w).written = ["Unknown error."] ∧
      (DeviceDeleter.operator N pDevice w).text = "Unknown error.") ∧
    (∀ (u : Unit) (w1 : W), N.unmake pDevice w = (.ok u, w1) →
      (DeviceDeleter.operator N pDevice w).written = [] ∧
      (DeviceDeleter.operator N pDevice w).text = "") ∧
    (DeviceDeleter.operator N pDevice w).written.length ≤ 1 := by
  refine ⟨?_, ?_, ?_, ?_⟩
  · intro m w1 hx
    have hw : (DeviceDeleter.operator N pDevice w).written = [m] := by
      simp [DeviceDeleter.operator, hx]
    exact ⟨hw, by rw [DeleterRun.text, hw, join_singleton]⟩
  · intro w1 hx
    have hw : (DeviceDeleter.operator N pDevice w).written = ["Unknown error."] := by
      simp [DeviceDeleter.operator, hx]
    exact ⟨hw, by rw [DeleterRun.text, hw, join_singleton]⟩
  · intro u w1 hx
    have hw : (DeviceDeleter.operator N pDevice w).written = [] := by
      simp [DeviceDeleter.operator, hx]
    exact ⟨hw, by rw [DeleterRun.text, hw]; rfl⟩
  · unfold DeviceDeleter.operator
    cases hx : N.unmake pDevice w with
    | mk r w1 =>
      cases r with
      | ok u => simp
      | error e => cases e <;> simp

/-- Witness for C17: the teardown of the sample library throws "busy" at
address 13. -/
theorem deleter_reports_what_it_swallows_witness :
    sampleNative.unmake 13 0 = (.error (.std "busy"), 1) ∧
    (DeviceDeleter.operator sampleNative 13 0).written = ["busy"] ∧
    (DeviceDeleter.operator sampleNative 13 0).text = "busy" :=
  ⟨rfl, (deleter_reports_what_it_swallows sampleNative 13 0).1 "busy" 1 rfl⟩

/-! ## `ReadUART` and its timeout (C18) -/

theorem static_cast_long_of_inRange (P : Platform) (hL : 0 < P.longBits) (t : Int)
    (h1 : -(2 ^ (P.longBits - 1)) ≤ t) (h2 : t < 2 ^ (P.longBits - 1)) :
    static_cast_long P t = t := by
  unfold static_cast_long
  have hM : (0 : Int) < 2 ^ (P.longBits - 1) := by positivity
  have h2M : (2 : Int) ^ P.longBits = 2 * 2 ^ (P.longBits - 1) := by
    conv_lhs => rw [show P.longBits = (P.longBits - 1) + 1 by omega]
    rw [pow_succ]
    ring
  rw [h2M, Int.emod_eq_of_lt (by linarith) (by linarith)]
  ring

theorem static_cast_long_range (P : Platform) (hL : 0 < P.longBits) (t : Int) :
    -(2 ^ (P.longBits - 1)) ≤ static_cast_long P t ∧
    static_cast_long P t < 2 ^ (P.longBits - 1) ∧
    (2 : Int) ^ P.longBits ∣ static_cast_long P t - t := by
  unfold static_cast_long
  have hM : (0 : Int) < 2 ^ (P.longBits - 1) := by positivity
  have h2M : (2 : Int) ^ P.longBits = 2 * 2 ^ (P.longBits - 1) := by
    conv_lhs => rw [show P.longBits = (P.longBits - 1) + 1 by omega]
    rw [pow_succ]
    ring
  have hK : (0 : Int) < 2 ^ P.longBits := by positivity
  have hn := Int.emod_nonneg (t + 2 ^ (P.longBits - 1)) (ne_of_gt hK)
  have hl := Int.emod_lt_of_pos (t + 2 ^ (P.longBits - 1)) hK
  refine ⟨by linarith, by linarith, ?_⟩
  refine ⟨-((t + 2 ^ (P.longBits - 1)) / 2 ^ P.longBits), ?_⟩
  rw [Int.emod_def]
  ring

theorem run_ReadUART {W : Type} (P : Platform) (N : Native W) (self : Device)
    (h : self._deviceSPtr.get ≠ 0) (which : String) (timeoutUs : Int) (w : W) :
    (self.ReadUART P which timeoutUs).run N w =
      forwardOnce N self._deviceSPtr.get (.readUART which (static_cast_long P timeoutUs)) w :=
  run_assert_arrow N _ h _ w

/-- C18: on a non-null handle `ReadUART(which, timeoutUs)` runs as exactly one
native `readUART` call with the same name and the timeout converted to the
native `long`, and returns what that call returns.  The converted value lies in
the signed range of a `long` of `w` bits and differs from `timeoutUs` by a
multiple of `2 ^ w`; when `timeoutUs` lies in that range it is `timeoutUs`
itself, which with a 64-bit `long` is the case for every 64-bit `timeoutUs`. -/
theorem ReadUART_narrows_timeout {W : Type} (P : Platform) (N : Native W) (self : Device)
    (h : self._deviceSPtr.get ≠ 0) (hL : 0 < P.longBits) (which : String) (timeoutUs : Int)
    (w : W) :
    (self.ReadUART P which timeoutUs).run N w =
      forwardOnce N self._deviceSPtr.get
        (.readUART which (static_cast_long P timeoutUs)) w ∧
    (-(2 ^ (P.longBits - 1)) ≤ timeoutUs → timeoutUs < 2 ^ (P.longBits - 1) →
      (self.ReadUART P which timeoutUs).run N w =
        forwardOnce N self._deviceSPtr.get (.readUART which timeoutUs) w) ∧
    (P.longBits = 64 → -(2 ^ 63) ≤ timeoutUs → timeoutUs < 2 ^ 63 →
      (self.ReadUART P which timeoutUs).run N w =
        forwardOnce N self._deviceSPtr.get (.readUART which timeoutUs) w) ∧
    (-(2 ^ (P.longBits - 1)) ≤ static_cast_long P timeoutUs ∧
      static_cast_long P timeoutUs < 2 ^ (P.longBits - 1) ∧
      (2 : Int) ^ P.longBits ∣ static_cast_long P timeoutUs - timeoutUs) := by
  have hrun := run_ReadUART P N self h which timeoutUs w
  refine ⟨hrun, ?_, ?_, static_cast_long_range P hL timeoutUs⟩
  · intro h1 h2
    rw [hrun, static_cast_long_of_inRange P hL timeoutUs h1 h2]
  · intro h64 h1 h2
    rw [hrun, static_cast_long_of_inRange P hL timeoutUs (by rw [h64]; exact h1)
      (by rw [h64]; exact h2)]

/-- Witness for C18: a timeout of one second on a 64-bit platform. -/
theorem ReadUART_narrows_timeout_witness :
    sampleDevice._deviceSPtr.get ≠ 0 ∧ 0 < lp64.longBits ∧
    (sampleDevice.ReadUART lp64 "uart0" 1000000).run sampleNative 0
      = ⟨.returned "", 1, [(4096, .readUART "uart0" 1000000)]⟩ :=
  ⟨by decide, by decide,
   ((ReadUART_narrows_timeout lp64 sampleNative sampleDevice (by decide) (by decide) "uart0"
      1000000 0).2.1 (by decide) (by decide)).trans rfl⟩

end Java
end SoapySDR
